import Mathlib

/-! # Command buffers and their replay (`include/graphics.hpp`)

A shallow embedding of the deferred command list of the graphics layer:
the command records, the command buffer with its three pipeline states, the
dispatcher `detail::dispath_command` and the replay loop `present`; of the
descriptors with their factories and destroy functions; of the Targa loader
`extention::load_targa`; and of the frame loop `Mainloop::run` of
`include/application.hpp`.

Conventions of the embedding.

* The driver is a black box; every `gl*` entry point the code calls is a
  constructor of `GLCall`, and a function that talks to the driver returns
  the list of calls it issues, in program order.
* `uint32_t` values are `Nat`, `int32_t` values are `Int`; a conversion
  between the two is written out (`to_int32`, `to_uint32`).
* A `float` is carried by its bit pattern, no float arithmetic is needed.
* `CommandQueues` is a vector of pointers: a pointer is an address (`Nat`)
  into a heap of command buffers, so the same buffer can be listed twice.
-/

namespace graphics

/-! ## Machine integers and floats -/

/-- Conversion of an unsigned value to `int32_t` (two's complement wrap). -/
def to_int32 (n : Nat) : Int :=
  if n % 2 ^ 32 < 2 ^ 31 then (n % 2 ^ 32 : Nat) else ((n % 2 ^ 32 : Nat) : Int) - 2 ^ 32

/-- Conversion of a signed value to `uint32_t` (reduction modulo 2^32). -/
def to_uint32 (i : Int) : Nat :=
  (i % 2 ^ 32).toNat

/-- Conversion of an unsigned value to a signed 64-bit type (`GLsizeiptr`,
`GLintptr`). -/
def to_int64 (n : Nat) : Int :=
  if n % 2 ^ 64 < 2 ^ 63 then (n % 2 ^ 64 : Nat) else ((n % 2 ^ 64 : Nat) : Int) - 2 ^ 64

/-- A product of two `size_t` values. -/
def size_t_mul (a b : Nat) : Nat :=
  (a * b) % 2 ^ 64

/-- The type `u8_buffer`, a vector of bytes. -/
abbrev u8_buffer := List Nat

/-- A `float`, carried by its bit pattern. -/
structure GLfloat where
  bits : Nat
deriving DecidableEq, Repr

/-- The type `glm::vec2`. -/
structure vec2 where
  x : GLfloat
  y : GLfloat
deriving DecidableEq, Repr

/-- The type `glm::vec3`. -/
structure vec3 where
  x : GLfloat
  y : GLfloat
  z : GLfloat
deriving DecidableEq, Repr

/-- The type `glm::vec4`. -/
structure vec4 where
  x : GLfloat
  y : GLfloat
  z : GLfloat
  w : GLfloat
deriving DecidableEq, Repr

/-- The type `glm::mat4`, four columns. -/
structure mat4 where
  c0 : vec4
  c1 : vec4
  c2 : vec4
  c3 : vec4
deriving DecidableEq, Repr

/-- The bit pattern of `0.0f`. -/
def f0 : GLfloat := ⟨0⟩

/-- The bit pattern of `1.0f`. -/
def f1 : GLfloat := ⟨0x3F800000⟩

/-! ## Driver constants (values of the OpenGL registry) -/

def GL_NONE : Nat := 0
def GL_FALSE : Nat := 0
def GL_TRUE : Nat := 1
def GL_ZERO : Nat := 0
def GL_ONE : Nat := 1
def GL_SRC_ALPHA : Nat := 0x0302
def GL_ONE_MINUS_SRC_ALPHA : Nat := 0x0303
def GL_TRIANGLES : Nat := 0x0004
def GL_LESS : Nat := 0x0201
def GL_LEQUAL : Nat := 0x0203
def GL_FRONT : Nat := 0x0404
def GL_BACK : Nat := 0x0405
def GL_CULL_FACE : Nat := 0x0B44
def GL_DEPTH_TEST : Nat := 0x0B71
def GL_BLEND : Nat := 0x0BE2
def GL_UNSIGNED_SHORT : Nat := 0x1403
def GL_COLOR : Nat := 0x1800
def GL_DEPTH : Nat := 0x1801
def GL_LINEAR : Nat := 0x2601
def GL_COLOR_BUFFER_BIT : Nat := 0x4000
def GL_ARRAY_BUFFER : Nat := 0x8892
def GL_ELEMENT_ARRAY_BUFFER : Nat := 0x8893
def GL_UNIFORM_BUFFER : Nat := 0x8A11
def GL_LOWER_LEFT : Nat := 0x8CA1
def GL_FRAMEBUFFER : Nat := 0x8D40
def GL_NEGATIVE_ONE_TO_ONE : Nat := 0x935E
def GL_TEXTURE_2D : Nat := 0x0DE1
def GL_UNSIGNED_BYTE : Nat := 0x1401
def GL_FLOAT : Nat := 0x1406
def GL_HALF_FLOAT : Nat := 0x140B
def GL_DEPTH_COMPONENT : Nat := 0x1902
def GL_RGB : Nat := 0x1907
def GL_RGBA : Nat := 0x1908
def GL_LINEAR_MIPMAP_LINEAR : Nat := 0x2703
def GL_TEXTURE_MAG_FILTER : Nat := 0x2800
def GL_TEXTURE_MIN_FILTER : Nat := 0x2801
def GL_RGB8 : Nat := 0x8051
def GL_RGBA8 : Nat := 0x8058
def GL_BGR : Nat := 0x80E0
def GL_BGRA : Nat := 0x80E1
def GL_TEXTURE_BASE_LEVEL : Nat := 0x813C
def GL_TEXTURE_MAX_LEVEL : Nat := 0x813D
def GL_TEXTURE_MAX_ANISOTROPY : Nat := 0x84FE
def GL_RGBA32F : Nat := 0x8814
def GL_RGB32F : Nat := 0x8815
def GL_RGBA16F : Nat := 0x881A
def GL_RGB16F : Nat := 0x881B
def GL_STATIC_DRAW : Nat := 0x88E4
def GL_DEPTH_COMPONENT32F : Nat := 0x8CAC
def GL_FRAMEBUFFER_COMPLETE : Nat := 0x8CD5

/-- One call into the driver, with the arguments the code passes. A pointer
argument is represented by the data it points to. -/
inductive GLCall where
  | glEnable (cap : Nat)
  | glDisable (cap : Nat)
  | glBlendFunc (sfactor dfactor : Nat)
  | glCullFace (mode : Nat)
  | glDepthFunc (func : Nat)
  | glDepthMask (flag : Nat)
  | glClipControl (origin depth : Nat)
  | glClearNamedFramebufferfv (framebuffer buffer : Nat) (drawbuffer : Int) (value : List GLfloat)
  | glViewportIndexedfv (index : Nat) (v : vec4)
  | glBindBuffer (target buffer : Nat)
  | glBindBufferRange (target index buffer : Nat) (offset size : Int)
  | glBindProgramPipeline (pipeline : Nat)
  | glBindVertexArray (array : Nat)
  | glBindTextureUnit (unit texture : Nat)
  | glBindFramebuffer (target framebuffer : Nat)
  | glBlitNamedFramebuffer (readFramebuffer drawFramebuffer : Nat)
      (srcX0 srcY0 srcX1 srcY1 dstX0 dstY0 dstX1 dstY1 : Int) (mask filter : Nat)
  | glProgramUniform1fv (program : Nat) (location count : Int) (value : GLfloat)
  | glProgramUniform2fv (program : Nat) (location count : Int) (value : vec2)
  | glProgramUniform3fv (program : Nat) (location count : Int) (value : vec3)
  | glProgramUniform4fv (program : Nat) (location count : Int) (value : vec4)
  | glProgramUniformMatrix4fv (program : Nat) (location count : Int) (transpose : Nat) (value : mat4)
  | glDrawElementsBaseVertex (mode : Nat) (count : Int) (type : Nat) (basevertex : Int)
  | glDrawElementsInstancedBaseVertex (mode : Nat) (count : Int) (type : Nat)
      (instancecount basevertex : Int)
  | glDrawArrays (mode : Nat) (first count : Int)
  | glDrawArraysInstanced (mode : Nat) (first count instancecount : Int)
deriving DecidableEq, Repr

/-- One call into the driver made by a resource factory or a destroy
function, with the arguments the code passes. A pointer argument is
represented by the data it points to; for a call that creates objects this
is the names the driver writes. -/
inductive GLObjectCall where
  | glCreateTextures (target : Nat) (n : Int) (textures : List Nat)
  | glTextureParameteri (texture pname : Nat) (param : Int)
  | glTextureParameterf (texture pname : Nat) (param : GLfloat)
  | glTextureStorage2D (texture : Nat) (levels : Int) (internalformat : Nat) (width height : Int)
  | glTextureSubImage2D (texture : Nat) (level xoffset yoffset width height : Int)
      (format type : Nat) (pixels : List Nat)
  | glGenerateTextureMipmap (texture : Nat)
  | glCreateBuffers (n : Int) (buffers : List Nat)
  | glNamedBufferData (buffer : Nat) (size : Int) (data : List Nat) (usage : Nat)
  | glCreateVertexArrays (n : Int) (arrays : List Nat)
  | glEnableVertexArrayAttrib (vaobj index : Nat)
  | glVertexArrayAttribBinding (vaobj attribindex bindingindex : Nat)
  | glVertexArrayAttribFormat (vaobj attribindex : Nat) (size : Int) (type normalized : Nat)
      (relativeoffset : Nat)
  | glVertexArrayVertexBuffer (vaobj bindingindex buffer : Nat) (offset stride : Int)
  | glVertexArrayElementBuffer (vaobj buffer : Nat)
  | glDeleteTextures (n : Int) (textures : List Nat)
  | glDeleteRenderbuffers (n : Int) (renderbuffers : List Nat)
  | glDeleteFramebuffers (n : Int) (framebuffers : List Nat)
  | glDeleteProgram (program : Nat)
  | glDeleteProgramPipelines (n : Int) (pipelines : List Nat)
  | glDeleteBuffers (n : Int) (buffers : List Nat)
  | glDeleteVertexArrays (n : Int) (arrays : List Nat)
deriving DecidableEq, Repr

/-! ## Enumerations and pipeline states -/

inductive PixelFormat where
  | unknown
  | r8
  | rg8
  | rgb8
  | rgba8
  | bgr8
  | bgra8
  | r16f
  | r32f
  | rgb16f
  | rgba16f
  | rgb32f
  | rgba32f
  | depth
deriving DecidableEq, Repr

inductive VertexFormat where
  | unknown
  | v3_f32
  | v3_f32ui16
  | v3n3_f32ui16
  | v3t2_f32ui16
  | v3t2n3_f32ui16
  | v3uv2n3t3_f32ui16
deriving DecidableEq, Repr

inductive BufferType where
  | Unknown
  | VertexArray
  | VertexElements
  | Uniform
deriving DecidableEq, Repr

structure ColorBlendState where
  enable : Bool := false
  sfactor : Nat := GL_ONE
  dfactor : Nat := GL_ONE
deriving DecidableEq, Repr

structure RasterizerState where
  cull_faces : Bool := false
  cull_mode : Nat := GL_BACK
deriving DecidableEq, Repr

structure DepthStencilState where
  depth_test : Bool := false
  depth_write : Bool := true
  depth_func : Nat := GL_LESS
deriving DecidableEq, Repr

/-! ## Graphics objects the commands are built from -/

structure Buffer where
  id : Nat := 0
  size : Nat := 0
deriving DecidableEq, Repr

structure ProgramResourceInfo where
  name : String
  pid : Nat := 0
  location : Int := -1
  num : Int := 0
  type : Nat := 0
  buffer_binding : Nat := 0
deriving DecidableEq, Repr

structure ProgramPipeline where
  id : Nat := 0
  uniforms : List ProgramResourceInfo := []
  attributes : List ProgramResourceInfo := []
  uniform_blocks : List ProgramResourceInfo := []
deriving DecidableEq, Repr

/-! ## Commands -/

structure ClearCommand where
  color : vec4 := ⟨f0, f0, f0, f1⟩
  viewport : vec4 := ⟨f0, f0, f0, f0⟩
  depth : GLfloat := f1
  fb : Nat := 0
deriving DecidableEq, Repr

structure BindBufferCommand where
  type : BufferType := BufferType.Unknown
  block_index : Int := -1
  id : Nat := 0
  offset : Nat := 0
  size : Nat := 0
deriving DecidableEq, Repr

structure BindProgramCommand where
  id : Nat := 0
deriving DecidableEq, Repr

structure BindVertexArrayCommand where
  id : Nat := 0
deriving DecidableEq, Repr

structure BindTextureCommand where
  unit : Nat := 0
  id : Nat := 0
  sampler : Nat := 0
deriving DecidableEq, Repr

structure BindFramebufferCommand where
  id : Nat := 0
deriving DecidableEq, Repr

structure BlitFramebufferCommand where
  src : Nat := 0
  dst : Nat := 0
  src_x : Int := 0
  src_y : Int := 0
  src_w : Int := 0
  src_h : Int := 0
  dst_x : Int := 0
  dst_y : Int := 0
  dst_w : Int := 0
  dst_h : Int := 0
deriving DecidableEq, Repr

/-- The variant `std::variant<int, float, vec2, vec3, vec4, mat4>`. -/
inductive UniformValue where
  | int (v : Int)
  | float (v : GLfloat)
  | vec2 (v : graphics.vec2)
  | vec3 (v : graphics.vec3)
  | vec4 (v : graphics.vec4)
  | mat4 (v : graphics.mat4)
deriving DecidableEq, Repr

structure SetUniformCommand where
  pid : Nat := 0
  location : Int := -1
  count : Nat := 0
  value : UniformValue := UniformValue.int 0
  _name : String := ""
deriving DecidableEq, Repr

structure DrawElementsCommand where
  format : VertexFormat := VertexFormat.unknown
  mode : Nat := GL_TRIANGLES
  base_element : Nat := 0
  num_elements : Nat := 0
  num_instances : Nat := 1
deriving DecidableEq, Repr

/-- The variant `Command`; each alternative is named by the alias the header
gives its record (`clear_framebuffer = ClearCommand`, ...). -/
inductive Command where
  | clear_framebuffer (arg : ClearCommand)
  | bind_buffer (arg : BindBufferCommand)
  | bind_pipeline (arg : BindProgramCommand)
  | bind_vao (arg : BindVertexArrayCommand)
  | bind_texture (arg : BindTextureCommand)
  | bind_framebuffer (arg : BindFramebufferCommand)
  | blit_framebuffer (arg : BlitFramebufferCommand)
  | set_uniform (arg : SetUniformCommand)
  | draw_elements (arg : DrawElementsCommand)
deriving DecidableEq, Repr

structure CommandBuffer where
  presentation_clear : Bool := true
  color_blend : ColorBlendState := {}
  rasterizer : RasterizerState := {}
  depth_stencil : DepthStencilState := {}
  commands : List Command := []
deriving DecidableEq, Repr

/-- Member `CommandBuffer::push`. -/
def CommandBuffer.push (cb : CommandBuffer) (command : Command) : CommandBuffer :=
  { cb with commands := cb.commands ++ [command] }

/-- Member `CommandBuffer::clear`. -/
def CommandBuffer.clear (cb : CommandBuffer) : CommandBuffer :=
  { cb with commands := [] }

/-! ## Command constructors that resolve a name -/

/-- The loop of `BindBufferCommand(t, b, p, block_name)`: the first block of
that name sets `block_index` (a `uint32_t` stored into an `int32_t`). -/
def BindBufferCommand.resolve (block_name : String) (cmd : BindBufferCommand) :
    List ProgramResourceInfo → BindBufferCommand
  | [] => cmd
  | ub :: rest =>
    if ub.name = block_name then { cmd with block_index := to_int32 ub.buffer_binding }
    else BindBufferCommand.resolve block_name cmd rest

/-- Constructor `BindBufferCommand(t, b)`. -/
def BindBufferCommand.create (t : BufferType) (b : Buffer) : BindBufferCommand :=
  { type := t, id := b.id }

/-- Constructor `BindBufferCommand(t, b, p, block_name)`. -/
def BindBufferCommand.create_named (t : BufferType) (b : Buffer) (p : ProgramPipeline)
    (block_name : String) : BindBufferCommand :=
  BindBufferCommand.resolve block_name { type := t, id := b.id, offset := 0, size := b.size }
    p.uniform_blocks

/-- The loop of `SetUniformCommand(p, name, v)`: the first uniform of that
name fills the command; without one every member keeps its default. -/
def SetUniformCommand.resolve (name : String) (v : UniformValue) :
    List ProgramResourceInfo → SetUniformCommand
  | [] => {}
  | u :: rest =>
    if u.name = name then
      { location := u.location, count := to_uint32 u.num, value := v, pid := u.pid, _name := name }
    else SetUniformCommand.resolve name v rest

/-- Constructor `SetUniformCommand(p, name, v)`. -/
def SetUniformCommand.create (p : ProgramPipeline) (name : String) (v : UniformValue) :
    SetUniformCommand :=
  SetUniformCommand.resolve name v p.uniforms

/-! ## The dispatcher (`namespace detail`) -/

namespace detail

def set_color_blend_state (state : ColorBlendState) : List GLCall :=
  if state.enable then
    [GLCall.glEnable GL_BLEND, GLCall.glBlendFunc state.sfactor state.dfactor]
  else []

def set_rasterizer_state (state : RasterizerState) : List GLCall :=
  if state.cull_faces then
    [GLCall.glEnable GL_CULL_FACE, GLCall.glCullFace state.cull_mode]
  else []

def set_depth_stencil_state (state : DepthStencilState) : List GLCall :=
  (if state.depth_test then
    [GLCall.glEnable GL_DEPTH_TEST, GLCall.glDepthFunc state.depth_func]
  else []) ++
  (if state.depth_write then [GLCall.glDepthMask GL_TRUE] else [GLCall.glDepthMask GL_FALSE])

def clear_color_blend_state (_state : ColorBlendState) : List GLCall :=
  [GLCall.glDisable GL_BLEND]

def clear_rasterizer_state (_state : RasterizerState) : List GLCall :=
  [GLCall.glDisable GL_CULL_FACE]

def clear_depth_stencil_state (_state : DepthStencilState) : List GLCall :=
  [GLCall.glDepthMask GL_TRUE, GLCall.glDisable GL_DEPTH_TEST]

/-- The visitor of `dispath_uniform`: an `if constexpr` chain with a branch
for `float`, `vec2`, `vec3`, `vec4` and `mat4`; `count` is cast to `GLsizei`. -/
def dispath_uniform (u : UniformValue) (pid : Nat) (location : Int) (count : Nat) : List GLCall :=
  if pid = 0 then []
  else
    match u with
    | UniformValue.float arg => [GLCall.glProgramUniform1fv pid location (to_int32 count) arg]
    | UniformValue.vec2 arg => [GLCall.glProgramUniform2fv pid location (to_int32 count) arg]
    | UniformValue.vec3 arg => [GLCall.glProgramUniform3fv pid location (to_int32 count) arg]
    | UniformValue.vec4 arg => [GLCall.glProgramUniform4fv pid location (to_int32 count) arg]
    | UniformValue.mat4 arg =>
      [GLCall.glProgramUniformMatrix4fv pid location (to_int32 count) GL_FALSE arg]
    | UniformValue.int _ => []

def buffer_type (type : BufferType) : Nat :=
  match type with
  | BufferType.Unknown => GL_NONE
  | BufferType.VertexArray => GL_ARRAY_BUFFER
  | BufferType.VertexElements => GL_ELEMENT_ARRAY_BUFFER
  | BufferType.Uniform => GL_UNIFORM_BUFFER

def have_elements (f : VertexFormat) : Bool :=
  f != VertexFormat.v3_f32 && f != VertexFormat.unknown

/-- The visitor of `dispath_command`, one branch per alternative of `Command`. -/
def dispath_command (c : Command) (buf : CommandBuffer) : List GLCall :=
  match c with
  | Command.clear_framebuffer arg =>
    [GLCall.glClipControl GL_LOWER_LEFT GL_NEGATIVE_ONE_TO_ONE,
     GLCall.glClearNamedFramebufferfv arg.fb GL_COLOR 0
       [arg.color.x, arg.color.y, arg.color.z, arg.color.w]] ++
    (if buf.depth_stencil.depth_write then
      [GLCall.glClearNamedFramebufferfv arg.fb GL_DEPTH 0 [arg.depth]]
    else []) ++
    [GLCall.glViewportIndexedfv 0 arg.viewport]
  | Command.bind_buffer arg =>
    if arg.block_index = -1 then [GLCall.glBindBuffer (buffer_type arg.type) arg.id]
    else
      [GLCall.glBindBufferRange (buffer_type arg.type) (to_uint32 arg.block_index) arg.id
        arg.offset arg.size]
  | Command.bind_pipeline arg => [GLCall.glBindProgramPipeline arg.id]
  | Command.bind_vao arg => [GLCall.glBindVertexArray arg.id]
  | Command.bind_texture arg => [GLCall.glBindTextureUnit arg.unit arg.id]
  | Command.bind_framebuffer arg => [GLCall.glBindFramebuffer GL_FRAMEBUFFER arg.id]
  | Command.blit_framebuffer arg =>
    [GLCall.glBlitNamedFramebuffer arg.src arg.dst arg.src_x arg.src_y arg.src_w arg.src_h
      arg.dst_x arg.dst_y arg.dst_w arg.dst_h GL_COLOR_BUFFER_BIT GL_LINEAR]
  | Command.set_uniform arg => dispath_uniform arg.value arg.pid arg.location arg.count
  | Command.draw_elements arg =>
    if have_elements arg.format then
      if arg.num_instances = 1 then
        [GLCall.glDrawElementsBaseVertex GL_TRIANGLES (to_int32 arg.num_elements)
          GL_UNSIGNED_SHORT (to_int32 arg.base_element)]
      else
        [GLCall.glDrawElementsInstancedBaseVertex GL_TRIANGLES (to_int32 arg.num_elements)
          GL_UNSIGNED_SHORT (to_int32 arg.num_instances) (to_int32 arg.base_element)]
    else
      if arg.num_instances = 1 then
        [GLCall.glDrawArrays arg.mode (to_int32 arg.base_element) (to_int32 arg.num_elements)]
      else
        [GLCall.glDrawArraysInstanced arg.mode (to_int32 arg.base_element)
          (to_int32 arg.num_elements) (to_int32 arg.num_instances)]

end detail

/-! ## Replay: `present` -/

/-- A call that `present` makes to a function of `namespace detail`, with
its arguments. -/
inductive DetailCall where
  | set_color_blend_state (state : ColorBlendState)
  | set_rasterizer_state (state : RasterizerState)
  | set_depth_stencil_state (state : DepthStencilState)
  | dispath_command (c : Command) (buf : CommandBuffer)
  | clear_depth_stencil_state (state : DepthStencilState)
  | clear_rasterizer_state (state : RasterizerState)
  | clear_color_blend_state (state : ColorBlendState)
deriving DecidableEq, Repr

/-- The driver calls issued by one call to a function of `namespace detail`. -/
def DetailCall.run : DetailCall → List GLCall
  | DetailCall.set_color_blend_state state => detail.set_color_blend_state state
  | DetailCall.set_rasterizer_state state => detail.set_rasterizer_state state
  | DetailCall.set_depth_stencil_state state => detail.set_depth_stencil_state state
  | DetailCall.dispath_command c buf => detail.dispath_command c buf
  | DetailCall.clear_depth_stencil_state state => detail.clear_depth_stencil_state state
  | DetailCall.clear_rasterizer_state state => detail.clear_rasterizer_state state
  | DetailCall.clear_color_blend_state state => detail.clear_color_blend_state state

/-- The memory the pointers of a `CommandQueues` point into: the command
buffer stored at each address. -/
abbrev Heap := Nat → CommandBuffer

/-- The type `std::vector<CommandQueue*>`, a list of addresses. -/
abbrev CommandQueues := List Nat

/-- The inner loop of `present`, `for ( auto& c : q->commands )`: the seven
calls made for each command of the buffer `q`. -/
def present_commands (q : CommandBuffer) : List Command → List DetailCall
  | [] => []
  | c :: rest =>
    [DetailCall.set_color_blend_state q.color_blend,
     DetailCall.set_rasterizer_state q.rasterizer,
     DetailCall.set_depth_stencil_state q.depth_stencil,
     DetailCall.dispath_command c q,
     DetailCall.clear_depth_stencil_state q.depth_stencil,
     DetailCall.clear_rasterizer_state q.rasterizer,
     DetailCall.clear_color_blend_state q.color_blend] ++ present_commands q rest

/-- What one run of `present` leaves behind: the calls it made, in order,
and the memory of the command buffers. -/
structure Presented where
  calls : List DetailCall
  heap : Heap

/-- The function `present`: the outer loop over the queue pointers. -/
def present (heap : Heap) : CommandQueues → Presented
  | [] => ⟨[], heap⟩
  | q :: rest =>
    let calls := present_commands (heap q) (heap q).commands
    let heap1 :=
      if (heap q).presentation_clear then Function.update heap q (heap q).clear else heap
    let r := present heap1 rest
    ⟨calls ++ r.calls, r.heap⟩

/-- The driver calls of a run of `present`, in program order. -/
def Presented.trace (r : Presented) : List GLCall :=
  r.calls.flatMap DetailCall.run

/-- The invocations of the dispatcher among a list of calls: the command and
the buffer each one was given. -/
def dispatched : List DetailCall → List (Command × CommandBuffer)
  | [] => []
  | DetailCall.dispath_command c buf :: rest => (c, buf) :: dispatched rest
  | _ :: rest => dispatched rest

/-! ## Reading a replay

`present` walks a list of pointers, so a buffer that is listed twice is met
twice, and the second time it holds what the first visit left in it. -/

/-- The buffer found behind `q` by a visit that comes after the visits of
`before`: emptied if it clears on presentation and was visited already. -/
def buffer_at_visit (heap : Heap) (before : List Nat) (q : Nat) : CommandBuffer :=
  if (heap q).presentation_clear = true ∧ q ∈ before then (heap q).clear else heap q

/-- The buffers `present` meets, in list order, each as it is when met. -/
def visited (heap : Heap) (queue : CommandQueues) : List CommandBuffer :=
  (queue.zip queue.inits).map (fun e => buffer_at_visit heap e.2 e.1)

/-- The driver calls `present` issues around and for one command `c` of a
buffer `q`: the seven steps of the loop body. -/
def bracket (q : CommandBuffer) (c : Command) : List GLCall :=
  detail.set_color_blend_state q.color_blend ++
  detail.set_rasterizer_state q.rasterizer ++
  detail.set_depth_stencil_state q.depth_stencil ++
  detail.dispath_command c q ++
  detail.clear_depth_stencil_state q.depth_stencil ++
  detail.clear_rasterizer_state q.rasterizer ++
  detail.clear_color_blend_state q.color_blend

/-! ## The driver state the pipeline-state calls write -/

/-- The part of the driver state that the pipeline-state calls write. -/
structure PipelineConfig where
  blend : Bool
  blend_src : Nat
  blend_dst : Nat
  cull_face : Bool
  cull_face_mode : Nat
  depth_test : Bool
  depth_func : Nat
  depth_writemask : Bool
deriving DecidableEq, Repr

/-- The state of a fresh context. -/
def PipelineConfig.initial : PipelineConfig :=
  { blend := false, blend_src := GL_ONE, blend_dst := GL_ZERO, cull_face := false,
    cull_face_mode := GL_BACK, depth_test := false, depth_func := GL_LESS,
    depth_writemask := true }

/-- The effect of one driver call on the pipeline configuration: `glEnable`
and `glDisable` switch the capability they name, `glBlendFunc`, `glCullFace`,
`glDepthFunc` and `glDepthMask` store their arguments, and no other call the
dispatcher issues writes this part of the state. -/
def PipelineConfig.step (s : PipelineConfig) : GLCall → PipelineConfig
  | GLCall.glEnable cap =>
    if cap = GL_BLEND then { s with blend := true }
    else if cap = GL_CULL_FACE then { s with cull_face := true }
    else if cap = GL_DEPTH_TEST then { s with depth_test := true }
    else s
  | GLCall.glDisable cap =>
    if cap = GL_BLEND then { s with blend := false }
    else if cap = GL_CULL_FACE then { s with cull_face := false }
    else if cap = GL_DEPTH_TEST then { s with depth_test := false }
    else s
  | GLCall.glBlendFunc sfactor dfactor => { s with blend_src := sfactor, blend_dst := dfactor }
  | GLCall.glCullFace mode => { s with cull_face_mode := mode }
  | GLCall.glDepthFunc func => { s with depth_func := func }
  | GLCall.glDepthMask flag => { s with depth_writemask := decide (flag ≠ GL_FALSE) }
  | _ => s

/-- The pipeline configuration after a sequence of driver calls. -/
def PipelineConfig.run (s : PipelineConfig) (calls : List GLCall) : PipelineConfig :=
  calls.foldl PipelineConfig.step s

/-- The enable flags and the depth mask of a pipeline configuration:
blending, face culling, depth test, depth writes. -/
def PipelineConfig.flags (s : PipelineConfig) : Bool × Bool × Bool × Bool :=
  (s.blend, s.cull_face, s.depth_test, s.depth_writemask)

/-! ## Descriptors, their validity predicates and their destroy functions -/

structure Texture where
  id : Nat := 0
  target : Nat := 0
  width : Nat := 0
  height : Nat := 0
  depth : Nat := 0
deriving DecidableEq, Repr

def Texture.is_valid (t : Texture) : Bool :=
  t.id != 0

structure TextureSampler where
  id : Nat := 0
  target : Nat := 0
deriving DecidableEq, Repr

def TextureSampler.is_valid (t : TextureSampler) : Bool :=
  t.id != 0

def Buffer.is_valid (b : Buffer) : Bool :=
  b.id != 0

structure Renderbuffer where
  id : Nat := 0
  width : Nat := 0
  height : Nat := 0
  samples : Nat := 0
deriving DecidableEq, Repr

/-- The record `Framebuffer`; its `id` defaults to `-1` stored in a
`uint32_t`. -/
structure Framebuffer where
  id : Nat := to_uint32 (-1)
  width : Nat := 0
  height : Nat := 0
  mask : Nat := 0
  status : Nat := 0
deriving DecidableEq, Repr

def Framebuffer.is_valid (f : Framebuffer) : Bool :=
  f.id != to_uint32 (-1)

def Framebuffer.is_complete (f : Framebuffer) : Bool :=
  f.status == GL_FRAMEBUFFER_COMPLETE

/-- The conversion `Framebuffer::operator bool`. -/
def Framebuffer.to_bool (f : Framebuffer) : Bool :=
  f.is_complete && f.is_valid

structure Shader where
  id : Nat := 0
  target : Nat := 0
deriving DecidableEq, Repr

def Shader.is_valid (s : Shader) : Bool :=
  s.id != 0

structure Geometry where
  vb : Nat := 0
  eb : Nat := 0
  vao : Nat := 0
  format : VertexFormat := VertexFormat.unknown
  num_elements : Nat := 0
deriving DecidableEq, Repr

def Geometry.is_valid (g : Geometry) : Bool :=
  g.vao != 0

def ProgramPipeline.is_valid (p : ProgramPipeline) : Bool :=
  p.id != 0

/-- The function `destroy_texture`: the driver calls and the descriptor as
the call leaves it. -/
def destroy_texture (t : Texture) : List GLObjectCall × Texture :=
  ([GLObjectCall.glDeleteTextures 1 [t.id]], t)

def destroy_renderbuffer (rb : Renderbuffer) : List GLObjectCall × Renderbuffer :=
  ([GLObjectCall.glDeleteRenderbuffers 1 [rb.id]], rb)

def destroy_framebuffer (fb : Framebuffer) : List GLObjectCall × Framebuffer :=
  ([GLObjectCall.glDeleteFramebuffers 1 [fb.id]], fb)

def destroy_shader (shader : Shader) : List GLObjectCall × Shader :=
  ([GLObjectCall.glDeleteProgram shader.id], { shader with id := 0, target := GL_NONE })

def destroy_program_pipeline (p : ProgramPipeline) : List GLObjectCall × ProgramPipeline :=
  ([GLObjectCall.glDeleteProgramPipelines 1 [p.id]], { p with id := 0 })

def destroy_buffer (b : Buffer) : List GLObjectCall × Buffer :=
  ([GLObjectCall.glDeleteBuffers 1 [b.id]], { b with id := 0 })

def destroy_geometry (geometry : Geometry) : List GLObjectCall × Geometry :=
  ([GLObjectCall.glDeleteBuffers 1 [geometry.vb],
    GLObjectCall.glDeleteBuffers 1 [geometry.eb],
    GLObjectCall.glDeleteVertexArrays 1 [geometry.vao]],
   { geometry with vb := 0, eb := 0, vao := 0 })

/-! ## Textures: the pixel-format table and `create_texture` -/

inductive TextureFiltering where
  | None
  | Bilinear
  | Trilinear
  | Anisotropic
deriving DecidableEq, Repr

structure CreateTextureInfo where
  width : Nat := 0
  height : Nat := 0
  depth : Nat := 0
  format : PixelFormat := PixelFormat.unknown
  mipmaps : Bool := true
  levels : Nat := 4
  filter : TextureFiltering := TextureFiltering.Trilinear
  pixels : u8_buffer := []
deriving DecidableEq, Repr

/-- The function `detail::get_texture_format_from_pixelformat`; the three
reference parameters come in as arguments and go out as the result. -/
def detail.get_texture_format_from_pixelformat (pf : PixelFormat) (internalformat : Int)
    (format type : Nat) : Int × Nat × Nat :=
  match pf with
  | PixelFormat.bgr8 => (GL_RGB8, GL_BGR, GL_UNSIGNED_BYTE)
  | PixelFormat.bgra8 => (GL_RGBA8, GL_BGRA, GL_UNSIGNED_BYTE)
  | PixelFormat.rgb8 => (GL_RGB8, GL_RGB, GL_UNSIGNED_BYTE)
  | PixelFormat.rgba8 => (GL_RGBA8, GL_RGBA, GL_UNSIGNED_BYTE)
  | PixelFormat.rgb16f => (GL_RGB16F, GL_RGB, GL_HALF_FLOAT)
  | PixelFormat.rgba16f => (GL_RGBA16F, GL_RGBA, GL_HALF_FLOAT)
  | PixelFormat.rgb32f => (GL_RGB32F, GL_RGB, GL_FLOAT)
  | PixelFormat.rgba32f => (GL_RGBA32F, GL_RGBA, GL_FLOAT)
  | PixelFormat.depth => (GL_DEPTH_COMPONENT32F, GL_DEPTH_COMPONENT, GL_FLOAT)
  | _ => (internalformat, format, type)

/-- The bit pattern of `16.0f`. -/
def f16 : GLfloat := ⟨0x41800000⟩

/-- The function `detail::apply_texture_fitering`. -/
def detail.apply_texture_fitering (id : Nat) (filtering : TextureFiltering) (levels : Int) :
    List GLObjectCall :=
  match filtering with
  | TextureFiltering.None => []
  | TextureFiltering.Bilinear =>
    [GLObjectCall.glTextureParameteri id GL_TEXTURE_BASE_LEVEL 0,
     GLObjectCall.glTextureParameteri id GL_TEXTURE_MAX_LEVEL levels,
     GLObjectCall.glTextureParameteri id GL_TEXTURE_MAG_FILTER GL_LINEAR,
     GLObjectCall.glTextureParameteri id GL_TEXTURE_MIN_FILTER GL_LINEAR]
  | TextureFiltering.Trilinear =>
    [GLObjectCall.glTextureParameteri id GL_TEXTURE_BASE_LEVEL 0,
     GLObjectCall.glTextureParameteri id GL_TEXTURE_MAX_LEVEL levels,
     GLObjectCall.glTextureParameteri id GL_TEXTURE_MAG_FILTER GL_LINEAR,
     GLObjectCall.glTextureParameteri id GL_TEXTURE_MIN_FILTER GL_LINEAR_MIPMAP_LINEAR]
  | TextureFiltering.Anisotropic =>
    [GLObjectCall.glTextureParameteri id GL_TEXTURE_BASE_LEVEL 0,
     GLObjectCall.glTextureParameteri id GL_TEXTURE_MAX_LEVEL levels,
     GLObjectCall.glTextureParameteri id GL_TEXTURE_MAG_FILTER GL_LINEAR,
     GLObjectCall.glTextureParameteri id GL_TEXTURE_MIN_FILTER GL_LINEAR_MIPMAP_LINEAR,
     GLObjectCall.glTextureParameterf id GL_TEXTURE_MAX_ANISOTROPY f16]

/-- The function `create_texture`; `id` is the name the driver writes in
`glCreateTextures`. The three format variables start at zero. -/
def create_texture (id : Nat) (info : CreateTextureInfo) : List GLObjectCall × Texture :=
  let w := to_int32 info.width
  let h := to_int32 info.height
  let fmt := detail.get_texture_format_from_pixelformat info.format 0 0 0
  ([GLObjectCall.glCreateTextures GL_TEXTURE_2D 1 [id]] ++
   detail.apply_texture_fitering id info.filter (to_int32 info.levels) ++
   [GLObjectCall.glTextureStorage2D id (to_int32 info.levels) (to_uint32 fmt.1) w h] ++
   (if info.pixels.isEmpty then []
    else [GLObjectCall.glTextureSubImage2D id 0 0 0 w h fmt.2.1 fmt.2.2 info.pixels]) ++
   (if info.mipmaps then [GLObjectCall.glGenerateTextureMipmap id] else []),
   { id := id, target := GL_TEXTURE_2D, width := info.width, height := info.height, depth := 0 })

/-! ## Geometry: the vertex records and `create_geometry` -/

/-- A member of a vertex record. -/
inductive VertexField where
  | position
  | uv
  | normal
  | tangent
deriving DecidableEq, Repr

/-- The number of floats of a member: `position`, `normal` and `tangent`
are `vec3`, `uv` is `vec2`. -/
def VertexField.floats : VertexField → Nat
  | VertexField.position => 3
  | VertexField.uv => 2
  | VertexField.normal => 3
  | VertexField.tangent => 3

/-- A vertex record: its members in declaration order. All members are made
of 4-byte floats, so the record is packed. -/
abbrev VertexRecord := List VertexField

def v3t2n3_t : VertexRecord := [VertexField.position, VertexField.uv, VertexField.normal]

def v3_t : VertexRecord := [VertexField.position]

def v3n3_t : VertexRecord := [VertexField.position, VertexField.normal]

def v3t2_t : VertexRecord := [VertexField.position, VertexField.uv]

def v3uv2n3t3_t : VertexRecord :=
  [VertexField.position, VertexField.uv, VertexField.normal, VertexField.tangent]

/-- The operator `sizeof` on a vertex record. -/
def VertexRecord.sizeof (r : VertexRecord) : Nat :=
  4 * (r.map VertexField.floats).sum

/-- The operator `offsetof` on a vertex record and one of its members. -/
def VertexRecord.offsetof : VertexRecord → VertexField → Nat
  | [], _ => 0
  | f :: rest, m => if f = m then 0 else 4 * f.floats + VertexRecord.offsetof rest m

structure CreateGeometryInfo where
  vertices_num : Nat := 0
  indices_num : Nat := 0
  min : vec3 := ⟨f0, f0, f0⟩
  max : vec3 := ⟨f0, f0, f0⟩
  format : VertexFormat := VertexFormat.unknown
  vertices : u8_buffer := []
  indices : List Nat := []
deriving DecidableEq, Repr

/-- The names the driver writes for `create_geometry`: in `glCreateBuffers`
for the vertex buffer and for the element buffer, and in
`glCreateVertexArrays`. -/
structure GeometryNames where
  vbo : Nat
  ebo : Nat
  vao : Nat
deriving DecidableEq, Repr

/-- The three calls `create_geometry` makes for one attribute. -/
def vertex_attribute (vao index : Nat) (size : Int) (relativeoffset : Nat) : List GLObjectCall :=
  [GLObjectCall.glEnableVertexArrayAttrib vao index,
   GLObjectCall.glVertexArrayAttribBinding vao index 0,
   GLObjectCall.glVertexArrayAttribFormat vao index size GL_FLOAT GL_FALSE relativeoffset]

/-- The first `switch` of `create_geometry`: the buffers. The result is the
calls and the values of `vbo` and `ebo`. -/
def create_geometry_buffers (names : GeometryNames) (info : CreateGeometryInfo) :
    List GLObjectCall × Nat × Nat :=
  let indexed (record : VertexRecord) : List GLObjectCall × Nat × Nat :=
    ([GLObjectCall.glCreateBuffers 1 [names.vbo],
      GLObjectCall.glCreateBuffers 1 [names.ebo],
      GLObjectCall.glNamedBufferData names.vbo
        (to_int64 (size_t_mul info.vertices_num record.sizeof)) info.vertices GL_STATIC_DRAW,
      GLObjectCall.glNamedBufferData names.ebo
        (to_int64 (size_t_mul info.indices_num 2)) info.indices GL_STATIC_DRAW],
     names.vbo, names.ebo)
  match info.format with
  | VertexFormat.unknown => ([], 0, 0)
  | VertexFormat.v3_f32 =>
    ([GLObjectCall.glCreateBuffers 1 [names.vbo],
      GLObjectCall.glNamedBufferData names.vbo
        (to_int64 (size_t_mul info.vertices_num v3_t.sizeof)) info.vertices GL_STATIC_DRAW],
     names.vbo, 0)
  | VertexFormat.v3_f32ui16 => indexed v3_t
  | VertexFormat.v3n3_f32ui16 => indexed v3n3_t
  | VertexFormat.v3t2_f32ui16 => indexed v3t2_t
  | VertexFormat.v3t2n3_f32ui16 => indexed v3t2n3_t
  | VertexFormat.v3uv2n3t3_f32ui16 => indexed v3uv2n3t3_t

/-- The second `switch` of `create_geometry`: the attributes of the vertex
array `vao`, fed from `vbo` and `ebo`. The result is the calls and the value
of `num_elements` (a `size_t` stored into a `uint32_t`). -/
def create_geometry_attributes (vao vbo ebo : Nat) (info : CreateGeometryInfo) :
    List GLObjectCall × Nat :=
  match info.format with
  | VertexFormat.unknown => ([], 0)
  | VertexFormat.v3_f32 =>
    (vertex_attribute vao 0 3 (v3_t.offsetof VertexField.position) ++
     [GLObjectCall.glVertexArrayVertexBuffer vao 0 vbo 0 v3_t.sizeof],
     info.vertices_num % 2 ^ 32)
  | VertexFormat.v3_f32ui16 =>
    (vertex_attribute vao 0 3 (v3_t.offsetof VertexField.position) ++
     [GLObjectCall.glVertexArrayVertexBuffer vao 0 vbo 0 v3_t.sizeof,
      GLObjectCall.glVertexArrayElementBuffer vao ebo],
     info.indices_num % 2 ^ 32)
  | VertexFormat.v3n3_f32ui16 =>
    (vertex_attribute vao 0 3 (v3n3_t.offsetof VertexField.position) ++
     vertex_attribute vao 2 3 (v3n3_t.offsetof VertexField.normal) ++
     [GLObjectCall.glVertexArrayVertexBuffer vao 0 vbo 0 v3n3_t.sizeof,
      GLObjectCall.glVertexArrayElementBuffer vao ebo],
     info.indices_num % 2 ^ 32)
  | VertexFormat.v3t2_f32ui16 =>
    (vertex_attribute vao 0 3 (v3t2_t.offsetof VertexField.position) ++
     vertex_attribute vao 1 2 (v3t2_t.offsetof VertexField.uv) ++
     [GLObjectCall.glVertexArrayVertexBuffer vao 0 vbo 0 v3t2_t.sizeof,
      GLObjectCall.glVertexArrayElementBuffer vao ebo],
     info.indices_num % 2 ^ 32)
  | VertexFormat.v3t2n3_f32ui16 =>
    (vertex_attribute vao 0 3 (v3t2n3_t.offsetof VertexField.position) ++
     vertex_attribute vao 1 2 (v3t2n3_t.offsetof VertexField.uv) ++
     vertex_attribute vao 2 3 (v3t2n3_t.offsetof VertexField.normal) ++
     [GLObjectCall.glVertexArrayVertexBuffer vao 0 vbo 0 v3t2n3_t.sizeof,
      GLObjectCall.glVertexArrayElementBuffer vao ebo],
     info.indices_num % 2 ^ 32)
  | VertexFormat.v3uv2n3t3_f32ui16 =>
    (vertex_attribute vao 0 3 (v3uv2n3t3_t.offsetof VertexField.position) ++
     vertex_attribute vao 1 2 (v3uv2n3t3_t.offsetof VertexField.uv) ++
     vertex_attribute vao 2 3 (v3uv2n3t3_t.offsetof VertexField.normal) ++
     vertex_attribute vao 3 3 (v3uv2n3t3_t.offsetof VertexField.normal) ++
     [GLObjectCall.glVertexArrayVertexBuffer vao 0 vbo 0 v3uv2n3t3_t.sizeof,
      GLObjectCall.glVertexArrayElementBuffer vao ebo],
     info.indices_num % 2 ^ 32)

/-- The function `create_geometry`: the driver calls, in program order, and
the geometry returned. -/
def create_geometry (names : GeometryNames) (info : CreateGeometryInfo) :
    List GLObjectCall × Geometry :=
  let buffers := create_geometry_buffers names info
  let vbo := buffers.2.1
  let ebo := buffers.2.2
  let vao := names.vao
  let attributes := create_geometry_attributes vao vbo ebo info
  (buffers.1 ++ [GLObjectCall.glCreateVertexArrays 1 [vao]] ++ attributes.1,
   { vb := vbo, eb := ebo, vao := vao, num_elements := attributes.2, format := info.format })

/-- Whether a driver call creates buffer objects. -/
def GLObjectCall.is_create_buffers : GLObjectCall → Bool
  | GLObjectCall.glCreateBuffers _ _ => true
  | _ => false

/-- The attribute location the shaders give a member: 0 position, 1 uv,
2 normal, 3 tangent. -/
def VertexField.location : VertexField → Nat
  | VertexField.position => 0
  | VertexField.uv => 1
  | VertexField.normal => 2
  | VertexField.tangent => 3

/-- The attribute calls that describe a vertex record member by member:
every member at its location, with its number of floats and its own offset
in the record. -/
def record_attributes (vao : Nat) (r : VertexRecord) : List GLObjectCall :=
  r.flatMap (fun m => vertex_attribute vao m.location m.floats (r.offsetof m))

/-! ## The command shortcut `draw_geometry` -/

structure DrawGeometryCommand where
  va : BindVertexArrayCommand := {}
  el : DrawElementsCommand := {}
deriving DecidableEq, Repr

/-- Constructor `DrawGeometryCommand(g, num_instances)`. -/
def DrawGeometryCommand.create (g : Geometry) (num_instances : Nat) : DrawGeometryCommand :=
  { va := { id := g.vao },
    el := { format := g.format, num_elements := g.num_elements, num_instances := num_instances } }

/-- The operator `<<` of a command queue and a `DrawGeometryCommand`. -/
def CommandBuffer.push_draw_geometry (cb : CommandBuffer) (c : DrawGeometryCommand) :
    CommandBuffer :=
  (cb.push (Command.bind_vao c.va)).push (Command.draw_elements c.el)

/-- Whether a driver call is an indexed draw. -/
def GLCall.is_indexed_draw : GLCall → Bool
  | GLCall.glDrawElementsBaseVertex _ _ _ _ => true
  | GLCall.glDrawElementsInstancedBaseVertex _ _ _ _ _ => true
  | _ => false

/-! ## The Targa loader (`namespace extention`)

The stream is an `std::ifstream` as its constructor leaves it: closed, or
open, good and at the beginning of the file. The loader computes sizes in
`int` and writes through raw pointers; where the language leaves the
behaviour of that undefined the embedding says so instead of inventing a
result. -/

namespace extention

structure Image where
  width : Nat := 0
  height : Nat := 0
  depth : Nat := 0
  format : PixelFormat := PixelFormat.unknown
  mipmaps : Bool := false
  pixels : u8_buffer := []
deriving DecidableEq, Repr

namespace detail

def TARGA_DATA_NO : Nat := 0
def TARGA_DATA_COLOR_MAPPED : Nat := 1
def TARGA_DATA_TRUE_COLOR : Nat := 2
def TARGA_DATA_BLACK_AND_WHITE : Nat := 3
def TAGRA_DATA_RLE_COLOR_MAPPED : Nat := 9
def TARGA_DATA_RLE_TRUE_COLOR : Nat := 10
def TARGA_DATA_RLE_BLACK_AND_WITE : Nat := 11

/-- The record `TargaHeader`, packed: 18 bytes. -/
structure TargaHeader where
  length : Nat
  color_map : Nat
  data_type : Nat
  colormap_index : Nat
  colormap_length : Nat
  colormap_entry_size : Nat
  x : Nat
  y : Nat
  width : Nat
  height : Nat
  bpp : Nat
  decription : Nat
deriving DecidableEq, Repr

/-- The value of `sizeof header`. -/
def sizeof_header : Nat := 18

end detail

/-- The byte at offset `i` of a block of memory. -/
def byte_at (bytes : List Nat) (i : Nat) : Nat :=
  bytes.getD i 0 % 256

/-- The little-endian `uint16_t` at offset `i` of a block of memory. -/
def u16_at (bytes : List Nat) (i : Nat) : Nat :=
  byte_at bytes i + 256 * byte_at bytes (i + 1)

/-- The header as `fs.read` leaves it in the packed record, from the bytes
that were read. -/
def read_header (bytes : List Nat) : detail.TargaHeader :=
  { length := byte_at bytes 0,
    color_map := byte_at bytes 1,
    data_type := byte_at bytes 2,
    colormap_index := u16_at bytes 3,
    colormap_length := u16_at bytes 5,
    colormap_entry_size := byte_at bytes 7,
    x := u16_at bytes 8,
    y := u16_at bytes 10,
    width := u16_at bytes 12,
    height := u16_at bytes 14,
    bpp := byte_at bytes 16,
    decription := byte_at bytes 17 }

/-- The stream handed to `load_targa`: whether it is open, and the bytes of
the file. -/
structure ifstream where
  is_open : Bool
  bytes : List Nat
deriving DecidableEq, Repr

/-- The stream while it is read: what is left of the file, and whether the
stream is still good. -/
structure Reader where
  rest : List Nat
  good : Bool
deriving DecidableEq, Repr

/-- The call `fs.read( p, n )`: the bytes stored through `p` and the stream
afterwards. A stream that is not good reads nothing; a stream with fewer than
`n` bytes left hands out what is left and fails. -/
def Reader.read (r : Reader) (n : Nat) : List Nat × Reader :=
  if r.good then
    if n ≤ r.rest.length then (r.rest.take n, { rest := r.rest.drop n, good := true })
    else (r.rest, { rest := [], good := false })
  else ([], r)

/-- What the language leaves undefined in a run of `load_targa`. -/
inductive Undefined where
  | indeterminate_header
  | signed_overflow
  | out_of_bounds
deriving DecidableEq, Repr

/-- How a call of `load_targa` ends: it returns its `std::optional<Image>`,
or it runs into undefined behaviour. -/
inductive Loaded where
  | returned (image : Option Image)
  | undefined (why : Undefined)
deriving DecidableEq, Repr

/-- A write of the bytes `src` at offset `pdata` of the buffer `data`. A
write that does not fit is out of bounds. -/
def store (data : List Nat) (pdata : Nat) (src : List Nat) : Except Undefined (List Nat) :=
  if src.length = 0 then Except.ok data
  else if pdata + src.length ≤ data.length then
    Except.ok (data.take pdata ++ src ++ data.drop (pdata + src.length))
  else Except.error Undefined.out_of_bounds

/-- The state of the run-length decoder: the stream, the buffer `data` and
the offset of `pdata` in it. -/
structure Decoder where
  fs : Reader
  data : List Nat
  pdata : Nat
deriving DecidableEq, Repr

/-- The loop `for ( j < count )` that copies one pixel `count` times. -/
def repeat_pixel (pixel : List Nat) :
    Nat → List Nat → Nat → Except Undefined (List Nat × Nat)
  | 0, data, pdata => Except.ok (data, pdata)
  | j + 1, data, pdata =>
    match store data pdata pixel with
    | Except.ok data1 => repeat_pixel pixel j data1 (pdata + pixel.length)
    | Except.error e => Except.error e

/-- One pass of the body of the loop `for ( i < width * height )`. The
run-length branch goes through the 4-byte array `bytes`. -/
def rle_packet (bytesperpixel : Nat) (d : Decoder) : Except Undefined Decoder :=
  let blk := d.fs.read 1
  if blk.2.good then
    let block := blk.1.getD 0 0 % 256
    let count := (block &&& 0x7f) + 1
    if block &&& 0x80 ≠ 0 then
      if 4 < bytesperpixel then Except.error Undefined.out_of_bounds
      else
        let got := blk.2.read bytesperpixel
        let bytes := got.1 ++ List.replicate (4 - got.1.length) 0
        match repeat_pixel (bytes.take bytesperpixel) count d.data d.pdata with
        | Except.ok w => Except.ok { fs := got.2, data := w.1, pdata := w.2 }
        | Except.error e => Except.error e
    else
      let got := blk.2.read (bytesperpixel * count)
      match store d.data d.pdata got.1 with
      | Except.ok data1 =>
        Except.ok { fs := got.2, data := data1, pdata := d.pdata + bytesperpixel * count }
      | Except.error e => Except.error e
  else Except.ok { d with fs := blk.2 }

/-- The loop `for ( int i = 0; i < header.width * header.height; i++ )`. -/
def rle_loop (bytesperpixel : Nat) : Nat → Decoder → Except Undefined Decoder
  | 0, d => Except.ok d
  | i + 1, d =>
    match rle_packet bytesperpixel d with
    | Except.ok d1 => rle_loop bytesperpixel i d1
    | Except.error e => Except.error e

/-- The `switch ( header.bpp )` of `load_targa`. -/
def format_of_bpp (bpp : Nat) : PixelFormat :=
  if bpp = 8 then PixelFormat.r8
  else if bpp = 24 then PixelFormat.bgr8
  else if bpp = 32 then PixelFormat.bgra8
  else PixelFormat.unknown

/-- The filling of `data` in `load_targa`, by the data type of the header. -/
def decode (header : detail.TargaHeader) (lenght : Nat) (fs : Reader) (data : List Nat) :
    Except Undefined (List Nat) :=
  if header.data_type = detail.TARGA_DATA_RLE_TRUE_COLOR then
    match rle_loop (header.bpp / 8) (header.width * header.height)
        { fs := fs, data := data, pdata := 0 } with
    | Except.ok d => Except.ok d.data
    | Except.error e => Except.error e
  else if header.data_type = detail.TARGA_DATA_TRUE_COLOR
      ∨ header.data_type = detail.TARGA_DATA_BLACK_AND_WHITE then
    store data 0 (fs.read (lenght - detail.sizeof_header)).1
  else Except.ok data

/-- The function `load_targa`. The members of the header it uses lie in the
first 17 bytes; a shorter file leaves them indeterminate. The size of `data`
is an `int` product. When the file is shorter than the header the stream has
failed and the read of the pixel data reads nothing, whatever its count. -/
def load_targa (fs : ifstream) : Loaded :=
  if !fs.is_open then Loaded.returned none
  else
    let lenght := fs.bytes.length
    let head := Reader.read { rest := fs.bytes, good := true } detail.sizeof_header
    if head.1.length < 17 then Loaded.undefined Undefined.indeterminate_header
    else
      let header := read_header head.1
      let bytesperpixel := header.bpp / 8
      let size := header.width * header.height * (bytesperpixel + 1)
      if 2 ^ 31 ≤ size then Loaded.undefined Undefined.signed_overflow
      else
        match decode header lenght head.2 (List.replicate size 0) with
        | Except.ok data =>
          Loaded.returned (some
            { width := header.width, height := header.height, depth := 0,
              format := format_of_bpp header.bpp, pixels := data })
        | Except.error e => Loaded.undefined e

/-! ### Files, as the format describes them -/

/-- The 18 bytes of a header in the file, multi-byte members little-endian. -/
def detail.TargaHeader.encode (h : detail.TargaHeader) : List Nat :=
  [h.length % 256, h.color_map % 256, h.data_type % 256,
   h.colormap_index % 256, h.colormap_index / 256 % 256,
   h.colormap_length % 256, h.colormap_length / 256 % 256,
   h.colormap_entry_size % 256,
   h.x % 256, h.x / 256 % 256, h.y % 256, h.y / 256 % 256,
   h.width % 256, h.width / 256 % 256, h.height % 256, h.height / 256 % 256,
   h.bpp % 256, h.decription % 256]

/-- The members of a header fit their types: 8 or 16 bits each. -/
def detail.TargaHeader.valid (h : detail.TargaHeader) : Prop :=
  h.length < 256 ∧ h.color_map < 256 ∧ h.data_type < 256 ∧ h.colormap_index < 65536
  ∧ h.colormap_length < 65536 ∧ h.colormap_entry_size < 256 ∧ h.x < 65536 ∧ h.y < 65536
  ∧ h.width < 65536 ∧ h.height < 65536 ∧ h.bpp < 256 ∧ h.decription < 256

/-- A header without image id and colour map, origin at (0, 0), descriptor
byte 0. -/
def plain_header (data_type width height bpp : Nat) : detail.TargaHeader :=
  { length := 0, color_map := 0, data_type := data_type, colormap_index := 0,
    colormap_length := 0, colormap_entry_size := 0, x := 0, y := 0, width := width,
    height := height, bpp := bpp, decription := 0 }

/-- A packet of a run-length-encoded stream, as the format describes it: a
control byte with the high bit set and one pixel, repeated `control + 1`
times, or a control byte with the high bit clear and `control + 1` literal
pixels; `control` is the low seven bits. -/
inductive Packet where
  | run (control : Nat) (pixel : List Nat)
  | literal (control : Nat) (pixels : List Nat)
deriving DecidableEq, Repr

/-- The number of pixels of a packet. -/
def Packet.count : Packet → Nat
  | Packet.run control _ => control + 1
  | Packet.literal control _ => control + 1

/-- A packet of pixels of `bytesperpixel` bytes is well formed. -/
def Packet.well_formed (bytesperpixel : Nat) : Packet → Prop
  | Packet.run control pixel => control < 128 ∧ pixel.length = bytesperpixel
  | Packet.literal control pixels =>
    control < 128 ∧ pixels.length = bytesperpixel * (control + 1)

/-- The bytes of a packet in the file. -/
def Packet.encode : Packet → List Nat
  | Packet.run control pixel => (0x80 + control) :: pixel
  | Packet.literal control pixels => control :: pixels

/-- The pixel bytes a packet stands for. -/
def Packet.pixels : Packet → List Nat
  | Packet.run control pixel => (List.replicate (control + 1) pixel).flatten
  | Packet.literal _ pixels => pixels

/-- The header `load_targa` works with: what the first 18 bytes of the file
leave in the packed record. -/
def header_of (fs : ifstream) : detail.TargaHeader :=
  read_header (fs.bytes.take 18)

/-- The number of bytes `load_targa` gives its buffer for a header:
width x height x (bpp/8 + 1). -/
def buffer_size (h : detail.TargaHeader) : Nat :=
  h.width * h.height * (h.bpp / 8 + 1)

end extention

/-- Constructor `DrawGeometryCommand(g)`, with `num_instances` at its
default 1. -/
def DrawGeometryCommand.create_default (g : Geometry) : DrawGeometryCommand :=
  DrawGeometryCommand.create g 1

end graphics

/-! ## The frame loop (`application.hpp`)

Durations are tick counts in the 64-bit signed representation of
`std::chrono`: the accumulator and the frame time count nanoseconds, the
timestep counts milliseconds and is converted to nanoseconds, by a
multiplication in that representation, wherever the two meet. Signed
overflow of the conversion, of the addition to the accumulator or of the
subtraction from it is undefined behaviour and is marked as such. The clock
is outside the program: the frame time of an iteration is an input. -/

namespace application

namespace utility

/-- A call of one of the two callbacks of `Mainloop::run`. -/
inductive Callback where
  | on_step
  | on_frame
deriving DecidableEq, Repr

/-- Undefined behaviour that the arithmetic of `Mainloop::run` can run
into. -/
inductive Undefined where
  | signed_overflow
deriving DecidableEq, Repr

/-- Least value of the 64-bit signed representation of the durations. -/
def INT64_MIN : Int := -9223372036854775808

/-- Greatest value of the 64-bit signed representation of the durations. -/
def INT64_MAX : Int := 9223372036854775807

/-- Result of an operation on the 64-bit signed representation whose
mathematical value is `v`: the value when it is representable, `none` on
signed overflow. -/
def int64 (v : Int) : Option Int :=
  if INT64_MIN ≤ v ∧ v ≤ INT64_MAX then some v else none

/-- The function `std::clamp`. -/
def clamp (v lo hi : Int) : Int :=
  if v < lo then lo else if hi < v then hi else v

/-- Conversion of a count of milliseconds to `std::chrono::nanoseconds`: the
count times 1000000, computed in the 64-bit representation. -/
def nanoseconds (milliseconds : Int) : Option Int :=
  int64 (milliseconds * 1000000)

namespace Mainloop

/-- The locals of `Mainloop::run` that an iteration changes, and the
callbacks called so far. -/
structure State where
  accumulator : Int
  timesteps : Nat
  calls : List Callback
deriving DecidableEq, Repr

/-- How far a loop got: it ended in a state, it is still running after the
passes it was given, or it ran into undefined behaviour. -/
inductive Outcome where
  | ended (s : State)
  | running
  | undefined (u : Undefined)
deriving DecidableEq, Repr

/-- The loop `while ( accumulator >= timestep )`, for a timestep in
milliseconds. The comparison and the subtraction convert the timestep to
nanoseconds, each time they run. The loop need not end: `fuel` bounds the
number of passes. -/
def step_loop (timestep : Int) : Nat → State → Outcome
  | 0, s =>
    match nanoseconds timestep with
    | none => Outcome.undefined Undefined.signed_overflow
    | some t => if s.accumulator ≥ t then Outcome.running else Outcome.ended s
  | fuel + 1, s =>
    match nanoseconds timestep with
    | none => Outcome.undefined Undefined.signed_overflow
    | some t =>
      if s.accumulator ≥ t then
        match int64 (s.accumulator - t) with
        | none => Outcome.undefined Undefined.signed_overflow
        | some accumulator =>
          step_loop timestep fuel
            { accumulator := accumulator,
              timesteps := (s.timesteps + 1) % 2 ^ 64,
              calls := s.calls ++ [Callback.on_step] }
      else Outcome.ended s

/-- One pass of the loop `while ( is_running( ) )` of `Mainloop::run`, for a
timestep in milliseconds and a measured frame time in nanoseconds: the
accumulator takes the clamped frame time, the step loop runs, `on_frame` is
called. -/
def frame (timestep : Int) (fuel : Nat) (frame_time : Int) (s : State) : Outcome :=
  match nanoseconds 300 with
  | none => Outcome.undefined Undefined.signed_overflow
  | some limit =>
    match int64 (s.accumulator + clamp frame_time 0 limit) with
    | none => Outcome.undefined Undefined.signed_overflow
    | some accumulator =>
      match step_loop timestep fuel { s with accumulator := accumulator } with
      | Outcome.ended s1 => Outcome.ended { s1 with calls := s1.calls ++ [Callback.on_frame] }
      | Outcome.running => Outcome.running
      | Outcome.undefined u => Outcome.undefined u

end Mainloop

end utility

end application

namespace graphics

/-! ## Lemmas on the replay loop -/

theorem dispatched_append (xs ys : List DetailCall) :
    dispatched (xs ++ ys) = dispatched xs ++ dispatched ys := by
  induction xs with
  | nil => rfl
  | cons x rest ih => cases x <;> simp [dispatched, ih]

theorem dispatched_present_commands (q : CommandBuffer) (cs : List Command) :
    dispatched (present_commands q cs) = cs.map (fun c => (c, q)) := by
  induction cs with
  | nil => rfl
  | cons c rest ih => simp [present_commands, dispatched, ih]

theorem run_present_commands (q : CommandBuffer) (cs : List Command) :
    (present_commands q cs).flatMap DetailCall.run = cs.flatMap (bracket q) := by
  induction cs with
  | nil => rfl
  | cons c rest ih => simp [present_commands, DetailCall.run, bracket, ih]

theorem buffer_at_visit_nil (heap : Heap) (q : Nat) : buffer_at_visit heap [] q = heap q := by
  simp [buffer_at_visit]

theorem buffer_at_visit_presentation_clear (heap : Heap) (before : List Nat) (q : Nat) :
    (buffer_at_visit heap before q).presentation_clear = (heap q).presentation_clear := by
  unfold buffer_at_visit
  split <;> simp [CommandBuffer.clear]

/-- One step of the outer loop keeps the memory in step with the list of
pointers already visited. -/
theorem buffer_at_visit_step (heap0 cur : Heap) (before : List Nat) (q : Nat)
    (h : ∀ a, cur a = buffer_at_visit heap0 before a) (a : Nat) :
    (if (cur q).presentation_clear then Function.update cur q (cur q).clear else cur) a
      = buffer_at_visit heap0 (before ++ [q]) a := by
  have hflag : (cur q).presentation_clear = (heap0 q).presentation_clear := by
    rw [h q, buffer_at_visit_presentation_clear]
  by_cases haq : a = q
  · subst haq
    by_cases hc : (heap0 a).presentation_clear = true
    · have hcur : (cur a).clear = (heap0 a).clear := by
        rw [h a]
        unfold buffer_at_visit
        split <;> simp [CommandBuffer.clear]
      simp [hflag, hc, buffer_at_visit, hcur]
    · simp [hflag, hc, buffer_at_visit, h a]
  · have hmem : (a ∈ before ++ [q]) ↔ a ∈ before := by simp [haq]
    by_cases hc : (heap0 q).presentation_clear = true
    · simp [hflag, hc, Function.update_noteq haq, h a, buffer_at_visit, hmem]
    · simp [hflag, hc, h a, buffer_at_visit, hmem]

/-- The calls of `present`, from any point of the outer loop on. -/
theorem present_calls_from (heap0 : Heap) (queue : CommandQueues) :
    ∀ (before : List Nat) (cur : Heap), (∀ a, cur a = buffer_at_visit heap0 before a) →
      (present cur queue).calls =
        ((queue.zip (queue.inits.map (fun t => before ++ t))).map
          (fun e => buffer_at_visit heap0 e.2 e.1)).flatMap
            (fun q => present_commands q q.commands) := by
  induction queue with
  | nil => intro before cur _; simp [present]
  | cons q rest ih =>
    intro before cur h
    have hstep := buffer_at_visit_step heap0 cur before q h
    have hrest := ih (before ++ [q]) _ hstep
    simp only [present, List.inits_cons, List.map_cons, List.zip_cons_cons, List.flatMap_cons,
      List.append_nil, List.map_map]
    rw [hrest, h q]
    congr 2
    simp [Function.comp_def]

/-- The memory `present` leaves, from any point of the outer loop on. -/
theorem present_heap_from (heap0 : Heap) (queue : CommandQueues) :
    ∀ (before : List Nat) (cur : Heap), (∀ a, cur a = buffer_at_visit heap0 before a) →
      ∀ a, (present cur queue).heap a = buffer_at_visit heap0 (before ++ queue) a := by
  induction queue with
  | nil => intro before cur h a; simpa [present] using h a
  | cons q rest ih =>
    intro before cur h a
    have hstep := buffer_at_visit_step heap0 cur before q h
    have hrest := ih (before ++ [q]) _ hstep a
    simpa [present] using hrest

theorem present_calls_visited (heap : Heap) (queue : CommandQueues) :
    (present heap queue).calls =
      (visited heap queue).flatMap (fun q => present_commands q q.commands) := by
  have h := present_calls_from heap queue [] heap (fun a => (buffer_at_visit_nil heap a).symm)
  simpa [visited] using h

theorem present_heap_visited (heap : Heap) (queue : CommandQueues) (a : Nat) :
    (present heap queue).heap a = buffer_at_visit heap queue a := by
  simpa using present_heap_from heap queue [] heap
    (fun a => (buffer_at_visit_nil heap a).symm) a

theorem dispatched_flatMap (f : CommandBuffer → List DetailCall) (qs : List CommandBuffer) :
    dispatched (qs.flatMap f) = qs.flatMap (fun q => dispatched (f q)) := by
  induction qs with
  | nil => rfl
  | cons q rest ih => simp [dispatched_append, ih]

theorem visited_from_of_nodup (heap : Heap) (queue : CommandQueues) :
    ∀ before : List Nat, (∀ q ∈ queue, q ∉ before) → queue.Nodup →
      (queue.zip (queue.inits.map (fun t => before ++ t))).map
        (fun e => buffer_at_visit heap e.2 e.1) = queue.map heap := by
  induction queue with
  | nil => intro before _ _; simp
  | cons q rest ih =>
    intro before hnot hnd
    have hq : q ∉ before := hnot q (List.mem_cons_self q rest)
    have hrest : ∀ r ∈ rest, r ∉ before ++ [q] := by
      intro r hr hmem
      rcases List.mem_append.mp hmem with h1 | h1
      · exact hnot r (List.mem_cons_of_mem q hr) h1
      · have hrq : r = q := by simpa using h1
        exact (List.nodup_cons.mp hnd).1 (hrq ▸ hr)
    have hih := ih (before ++ [q]) hrest (List.nodup_cons.mp hnd).2
    simp only [List.inits_cons, List.map_cons, List.zip_cons_cons, List.append_nil, List.map_map]
    rw [← hih]
    congr 1
    · simp [buffer_at_visit, hq]
    · congr 2
      simp [Function.comp_def]

/-- A queue that lists no buffer twice meets every buffer as it was passed. -/
theorem visited_of_nodup (heap : Heap) (queue : CommandQueues) (h : queue.Nodup) :
    visited heap queue = queue.map heap := by
  have := visited_from_of_nodup heap queue [] (fun _ _ hm => by simp at hm) h
  simpa [visited] using this

/-- Leaving out pointers to buffers that hold no command changes no call. -/
theorem present_calls_filter (keep : Nat → Bool) (queue : CommandQueues) :
    ∀ heap : Heap, (∀ a, keep a = false → (heap a).commands = []) →
      (present heap queue).calls = (present heap (queue.filter keep)).calls := by
  induction queue with
  | nil => intro heap _; rfl
  | cons q rest ih =>
    intro heap h
    have hinv : ∀ a, keep a = false →
        ((if (heap q).presentation_clear then Function.update heap q (heap q).clear
          else heap) a).commands = [] := by
      intro a ha
      by_cases hc : (heap q).presentation_clear = true
      · by_cases haq : a = q
        · subst haq; simp [hc, CommandBuffer.clear]
        · simp [hc, Function.update_noteq haq, h a ha]
      · simp [hc, h a ha]
    by_cases hk : keep q = true
    · simp only [List.filter_cons, hk, if_true, present]
      rw [ih _ hinv]
    · have hk2 : keep q = false := by simpa using hk
      have hempty := h q hk2
      have hsame : (heap q).clear = heap q := by
        cases hb : heap q
        rw [hb] at hempty
        simp only [CommandBuffer.clear]
        simp only at hempty
        rw [hempty]
      simp only [List.filter_cons, hk2, present, hempty, present_commands, List.nil_append,
        hsame, Function.update_eq_self, ite_self]
      simpa using ih heap h

/-! ## The claims on `present` -/

/-- C1: `present` hands every command to the dispatcher exactly once per
visit of its buffer, buffers in list order and commands in insertion order,
each together with its buffer: the dispatcher invocations are the commands of
the buffers as `present` meets them, strung together, and their number is
the sum of the buffers' command counts. Nothing in this depends on the
pipeline states. When no buffer is listed twice the buffers met are the
buffers passed. -/
theorem present_dispatches_each_command_once (heap : Heap) (queue : CommandQueues) :
    dispatched (present heap queue).calls
        = (visited heap queue).flatMap (fun q => q.commands.map (fun c => (c, q)))
    ∧ (dispatched (present heap queue).calls).length
        = ((visited heap queue).map (fun q => q.commands.length)).sum
    ∧ (queue.Nodup →
        dispatched (present heap queue).calls
          = queue.flatMap (fun a => (heap a).commands.map (fun c => (c, heap a)))) := by
  have h1 : dispatched (present heap queue).calls
      = (visited heap queue).flatMap (fun q => q.commands.map (fun c => (c, q))) := by
    rw [present_calls_visited, dispatched_flatMap]
    simp only [dispatched_present_commands]
  refine ⟨h1, ?_, ?_⟩
  · rw [h1, List.length_flatMap]
    simp [Function.comp_def]
  · intro hnd
    rw [h1, visited_of_nodup heap queue hnd, List.flatMap_map]

/-- C2: every command replayed by `present` is bracketed. The calls `present`
makes are, for each buffer met and each of its commands in turn, the seven
steps set blend, set rasterizer, set depth-stencil, dispatch, clear
depth-stencil, clear rasterizer, clear blend; so the driver trace is the
string of the per-command brackets. -/
theorem present_brackets_every_command (heap : Heap) (queue : CommandQueues) :
    (present heap queue).calls
        = (visited heap queue).flatMap (fun q => q.commands.flatMap (fun c =>
            [DetailCall.set_color_blend_state q.color_blend,
             DetailCall.set_rasterizer_state q.rasterizer,
             DetailCall.set_depth_stencil_state q.depth_stencil,
             DetailCall.dispath_command c q,
             DetailCall.clear_depth_stencil_state q.depth_stencil,
             DetailCall.clear_rasterizer_state q.rasterizer,
             DetailCall.clear_color_blend_state q.color_blend]))
    ∧ (present heap queue).trace
        = (visited heap queue).flatMap (fun q => q.commands.flatMap (fun c =>
            detail.set_color_blend_state q.color_blend ++
            detail.set_rasterizer_state q.rasterizer ++
            detail.set_depth_stencil_state q.depth_stencil ++
            detail.dispath_command c q ++
            detail.clear_depth_stencil_state q.depth_stencil ++
            detail.clear_rasterizer_state q.rasterizer ++
            detail.clear_color_blend_state q.color_blend)) := by
  constructor
  · rw [present_calls_visited]
    congr 1
    funext q
    induction q.commands with
    | nil => rfl
    | cons c rest ih => simp [present_commands, ih]
  · unfold Presented.trace
    rw [present_calls_visited]
    induction visited heap queue with
    | nil => rfl
    | cons q rest ih =>
      simp only [List.flatMap_cons, List.flatMap_append, ih, run_present_commands]
      rfl

/-- C3: a buffer that `present` was given (once, or more often) holds no
command afterwards when its `presentation_clear` is set and holds its
original commands in their order when it is not; its flag and its three
pipeline states are as before. -/
theorem present_clears_or_keeps (heap : Heap) (queue : CommandQueues) (b : Nat)
    (h : b ∈ queue) :
    ((present heap queue).heap b).commands
        = (if (heap b).presentation_clear then [] else (heap b).commands)
    ∧ ((present heap queue).heap b).presentation_clear = (heap b).presentation_clear
    ∧ ((present heap queue).heap b).color_blend = (heap b).color_blend
    ∧ ((present heap queue).heap b).rasterizer = (heap b).rasterizer
    ∧ ((present heap queue).heap b).depth_stencil = (heap b).depth_stencil := by
  rw [present_heap_visited]
  unfold buffer_at_visit
  by_cases hc : (heap b).presentation_clear = true
  · simp [hc, h, CommandBuffer.clear]
  · simp [hc]

/-- C4: `present` of the empty list makes no call, issues no driver call and
leaves the memory as it is; and pointers to buffers without commands can be
dropped from any list without changing a single call, detail call or driver
call. -/
theorem present_empty_contributes_nothing (heap : Heap) (queue : CommandQueues) :
    (present heap []).calls = []
    ∧ (present heap []).trace = []
    ∧ (present heap []).heap = heap
    ∧ (present heap queue).calls
        = (present heap (queue.filter (fun a => !(heap a).commands.isEmpty))).calls
    ∧ (present heap queue).trace
        = (present heap (queue.filter (fun a => !(heap a).commands.isEmpty))).trace := by
  have hf := present_calls_filter (fun a => !(heap a).commands.isEmpty) queue heap
    (fun a ha => by simpa using ha)
  refine ⟨rfl, rfl, rfl, hf, ?_⟩
  unfold Presented.trace
  rw [hf]

/-- Witness for C1: two buffers of one command each, listed once each. -/
theorem present_dispatches_each_command_once_witness :
    [0, 1].Nodup ∧
    dispatched (present (fun a => if a = 0
        then { commands := [Command.bind_vao { id := 3 }] }
        else { commands := [Command.bind_pipeline { id := 5 }] }) [0, 1]).calls
      = [0, 1].flatMap (fun a =>
          ((fun a => if a = 0
            then ({ commands := [Command.bind_vao { id := 3 }] } : CommandBuffer)
            else { commands := [Command.bind_pipeline { id := 5 }] }) a).commands.map
            (fun c => (c, (fun a => if a = 0
              then ({ commands := [Command.bind_vao { id := 3 }] } : CommandBuffer)
              else { commands := [Command.bind_pipeline { id := 5 }] }) a))) :=
  ⟨by decide, (present_dispatches_each_command_once _ [0, 1]).2.2 (by decide)⟩

/-- Witness for C3: a buffer of one command that clears on presentation. -/
theorem present_clears_or_keeps_witness :
    0 ∈ [0] ∧
    ((present (fun _ => { commands := [Command.bind_vao { id := 3 }] }) [0]).heap 0).commands
      = (if ((fun _ => ({ commands := [Command.bind_vao { id := 3 }] } : CommandBuffer))
          0).presentation_clear then [] else
          ((fun _ => ({ commands := [Command.bind_vao { id := 3 }] } : CommandBuffer))
            0).commands) :=
  ⟨by decide, (present_clears_or_keeps _ [0] 0 (by decide)).1⟩

/-! ## The claims on the dispatcher -/

/-- C5: dispatching a Clear command always clears the colour of the
framebuffer the command names with the command's colour and sets viewport 0
to the command's viewport; the trace holds a depth clear of that framebuffer
exactly when the buffer's `depth_stencil.depth_write` is set, and then it is
the one clear to the command's depth. -/
theorem dispath_clear_command (arg : ClearCommand) (buf : CommandBuffer) :
    detail.dispath_command (Command.clear_framebuffer arg) buf
        = [GLCall.glClipControl GL_LOWER_LEFT GL_NEGATIVE_ONE_TO_ONE,
           GLCall.glClearNamedFramebufferfv arg.fb GL_COLOR 0
             [arg.color.x, arg.color.y, arg.color.z, arg.color.w]] ++
          (if buf.depth_stencil.depth_write then
            [GLCall.glClearNamedFramebufferfv arg.fb GL_DEPTH 0 [arg.depth]] else []) ++
          [GLCall.glViewportIndexedfv 0 arg.viewport]
    ∧ GLCall.glClearNamedFramebufferfv arg.fb GL_COLOR 0
          [arg.color.x, arg.color.y, arg.color.z, arg.color.w]
        ∈ detail.dispath_command (Command.clear_framebuffer arg) buf
    ∧ GLCall.glViewportIndexedfv 0 arg.viewport
        ∈ detail.dispath_command (Command.clear_framebuffer arg) buf
    ∧ ((∃ fb drawbuffer value, GLCall.glClearNamedFramebufferfv fb GL_DEPTH drawbuffer value
          ∈ detail.dispath_command (Command.clear_framebuffer arg) buf)
        ↔ buf.depth_stencil.depth_write = true)
    ∧ (buf.depth_stencil.depth_write = true →
        GLCall.glClearNamedFramebufferfv arg.fb GL_DEPTH 0 [arg.depth]
          ∈ detail.dispath_command (Command.clear_framebuffer arg) buf) := by
  refine ⟨rfl, ?_, ?_, ?_, ?_⟩
  · simp [detail.dispath_command]
  · simp [detail.dispath_command]
  · constructor
    · rintro ⟨fb, d, v, hmem⟩
      by_contra hw
      simp [detail.dispath_command, hw, GL_DEPTH, GL_COLOR] at hmem
    · intro hw
      exact ⟨arg.fb, 0, [arg.depth], by simp [detail.dispath_command, hw]⟩
  · intro hw
    simp [detail.dispath_command, hw]

/-- Witness for C5: the default Clear command in a default buffer, whose
depth writes are on. -/
theorem dispath_clear_command_witness :
    ({} : CommandBuffer).depth_stencil.depth_write = true ∧
    GLCall.glClearNamedFramebufferfv ({} : ClearCommand).fb GL_DEPTH 0 [({} : ClearCommand).depth]
      ∈ detail.dispath_command (Command.clear_framebuffer {}) {} :=
  ⟨rfl, (dispath_clear_command {} {}).2.2.2.2 rfl⟩

/-! ## Pipeline state after a replay -/

/-- After the seven steps around one command the enable flags and the depth
mask are at their defaults, whatever they were and whatever the command. -/
theorem flags_after_bracket (s : PipelineConfig) (q : CommandBuffer) (c : Command) :
    (s.run (bracket q c)).flags = (false, false, false, true) := by
  unfold bracket
  simp only [PipelineConfig.run, List.foldl_append, detail.clear_depth_stencil_state,
    detail.clear_rasterizer_state, detail.clear_color_blend_state, List.foldl_cons,
    List.foldl_nil]
  simp [PipelineConfig.step, PipelineConfig.flags, GL_BLEND, GL_CULL_FACE, GL_DEPTH_TEST,
    GL_TRUE, GL_FALSE]

theorem flags_after_brackets (q : CommandBuffer) (cs : List Command) :
    ∀ s : PipelineConfig, (s.run (cs.flatMap (bracket q))).flags
      = if cs = [] then s.flags else (false, false, false, true) := by
  induction cs with
  | nil => intro s; rfl
  | cons c rest ih =>
    intro s
    have hrun : s.run ((c :: rest).flatMap (bracket q))
        = (s.run (bracket q c)).run (rest.flatMap (bracket q)) := by
      simp [PipelineConfig.run, List.foldl_append]
    rw [hrun, ih]
    by_cases hr : rest = []
    · simp [hr, flags_after_bracket]
    · simp [hr]

theorem present_single_trace (heap : Heap) (q : Nat) :
    (present heap [q]).trace = (heap q).commands.flatMap (bracket (heap q)) := by
  simp [Presented.trace, present, run_present_commands]

/-- Counterexample to C6: one `bind_pipeline` command replayed from a fresh
context, once in a buffer that blends with source-alpha factors and once in
a buffer with default states. The first replay leaves the blend factors at
(source alpha, one minus source alpha), the second at their initial (one,
zero): the blend configuration after the two replays differs. -/
theorem present_leaks_blend_factors :
    ({ color_blend := { enable := true, sfactor := GL_SRC_ALPHA,
                        dfactor := GL_ONE_MINUS_SRC_ALPHA },
       commands := [Command.bind_pipeline { id := 1 }] } : CommandBuffer).commands
      = ({ commands := [Command.bind_pipeline { id := 1 }] } : CommandBuffer).commands
    ∧ PipelineConfig.initial.run (present (fun _ =>
        { color_blend := { enable := true, sfactor := GL_SRC_ALPHA,
                           dfactor := GL_ONE_MINUS_SRC_ALPHA },
          commands := [Command.bind_pipeline { id := 1 }] }) [0]).trace
      = { PipelineConfig.initial with
          blend_src := GL_SRC_ALPHA, blend_dst := GL_ONE_MINUS_SRC_ALPHA }
    ∧ PipelineConfig.initial.run (present (fun _ =>
        { commands := [Command.bind_pipeline { id := 1 }] }) [0]).trace
      = PipelineConfig.initial
    ∧ PipelineConfig.initial.run (present (fun _ =>
        { color_blend := { enable := true, sfactor := GL_SRC_ALPHA,
                           dfactor := GL_ONE_MINUS_SRC_ALPHA },
          commands := [Command.bind_pipeline { id := 1 }] }) [0]).trace
      ≠ PipelineConfig.initial.run (present (fun _ =>
        { commands := [Command.bind_pipeline { id := 1 }] }) [0]).trace := by
  decide

/-- C6, amended: for every initial driver state and every two command
buffers that hold the same commands, whatever their blend, rasterizer and
depth-stencil states, the enable flags and the depth mask of the driver
(blending, face culling, depth test, depth writes) after `present` of the
one equal those after `present` of the other. -/
theorem present_flags_same_for_same_commands (s : PipelineConfig) (heap1 heap2 : Heap)
    (q1 q2 : Nat) (h : (heap1 q1).commands = (heap2 q2).commands) :
    (s.run (present heap1 [q1]).trace).flags = (s.run (present heap2 [q2]).trace).flags := by
  rw [present_single_trace, present_single_trace, flags_after_brackets, flags_after_brackets, h]

/-- Witness for C6, amended: the two buffers of the counterexample. -/
theorem present_flags_same_for_same_commands_witness :
    ((fun _ => { color_blend := { enable := true, sfactor := GL_SRC_ALPHA,
                                  dfactor := GL_ONE_MINUS_SRC_ALPHA },
                 commands := [Command.bind_pipeline { id := 1 }] } : Heap) 0).commands
      = ((fun _ => { commands := [Command.bind_pipeline { id := 1 }] } : Heap) 0).commands
    ∧ (PipelineConfig.initial.run (present (fun _ =>
        { color_blend := { enable := true, sfactor := GL_SRC_ALPHA,
                           dfactor := GL_ONE_MINUS_SRC_ALPHA },
          commands := [Command.bind_pipeline { id := 1 }] }) [0]).trace).flags
      = (PipelineConfig.initial.run (present (fun _ =>
        { commands := [Command.bind_pipeline { id := 1 }] }) [0]).trace).flags :=
  ⟨rfl, present_flags_same_for_same_commands PipelineConfig.initial _ _ 0 0 rfl⟩

/-! ## Name resolution at construction -/

theorem set_uniform_resolve_absent (name : String) (v : UniformValue)
    (us : List ProgramResourceInfo) (h : ∀ u ∈ us, u.name ≠ name) :
    SetUniformCommand.resolve name v us = {} := by
  induction us with
  | nil => rfl
  | cons u rest ih =>
    have hu : u.name ≠ name := h u (List.mem_cons_self u rest)
    simp only [SetUniformCommand.resolve, hu, if_false]
    exact ih (fun w hw => h w (List.mem_cons_of_mem u hw))

theorem bind_buffer_resolve_absent (block_name : String) (cmd : BindBufferCommand)
    (ubs : List ProgramResourceInfo) (h : ∀ ub ∈ ubs, ub.name ≠ block_name) :
    BindBufferCommand.resolve block_name cmd ubs = cmd := by
  induction ubs with
  | nil => rfl
  | cons ub rest ih =>
    have hu : ub.name ≠ block_name := h ub (List.mem_cons_self ub rest)
    simp only [BindBufferCommand.resolve, hu, if_false]
    exact ih (fun w hw => h w (List.mem_cons_of_mem ub hw))

theorem bind_buffer_resolve_first (block_name : String) (cmd : BindBufferCommand)
    (ubs : List ProgramResourceInfo) (ub : ProgramResourceInfo)
    (h : ubs.find? (fun e => decide (e.name = block_name)) = some ub) :
    BindBufferCommand.resolve block_name cmd ubs
      = { cmd with block_index := to_int32 ub.buffer_binding } := by
  induction ubs with
  | nil => simp at h
  | cons e rest ih =>
    by_cases he : e.name = block_name
    · simp only [List.find?_cons, he, decide_True, Option.some.injEq] at h
      subst h
      simp [BindBufferCommand.resolve, he]
    · simp only [List.find?_cons, he, decide_False] at h
      simp only [BindBufferCommand.resolve, he, if_false]
      exact ih h

theorem to_int32_ne_neg_one (n : Nat) (h : n < 2 ^ 32 - 1) : to_int32 n ≠ -1 := by
  unfold to_int32
  have hmod : n % 2 ^ 32 = n := Nat.mod_eq_of_lt (by omega)
  rw [hmod]
  split <;> omega

theorem to_uint32_to_int32 (n : Nat) (h : n < 2 ^ 32) : to_uint32 (to_int32 n) = n := by
  unfold to_int32 to_uint32
  have hmod : n % 2 ^ 32 = n := Nat.mod_eq_of_lt h
  rw [hmod]
  split <;> omega

/-- C7: a SetUniform command built for a name the pipeline's uniform list
does not hold keeps location -1 and pid 0, and its dispatch issues no driver
call. -/
theorem set_uniform_unresolved_is_inert (p : ProgramPipeline) (name : String)
    (v : UniformValue) (buf : CommandBuffer) (h : ∀ u ∈ p.uniforms, u.name ≠ name) :
    (SetUniformCommand.create p name v).location = -1
    ∧ (SetUniformCommand.create p name v).pid = 0
    ∧ detail.dispath_command (Command.set_uniform (SetUniformCommand.create p name v)) buf
        = [] := by
  unfold SetUniformCommand.create
  rw [set_uniform_resolve_absent name v p.uniforms h]
  exact ⟨rfl, rfl, rfl⟩

/-- Witness for C7: a pipeline that knows `mvp` only, asked for `color`. -/
theorem set_uniform_unresolved_is_inert_witness :
    (∀ u ∈ ({ id := 1, uniforms := [{ name := "mvp", pid := 2, location := 0, num := 1 }] }
        : ProgramPipeline).uniforms, u.name ≠ "color")
    ∧ detail.dispath_command (Command.set_uniform (SetUniformCommand.create
        { id := 1, uniforms := [{ name := "mvp", pid := 2, location := 0, num := 1 }] }
        "color" (UniformValue.float f1))) {} = [] :=
  ⟨by decide,
   (set_uniform_unresolved_is_inert _ "color" (UniformValue.float f1) {} (by decide)).2.2⟩

/-- Counterexample to C8: a uniform buffer bound by a block name that the
pipeline (which has no uniform block at all) does not hold. The command
keeps block index -1, and its dispatch is not a no-op: it issues a plain
`glBindBuffer` of the buffer. -/
theorem bind_buffer_unresolved_is_not_inert :
    (∀ ub ∈ ({} : ProgramPipeline).uniform_blocks, ub.name ≠ "MatrixBlock")
    ∧ (BindBufferCommand.create_named BufferType.Uniform { id := 7, size := 64 } {}
        "MatrixBlock").block_index = -1
    ∧ detail.dispath_command (Command.bind_buffer
        (BindBufferCommand.create_named BufferType.Uniform { id := 7, size := 64 } {}
          "MatrixBlock")) {} = [GLCall.glBindBuffer GL_UNIFORM_BUFFER 7]
    ∧ detail.dispath_command (Command.bind_buffer
        (BindBufferCommand.create_named BufferType.Uniform { id := 7, size := 64 } {}
          "MatrixBlock")) {} ≠ [] := by
  decide

/-- C8, amended: a BindBuffer command built for a block name the pipeline's
uniform-block list does not hold keeps block index -1, and its dispatch
issues exactly one driver call, the plain bind of the buffer's handle to the
target of its buffer type. -/
theorem bind_buffer_unresolved_binds_plainly (t : BufferType) (b : Buffer)
    (p : ProgramPipeline) (block_name : String) (buf : CommandBuffer)
    (h : ∀ ub ∈ p.uniform_blocks, ub.name ≠ block_name) :
    (BindBufferCommand.create_named t b p block_name).block_index = -1
    ∧ detail.dispath_command
        (Command.bind_buffer (BindBufferCommand.create_named t b p block_name)) buf
        = [GLCall.glBindBuffer (detail.buffer_type t) b.id] := by
  unfold BindBufferCommand.create_named
  rw [bind_buffer_resolve_absent block_name _ p.uniform_blocks h]
  exact ⟨rfl, rfl⟩

/-- Witness for C8, amended: the input of the counterexample. -/
theorem bind_buffer_unresolved_binds_plainly_witness :
    (∀ ub ∈ ({} : ProgramPipeline).uniform_blocks, ub.name ≠ "MatrixBlock")
    ∧ detail.dispath_command (Command.bind_buffer
        (BindBufferCommand.create_named BufferType.Uniform { id := 7, size := 64 } {}
          "MatrixBlock")) {}
      = [GLCall.glBindBuffer (detail.buffer_type BufferType.Uniform)
          ({ id := 7, size := 64 } : Buffer).id] :=
  ⟨by decide,
   (bind_buffer_unresolved_binds_plainly BufferType.Uniform { id := 7, size := 64 } {}
      "MatrixBlock" {} (by decide)).2⟩

/-- Counterexample to C9: the pipeline holds the block `MatrixBlock` with the
32-bit binding value 0xFFFFFFFF. Stored into the `int32_t` block index it is
-1, the unresolved value, so the command dispatches as a plain bind and not
as a ranged bind. -/
theorem bind_buffer_binding_max_binds_plainly :
    (∃ ub ∈ ({ uniform_blocks := [{ name := "MatrixBlock", buffer_binding := 0xFFFFFFFF }] }
        : ProgramPipeline).uniform_blocks,
        ub.name = "MatrixBlock" ∧ ub.buffer_binding < 2 ^ 32)
    ∧ (BindBufferCommand.create_named BufferType.Uniform { id := 7, size := 64 }
        { uniform_blocks := [{ name := "MatrixBlock", buffer_binding := 0xFFFFFFFF }] }
        "MatrixBlock").block_index = -1
    ∧ detail.dispath_command (Command.bind_buffer
        (BindBufferCommand.create_named BufferType.Uniform { id := 7, size := 64 }
          { uniform_blocks := [{ name := "MatrixBlock", buffer_binding := 0xFFFFFFFF }] }
          "MatrixBlock")) {} = [GLCall.glBindBuffer GL_UNIFORM_BUFFER 7] := by
  decide

/-- C9, amended: when the first entry of the pipeline's uniform-block list
with the given name has a binding value other than 0xFFFFFFFF (any value
below 2^32 - 1), the BindBuffer command built from a buffer, the pipeline and
the name dispatches as exactly one ranged bind, with that binding index,
offset 0 and the buffer's recorded size, and not as a plain bind. -/
theorem bind_buffer_resolved_binds_range (t : BufferType) (b : Buffer) (p : ProgramPipeline)
    (block_name : String) (buf : CommandBuffer) (ub : ProgramResourceInfo)
    (hfirst : p.uniform_blocks.find? (fun e => decide (e.name = block_name)) = some ub)
    (hbinding : ub.buffer_binding < 2 ^ 32 - 1) :
    detail.dispath_command
        (Command.bind_buffer (BindBufferCommand.create_named t b p block_name)) buf
      = [GLCall.glBindBufferRange (detail.buffer_type t) ub.buffer_binding b.id 0 b.size] := by
  unfold BindBufferCommand.create_named
  rw [bind_buffer_resolve_first block_name _ p.uniform_blocks ub hfirst]
  have hne := to_int32_ne_neg_one ub.buffer_binding hbinding
  have hback := to_uint32_to_int32 ub.buffer_binding (by omega)
  simp [detail.dispath_command, hne, hback]

/-- Witness for C9, amended: two blocks of the same name, the first with
binding 2; the ranged bind uses binding 2. -/
theorem bind_buffer_resolved_binds_range_witness :
    detail.dispath_command (Command.bind_buffer
        (BindBufferCommand.create_named BufferType.Uniform { id := 7, size := 64 }
          { uniform_blocks := [{ name := "MatrixBlock", buffer_binding := 2 },
                               { name := "MatrixBlock", buffer_binding := 5 }] }
          "MatrixBlock")) {}
      = [GLCall.glBindBufferRange (detail.buffer_type BufferType.Uniform)
          ({ name := "MatrixBlock", buffer_binding := 2 } : ProgramResourceInfo).buffer_binding
          ({ id := 7, size := 64 } : Buffer).id 0 ({ id := 7, size := 64 } : Buffer).size] :=
  bind_buffer_resolved_binds_range BufferType.Uniform { id := 7, size := 64 }
    { uniform_blocks := [{ name := "MatrixBlock", buffer_binding := 2 },
                         { name := "MatrixBlock", buffer_binding := 5 }] }
    "MatrixBlock" {} { name := "MatrixBlock", buffer_binding := 2 } (by decide) (by decide)

/-- The five float-typed alternatives of `UniformValue` upload with exactly
one call of their own shape, carrying pid, location and count. -/
theorem dispath_uniform_float_shapes (pid : Nat) (location : Int) (count : Nat)
    (h : pid ≠ 0) :
    (∀ v, detail.dispath_uniform (UniformValue.float v) pid location count
        = [GLCall.glProgramUniform1fv pid location (to_int32 count) v])
    ∧ (∀ v, detail.dispath_uniform (UniformValue.vec2 v) pid location count
        = [GLCall.glProgramUniform2fv pid location (to_int32 count) v])
    ∧ (∀ v, detail.dispath_uniform (UniformValue.vec3 v) pid location count
        = [GLCall.glProgramUniform3fv pid location (to_int32 count) v])
    ∧ (∀ v, detail.dispath_uniform (UniformValue.vec4 v) pid location count
        = [GLCall.glProgramUniform4fv pid location (to_int32 count) v])
    ∧ (∀ v, detail.dispath_uniform (UniformValue.mat4 v) pid location count
        = [GLCall.glProgramUniformMatrix4fv pid location (to_int32 count) GL_FALSE v]) := by
  simp [detail.dispath_uniform, h]

/-- C10, the code at the failing input: a SetUniform command with pid 1,
location 0, count 1 and the `int` value 5 dispatches to no driver call at
all, because the visitor of `dispath_uniform` has no branch for `int`. -/
theorem dispath_uniform_int_issues_no_call :
    detail.dispath_command (Command.set_uniform
        { pid := 1, location := 0, count := 1, value := UniformValue.int 5 }) {} = [] := by
  decide

/-! ## The claims on drawing and on geometry -/

/-- C11: the dispatch of a DrawElements command is exactly one draw call.
It is indexed exactly for the formats other than `unknown` and `v3_f32`, and
instanced exactly when `num_instances` is not 1. The indexed calls draw
triangles with 16-bit indices whatever `mode` says, so a change of `mode`
changes nothing there; the non-indexed calls carry `mode`, `base_element`
and `num_elements`. -/
theorem dispath_draw_elements (arg : DrawElementsCommand) (buf : CommandBuffer) :
    (detail.dispath_command (Command.draw_elements arg) buf).length = 1
    ∧ (detail.have_elements arg.format = true ↔
        (arg.format ≠ VertexFormat.unknown ∧ arg.format ≠ VertexFormat.v3_f32))
    ∧ (detail.have_elements arg.format = true → arg.num_instances = 1 →
        detail.dispath_command (Command.draw_elements arg) buf
          = [GLCall.glDrawElementsBaseVertex GL_TRIANGLES (to_int32 arg.num_elements)
              GL_UNSIGNED_SHORT (to_int32 arg.base_element)])
    ∧ (detail.have_elements arg.format = true → arg.num_instances ≠ 1 →
        detail.dispath_command (Command.draw_elements arg) buf
          = [GLCall.glDrawElementsInstancedBaseVertex GL_TRIANGLES (to_int32 arg.num_elements)
              GL_UNSIGNED_SHORT (to_int32 arg.num_instances) (to_int32 arg.base_element)])
    ∧ (detail.have_elements arg.format = false → arg.num_instances = 1 →
        detail.dispath_command (Command.draw_elements arg) buf
          = [GLCall.glDrawArrays arg.mode (to_int32 arg.base_element)
              (to_int32 arg.num_elements)])
    ∧ (detail.have_elements arg.format = false → arg.num_instances ≠ 1 →
        detail.dispath_command (Command.draw_elements arg) buf
          = [GLCall.glDrawArraysInstanced arg.mode (to_int32 arg.base_element)
              (to_int32 arg.num_elements) (to_int32 arg.num_instances)])
    ∧ (detail.have_elements arg.format = true → ∀ mode : Nat,
        detail.dispath_command (Command.draw_elements { arg with mode := mode }) buf
          = detail.dispath_command (Command.draw_elements arg) buf) := by
  refine ⟨?_, ?_, ?_, ?_, ?_, ?_, ?_⟩
  · simp only [detail.dispath_command]
    split <;> split <;> rfl
  · cases hf : arg.format <;> simp [detail.have_elements]
  · intro h1 h2
    simp [detail.dispath_command, h1, h2]
  · intro h1 h2
    simp [detail.dispath_command, h1, h2]
  · intro h1 h2
    simp [detail.dispath_command, h1, h2]
  · intro h1 h2
    simp [detail.dispath_command, h1, h2]
  · intro h1 mode
    simp [detail.dispath_command, h1]

/-- Witness for C11: an indexed, non-instanced draw of 36 elements whose
`mode` is 1 (lines) is dispatched as a draw of triangles. -/
theorem dispath_draw_elements_witness :
    detail.have_elements VertexFormat.v3t2n3_f32ui16 = true ∧
    detail.dispath_command (Command.draw_elements
        { format := VertexFormat.v3t2n3_f32ui16, mode := 1, num_elements := 36 }) {}
      = [GLCall.glDrawElementsBaseVertex GL_TRIANGLES
          (to_int32 ({ format := VertexFormat.v3t2n3_f32ui16, mode := 1, num_elements := 36 }
            : DrawElementsCommand).num_elements)
          GL_UNSIGNED_SHORT
          (to_int32 ({ format := VertexFormat.v3t2n3_f32ui16, mode := 1, num_elements := 36 }
            : DrawElementsCommand).base_element)] :=
  ⟨rfl, (dispath_draw_elements
    { format := VertexFormat.v3t2n3_f32ui16, mode := 1, num_elements := 36 } {}).2.2.1 rfl rfl⟩

/-- Counterexample to C12: an indexed geometry described with 2^32 indices.
The `size_t` count is stored into the `uint32_t` member `num_elements`, which
ends up 0 and not 2^32. -/
theorem create_geometry_truncates_num_elements :
    detail.have_elements VertexFormat.v3_f32ui16 = true
    ∧ (create_geometry { vbo := 1, ebo := 2, vao := 3 }
        { vertices_num := 3, indices_num := 2 ^ 32, format := VertexFormat.v3_f32ui16
        }).2.num_elements = 0
    ∧ (create_geometry { vbo := 1, ebo := 2, vao := 3 }
        { vertices_num := 3, indices_num := 2 ^ 32, format := VertexFormat.v3_f32ui16
        }).2.num_elements
      ≠ ({ vertices_num := 3, indices_num := 2 ^ 32, format := VertexFormat.v3_f32ui16 }
          : CreateGeometryInfo).indices_num := by
  decide

/-- C12, amended: the geometry returned by `create_geometry` has
`num_elements` equal to the index count reduced modulo 2^32 when the format
has an index buffer, and to the vertex count reduced modulo 2^32 for
`v3_f32`; so it equals the count itself whenever the count is below 2^32. -/
theorem create_geometry_num_elements (names : GeometryNames) (info : CreateGeometryInfo) :
    (detail.have_elements info.format = true →
        (create_geometry names info).2.num_elements = info.indices_num % 2 ^ 32)
    ∧ (info.format = VertexFormat.v3_f32 →
        (create_geometry names info).2.num_elements = info.vertices_num % 2 ^ 32)
    ∧ (detail.have_elements info.format = true → info.indices_num < 2 ^ 32 →
        (create_geometry names info).2.num_elements = info.indices_num)
    ∧ (info.format = VertexFormat.v3_f32 → info.vertices_num < 2 ^ 32 →
        (create_geometry names info).2.num_elements = info.vertices_num) := by
  have h1 : detail.have_elements info.format = true →
      (create_geometry names info).2.num_elements = info.indices_num % 2 ^ 32 := by
    intro h
    cases hf : info.format <;>
      simp [hf, detail.have_elements] at h <;>
      simp [create_geometry, create_geometry_attributes, hf]
  have h2 : info.format = VertexFormat.v3_f32 →
      (create_geometry names info).2.num_elements = info.vertices_num % 2 ^ 32 := by
    intro hf
    simp [create_geometry, create_geometry_attributes, hf]
  refine ⟨h1, h2, ?_, ?_⟩
  · intro h hlt
    rw [h1 h, Nat.mod_eq_of_lt hlt]
  · intro h hlt
    rw [h2 h, Nat.mod_eq_of_lt hlt]

/-- Witness for C12, amended: a cube with 36 indices. -/
theorem create_geometry_num_elements_witness :
    detail.have_elements
        ({ indices_num := 36, format := VertexFormat.v3t2n3_f32ui16 } : CreateGeometryInfo).format
      = true
    ∧ ({ indices_num := 36, format := VertexFormat.v3t2n3_f32ui16 } : CreateGeometryInfo).indices_num
      < 2 ^ 32
    ∧ (create_geometry { vbo := 1, ebo := 2, vao := 3 }
        { indices_num := 36, format := VertexFormat.v3t2n3_f32ui16 }).2.num_elements
      = ({ indices_num := 36, format := VertexFormat.v3t2n3_f32ui16 } : CreateGeometryInfo).indices_num :=
  ⟨rfl, by decide,
   (create_geometry_num_elements { vbo := 1, ebo := 2, vao := 3 }
      { indices_num := 36, format := VertexFormat.v3t2n3_f32ui16 }).2.2.1 rfl (by decide)⟩

theorem to_int64_size_t_mul (a b : Nat) (h : a * b < 2 ^ 63) :
    to_int64 (size_t_mul a b) = ((a * b : Nat) : Int) := by
  unfold to_int64 size_t_mul
  have h1 : a * b % 2 ^ 64 = a * b := Nat.mod_eq_of_lt (by omega)
  rw [Nat.mod_mod, h1, if_pos h]

/-- For the five formats other than `v3uv2n3t3_f32ui16` the attribute calls
of `create_geometry` describe the format's vertex record member by member,
and the stride is the size of the record. -/
theorem create_geometry_attributes_in_lockstep (vao vbo ebo : Nat) (info : CreateGeometryInfo) :
    (info.format = VertexFormat.v3_f32 →
      (create_geometry_attributes vao vbo ebo info).1 = record_attributes vao v3_t ++
        [GLObjectCall.glVertexArrayVertexBuffer vao 0 vbo 0 v3_t.sizeof])
    ∧ (info.format = VertexFormat.v3_f32ui16 →
      (create_geometry_attributes vao vbo ebo info).1 = record_attributes vao v3_t ++
        [GLObjectCall.glVertexArrayVertexBuffer vao 0 vbo 0 v3_t.sizeof,
         GLObjectCall.glVertexArrayElementBuffer vao ebo])
    ∧ (info.format = VertexFormat.v3n3_f32ui16 →
      (create_geometry_attributes vao vbo ebo info).1 = record_attributes vao v3n3_t ++
        [GLObjectCall.glVertexArrayVertexBuffer vao 0 vbo 0 v3n3_t.sizeof,
         GLObjectCall.glVertexArrayElementBuffer vao ebo])
    ∧ (info.format = VertexFormat.v3t2_f32ui16 →
      (create_geometry_attributes vao vbo ebo info).1 = record_attributes vao v3t2_t ++
        [GLObjectCall.glVertexArrayVertexBuffer vao 0 vbo 0 v3t2_t.sizeof,
         GLObjectCall.glVertexArrayElementBuffer vao ebo])
    ∧ (info.format = VertexFormat.v3t2n3_f32ui16 →
      (create_geometry_attributes vao vbo ebo info).1 = record_attributes vao v3t2n3_t ++
        [GLObjectCall.glVertexArrayVertexBuffer vao 0 vbo 0 v3t2n3_t.sizeof,
         GLObjectCall.glVertexArrayElementBuffer vao ebo]) := by
  refine ⟨?_, ?_, ?_, ?_, ?_⟩ <;> intro hf <;>
    simp [create_geometry_attributes, hf, record_attributes, v3_t, v3n3_t, v3t2_t, v3t2n3_t,
      VertexField.location, VertexField.floats]

/-- C13, the code at the failing input: for the format `v3uv2n3t3_f32ui16`
the attribute at location 3 (tangent) is given the relative offset 20, the
offset of `normal` in the record, the same as the attribute at location 2;
the offset of `tangent` in the 44-byte record is 32, and no attribute is
bound there. -/
theorem create_geometry_tangent_at_normal_offset :
    GLObjectCall.glVertexArrayAttribFormat 3 3 3 GL_FLOAT GL_FALSE 20
      ∈ (create_geometry { vbo := 1, ebo := 2, vao := 3 }
          { format := VertexFormat.v3uv2n3t3_f32ui16 }).1
    ∧ GLObjectCall.glVertexArrayAttribFormat 3 2 3 GL_FLOAT GL_FALSE 20
      ∈ (create_geometry { vbo := 1, ebo := 2, vao := 3 }
          { format := VertexFormat.v3uv2n3t3_f32ui16 }).1
    ∧ (∀ c ∈ (create_geometry { vbo := 1, ebo := 2, vao := 3 }
          { format := VertexFormat.v3uv2n3t3_f32ui16 }).1,
        c ≠ GLObjectCall.glVertexArrayAttribFormat 3 3 3 GL_FLOAT GL_FALSE 32)
    ∧ v3uv2n3t3_t.offsetof VertexField.normal = 20
    ∧ v3uv2n3t3_t.offsetof VertexField.tangent = 32
    ∧ v3uv2n3t3_t.sizeof = 44
    ∧ (create_geometry_attributes 3 1 2 { format := VertexFormat.v3uv2n3t3_f32ui16 }).1
      ≠ record_attributes 3 v3uv2n3t3_t ++
        [GLObjectCall.glVertexArrayVertexBuffer 3 0 1 0 v3uv2n3t3_t.sizeof,
         GLObjectCall.glVertexArrayElementBuffer 3 2] := by
  decide

/-- C14: `create_geometry` creates two buffers and attaches an element buffer
to the vertex array exactly when `have_elements` holds for the format (one
buffer for `v3_f32`, none for `unknown`); for every format other than
`unknown` the vertex buffer is uploaded with `vertices_num` times (as a
`size_t` product) the very stride that the one vertex-buffer binding uses;
and the `draw_geometry` command built from the geometry dispatches an
indexed draw exactly when an element buffer was attached. -/
theorem create_geometry_indexed_agreement (names : GeometryNames) (info : CreateGeometryInfo)
    (num_instances : Nat) (buf : CommandBuffer) :
    ((∃ vao b, GLObjectCall.glVertexArrayElementBuffer vao b ∈ (create_geometry names info).1)
        ↔ detail.have_elements info.format = true)
    ∧ ((create_geometry names info).1.countP GLObjectCall.is_create_buffers
        = if detail.have_elements info.format = true then 2
          else if info.format = VertexFormat.v3_f32 then 1 else 0)
    ∧ (detail.have_elements info.format = true →
        [GLObjectCall.glCreateBuffers 1 [names.vbo], GLObjectCall.glCreateBuffers 1 [names.ebo]]
            <+: (create_geometry names info).1
        ∧ GLObjectCall.glVertexArrayElementBuffer names.vao names.ebo
            ∈ (create_geometry names info).1
        ∧ (create_geometry names info).2.eb = names.ebo)
    ∧ (detail.have_elements info.format = false → (create_geometry names info).2.eb = 0)
    ∧ (info.format ≠ VertexFormat.unknown → ∃ stride : Nat,
        GLObjectCall.glNamedBufferData names.vbo
            (to_int64 (size_t_mul info.vertices_num stride)) info.vertices GL_STATIC_DRAW
          ∈ (create_geometry names info).1
        ∧ GLObjectCall.glVertexArrayVertexBuffer names.vao 0 names.vbo 0 stride
          ∈ (create_geometry names info).1
        ∧ (∀ v i b o st, GLObjectCall.glVertexArrayVertexBuffer v i b o st
            ∈ (create_geometry names info).1 → st = (stride : Int))
        ∧ (info.vertices_num * stride < 2 ^ 63 →
            to_int64 (size_t_mul info.vertices_num stride)
              = ((info.vertices_num * stride : Nat) : Int)))
    ∧ ((∃ c ∈ detail.dispath_command (Command.draw_elements
          (DrawGeometryCommand.create (create_geometry names info).2 num_instances).el) buf,
          c.is_indexed_draw = true)
        ↔ (∃ vao b, GLObjectCall.glVertexArrayElementBuffer vao b
            ∈ (create_geometry names info).1)) := by
  refine ⟨?_, ?_, ?_, ?_, ?_, ?_⟩
  · cases hf : info.format <;>
      simp [create_geometry, create_geometry_buffers, create_geometry_attributes,
        vertex_attribute, hf, detail.have_elements]
  · cases hf : info.format <;>
      simp [create_geometry, create_geometry_buffers, create_geometry_attributes,
        vertex_attribute, hf, detail.have_elements, GLObjectCall.is_create_buffers,
        List.countP_cons]
  · intro h
    cases hf : info.format <;> simp [hf, detail.have_elements] at h <;>
      simp [create_geometry, create_geometry_buffers, create_geometry_attributes,
        vertex_attribute, hf, List.prefix_iff_eq_take]
  · intro h
    cases hf : info.format <;> simp [hf, detail.have_elements] at h <;>
      simp [create_geometry, create_geometry_buffers, hf]
  · intro hne
    cases hf : info.format
    · exact absurd hf hne
    · refine ⟨v3_t.sizeof, ?_, ?_, ?_, to_int64_size_t_mul _ _⟩ <;>
        simp [create_geometry, create_geometry_buffers, create_geometry_attributes,
          vertex_attribute, hf]
    · refine ⟨v3_t.sizeof, ?_, ?_, ?_, to_int64_size_t_mul _ _⟩ <;>
        simp [create_geometry, create_geometry_buffers, create_geometry_attributes,
          vertex_attribute, hf]
    · refine ⟨v3n3_t.sizeof, ?_, ?_, ?_, to_int64_size_t_mul _ _⟩ <;>
        simp [create_geometry, create_geometry_buffers, create_geometry_attributes,
          vertex_attribute, hf]
    · refine ⟨v3t2_t.sizeof, ?_, ?_, ?_, to_int64_size_t_mul _ _⟩ <;>
        simp [create_geometry, create_geometry_buffers, create_geometry_attributes,
          vertex_attribute, hf]
    · refine ⟨v3t2n3_t.sizeof, ?_, ?_, ?_, to_int64_size_t_mul _ _⟩ <;>
        simp [create_geometry, create_geometry_buffers, create_geometry_attributes,
          vertex_attribute, hf]
    · refine ⟨v3uv2n3t3_t.sizeof, ?_, ?_, ?_, to_int64_size_t_mul _ _⟩ <;>
        simp [create_geometry, create_geometry_buffers, create_geometry_attributes,
          vertex_attribute, hf]
  · cases hf : info.format <;> by_cases hn : num_instances = 1 <;>
      simp [create_geometry, create_geometry_buffers, create_geometry_attributes,
        vertex_attribute, hf, detail.have_elements, DrawGeometryCommand.create,
        detail.dispath_command, GLCall.is_indexed_draw, hn]

/-- Witness for C14: a cube in the format `v3t2n3_f32ui16`, 24 vertices of
32 bytes each. -/
theorem create_geometry_indexed_agreement_witness :
    detail.have_elements
        ({ vertices_num := 24, format := VertexFormat.v3t2n3_f32ui16 } : CreateGeometryInfo).format
      = true
    ∧ GLObjectCall.glVertexArrayElementBuffer
        ({ vbo := 1, ebo := 2, vao := 3 } : GeometryNames).vao
        ({ vbo := 1, ebo := 2, vao := 3 } : GeometryNames).ebo
      ∈ (create_geometry { vbo := 1, ebo := 2, vao := 3 }
          { vertices_num := 24, format := VertexFormat.v3t2n3_f32ui16 }).1 :=
  ⟨rfl, ((create_geometry_indexed_agreement { vbo := 1, ebo := 2, vao := 3 }
      { vertices_num := 24, format := VertexFormat.v3t2n3_f32ui16 } 1 {}).2.2.1 rfl).2.1⟩

/-! ## The claims on descriptors -/

/-- The four destroy functions that reset the handle: shader, program
pipeline, buffer and geometry are released and left with zero handles. -/
theorem destroy_resets_handle (shader : Shader) (p : ProgramPipeline) (b : Buffer)
    (geometry : Geometry) :
    (destroy_shader shader).1 = [GLObjectCall.glDeleteProgram shader.id]
    ∧ (destroy_shader shader).2.id = 0
    ∧ (destroy_program_pipeline p).1 = [GLObjectCall.glDeleteProgramPipelines 1 [p.id]]
    ∧ (destroy_program_pipeline p).2.id = 0
    ∧ (destroy_buffer b).1 = [GLObjectCall.glDeleteBuffers 1 [b.id]]
    ∧ (destroy_buffer b).2.id = 0
    ∧ (destroy_geometry geometry).1
        = [GLObjectCall.glDeleteBuffers 1 [geometry.vb],
           GLObjectCall.glDeleteBuffers 1 [geometry.eb],
           GLObjectCall.glDeleteVertexArrays 1 [geometry.vao]]
    ∧ (destroy_geometry geometry).2.vb = 0
    ∧ (destroy_geometry geometry).2.eb = 0
    ∧ (destroy_geometry geometry).2.vao = 0 :=
  ⟨rfl, rfl, rfl, rfl, rfl, rfl, rfl, rfl, rfl, rfl⟩

/-- C15, the code at the failing input: `destroy_texture`,
`destroy_renderbuffer` and `destroy_framebuffer` release the handle 5 and
leave it in the descriptor: the texture still tests valid, and so does the
framebuffer. -/
theorem destroy_texture_keeps_handle :
    (destroy_texture { id := 5, target := GL_TEXTURE_2D, width := 4, height := 4 }).1
      = [GLObjectCall.glDeleteTextures 1 [5]]
    ∧ (destroy_texture { id := 5, target := GL_TEXTURE_2D, width := 4, height := 4 }).2.id = 5
    ∧ (destroy_texture
        { id := 5, target := GL_TEXTURE_2D, width := 4, height := 4 }).2.is_valid = true
    ∧ (destroy_renderbuffer { id := 5, width := 4, height := 4 }).1
      = [GLObjectCall.glDeleteRenderbuffers 1 [5]]
    ∧ (destroy_renderbuffer { id := 5, width := 4, height := 4 }).2.id = 5
    ∧ (destroy_framebuffer { id := 5, width := 4, height := 4 }).1
      = [GLObjectCall.glDeleteFramebuffers 1 [5]]
    ∧ (destroy_framebuffer { id := 5, width := 4, height := 4 }).2.id = 5
    ∧ (destroy_framebuffer { id := 5, width := 4, height := 4 }).2.is_valid = true := by
  decide

/-- C16: the validity predicates. Texture, sampler, buffer, shader and
program pipeline are valid exactly when `id` is not 0, a geometry when `vao`
is not 0, a framebuffer when `id` is not 0xFFFFFFFF; a framebuffer converts
to true exactly when it is valid and its status is `GL_FRAMEBUFFER_COMPLETE`;
and each default-constructed descriptor is invalid (the framebuffer also
converts to false). -/
theorem validity_predicates (t : Texture) (ts : TextureSampler) (b : Buffer) (sh : Shader)
    (p : ProgramPipeline) (g : Geometry) (f : Framebuffer) :
    (t.is_valid = true ↔ t.id ≠ 0)
    ∧ (ts.is_valid = true ↔ ts.id ≠ 0)
    ∧ (b.is_valid = true ↔ b.id ≠ 0)
    ∧ (sh.is_valid = true ↔ sh.id ≠ 0)
    ∧ (p.is_valid = true ↔ p.id ≠ 0)
    ∧ (g.is_valid = true ↔ g.vao ≠ 0)
    ∧ (f.is_valid = true ↔ f.id ≠ 0xFFFFFFFF)
    ∧ (f.to_bool = true ↔ (f.is_valid = true ∧ f.status = GL_FRAMEBUFFER_COMPLETE))
    ∧ ({} : Texture).is_valid = false
    ∧ ({} : TextureSampler).is_valid = false
    ∧ ({} : Buffer).is_valid = false
    ∧ ({} : Shader).is_valid = false
    ∧ ({} : ProgramPipeline).is_valid = false
    ∧ ({} : Geometry).is_valid = false
    ∧ ({} : Framebuffer).is_valid = false
    ∧ ({} : Framebuffer).to_bool = false := by
  have h32 : to_uint32 (-1) = 0xFFFFFFFF := by decide
  refine ⟨?_, ?_, ?_, ?_, ?_, ?_, ?_, ?_, ?_, ?_, ?_, ?_, ?_, ?_, ?_, ?_⟩
  · simp [Texture.is_valid]
  · simp [TextureSampler.is_valid]
  · simp [Buffer.is_valid]
  · simp [Shader.is_valid]
  · simp [ProgramPipeline.is_valid]
  · simp [Geometry.is_valid]
  · simp [Framebuffer.is_valid, h32]
  · simp [Framebuffer.to_bool, Framebuffer.is_complete, and_comm]
  · rfl
  · rfl
  · rfl
  · rfl
  · rfl
  · rfl
  · decide
  · decide

/-- C17: the pixel-format table. For the nine mapped formats the three
outputs are set to the format's triple, whatever they were; for `unknown`,
`r8`, `rg8`, `r16f` and `r32f` they come back unchanged, so they stay at the
zero that `create_texture` starts them at, and the texture storage is then
requested with internal format 0. -/
theorem pixelformat_table (internalformat : Int) (format type : Nat) :
    detail.get_texture_format_from_pixelformat PixelFormat.bgr8 internalformat format type
        = ((GL_RGB8 : Int), GL_BGR, GL_UNSIGNED_BYTE)
    ∧ detail.get_texture_format_from_pixelformat PixelFormat.bgra8 internalformat format type
        = ((GL_RGBA8 : Int), GL_BGRA, GL_UNSIGNED_BYTE)
    ∧ detail.get_texture_format_from_pixelformat PixelFormat.rgb8 internalformat format type
        = ((GL_RGB8 : Int), GL_RGB, GL_UNSIGNED_BYTE)
    ∧ detail.get_texture_format_from_pixelformat PixelFormat.rgba8 internalformat format type
        = ((GL_RGBA8 : Int), GL_RGBA, GL_UNSIGNED_BYTE)
    ∧ detail.get_texture_format_from_pixelformat PixelFormat.rgb16f internalformat format type
        = ((GL_RGB16F : Int), GL_RGB, GL_HALF_FLOAT)
    ∧ detail.get_texture_format_from_pixelformat PixelFormat.rgba16f internalformat format type
        = ((GL_RGBA16F : Int), GL_RGBA, GL_HALF_FLOAT)
    ∧ detail.get_texture_format_from_pixelformat PixelFormat.rgb32f internalformat format type
        = ((GL_RGB32F : Int), GL_RGB, GL_FLOAT)
    ∧ detail.get_texture_format_from_pixelformat PixelFormat.rgba32f internalformat format type
        = ((GL_RGBA32F : Int), GL_RGBA, GL_FLOAT)
    ∧ detail.get_texture_format_from_pixelformat PixelFormat.depth internalformat format type
        = ((GL_DEPTH_COMPONENT32F : Int), GL_DEPTH_COMPONENT, GL_FLOAT)
    ∧ (∀ pf ∈ [PixelFormat.unknown, PixelFormat.r8, PixelFormat.rg8, PixelFormat.r16f,
          PixelFormat.r32f],
        detail.get_texture_format_from_pixelformat pf internalformat format type
            = (internalformat, format, type)
        ∧ detail.get_texture_format_from_pixelformat pf 0 0 0 = (0, 0, 0)
        ∧ ∀ (id : Nat) (info : CreateTextureInfo), info.format = pf →
            GLObjectCall.glTextureStorage2D id (to_int32 info.levels) 0
                (to_int32 info.width) (to_int32 info.height)
              ∈ (create_texture id info).1)
    ∧ (∀ pf : PixelFormat,
        pf ∈ [PixelFormat.unknown, PixelFormat.r8, PixelFormat.rg8, PixelFormat.r16f,
          PixelFormat.r32f]
        ∨ pf ∈ [PixelFormat.bgr8, PixelFormat.bgra8, PixelFormat.rgb8, PixelFormat.rgba8,
          PixelFormat.rgb16f, PixelFormat.rgba16f, PixelFormat.rgb32f, PixelFormat.rgba32f,
          PixelFormat.depth]) := by
  refine ⟨rfl, rfl, rfl, rfl, rfl, rfl, rfl, rfl, rfl, ?_, ?_⟩
  · intro pf hpf
    have h0 : to_uint32 0 = 0 := by decide
    simp only [List.mem_cons, List.mem_singleton, List.not_mem_nil, or_false] at hpf
    rcases hpf with h | h | h | h | h <;> subst h <;>
      refine ⟨rfl, rfl, ?_⟩ <;> intro id info hfmt <;>
      simp [create_texture, hfmt, detail.get_texture_format_from_pixelformat, h0]
  · intro pf
    cases pf <;> simp

/-! ## Lemmas on the Targa loader -/

namespace extention

theorem read_encoded_header (h : detail.TargaHeader) (body : List Nat) :
    Reader.read { rest := h.encode ++ body, good := true } detail.sizeof_header
      = (h.encode, { rest := body, good := true }) := by
  simp [Reader.read, detail.sizeof_header, detail.TargaHeader.encode]

theorem read_header_encode (h : detail.TargaHeader) (hv : h.valid) :
    read_header h.encode = h := by
  obtain ⟨h1, h2, h3, h4, h5, h6, h7, h8, h9, h10, h11, h12⟩ := hv
  cases h
  simp only [read_header, detail.TargaHeader.encode, byte_at, u16_at, List.getD_cons_zero,
    List.getD_cons_succ] at *
  simp only [detail.TargaHeader.mk.injEq]
  refine ⟨?_, ?_, ?_, ?_, ?_, ?_, ?_, ?_, ?_, ?_, ?_, ?_⟩ <;> omega

/-- The loader on a file that starts with a whole header: the size test,
then the filling of the buffer. -/
theorem load_targa_encoded (h : detail.TargaHeader) (hv : h.valid) (body : List Nat) :
    load_targa { is_open := true, bytes := h.encode ++ body }
      = if 2 ^ 31 ≤ h.width * h.height * (h.bpp / 8 + 1) then
          Loaded.undefined Undefined.signed_overflow
        else
          match decode h (18 + body.length) { rest := body, good := true }
              (List.replicate (h.width * h.height * (h.bpp / 8 + 1)) 0) with
          | Except.ok data =>
            Loaded.returned (some
              { width := h.width, height := h.height, depth := 0,
                format := format_of_bpp h.bpp, pixels := data })
          | Except.error e => Loaded.undefined e := by
  have hlen : (h.encode ++ body).length = 18 + body.length := by
    simp only [detail.TargaHeader.encode, List.length_append, List.length_cons, List.length_nil]
  have henc : h.encode.length = 18 := by simp [detail.TargaHeader.encode]
  unfold load_targa
  simp only [Bool.not_true, Bool.false_eq_true, if_false, read_encoded_header,
    read_header_encode h hv, henc, hlen]
  simp

theorem store_at_end (done src : List Nat) (m : Nat) (h : src.length ≤ m) :
    store (done ++ List.replicate m 0) done.length src
      = Except.ok (done ++ src ++ List.replicate (m - src.length) 0) := by
  unfold store
  by_cases h0 : src.length = 0
  · have hnil : src = [] := List.length_eq_zero.mp h0
    subst hnil
    simp
  · have hfit : done.length + src.length ≤ (done ++ List.replicate m 0).length := by
      simp only [List.length_append, List.length_replicate]
      omega
    simp only [h0, if_false, hfit, if_true]
    congr 1
    have htake : (done ++ List.replicate m 0).take done.length = done := by simp
    have hdrop : (done ++ List.replicate m 0).drop (done.length + src.length)
        = List.replicate (m - src.length) 0 := by
      rw [List.drop_append]
      simp
    rw [htake, hdrop]

/-- The uncompressed branch: the bytes after the header go to the front of
the zero-filled buffer. -/
theorem decode_raw (h : detail.TargaHeader) (body : List Nat) (size : Nat)
    (ht : h.data_type = detail.TARGA_DATA_TRUE_COLOR
      ∨ h.data_type = detail.TARGA_DATA_BLACK_AND_WHITE)
    (hfit : body.length ≤ size) :
    decode h (18 + body.length) { rest := body, good := true } (List.replicate size 0)
      = Except.ok (body ++ List.replicate (size - body.length) 0) := by
  have hne : h.data_type ≠ detail.TARGA_DATA_RLE_TRUE_COLOR := by
    rcases ht with ht | ht <;> rw [ht] <;> decide
  have hread : (Reader.read { rest := body, good := true }
      (18 + body.length - detail.sizeof_header)).1 = body := by
    simp [Reader.read, detail.sizeof_header]
  unfold decode
  rw [if_neg hne, if_pos ht, hread]
  simpa using store_at_end [] body size hfit

theorem control_bits :
    ∀ c < 128, ((0x80 + c) % 256 &&& 0x7f = c ∧ (0x80 + c) % 256 &&& 0x80 ≠ 0)
      ∧ (c % 256 &&& 0x7f = c ∧ c % 256 &&& 0x80 = 0) := by
  decide

theorem repeat_pixel_at_end (pixel : List Nat) :
    ∀ (n : Nat) (done : List Nat) (m : Nat), n * pixel.length ≤ m →
      repeat_pixel pixel n (done ++ List.replicate m 0) done.length
        = Except.ok (done ++ (List.replicate n pixel).flatten
            ++ List.replicate (m - n * pixel.length) 0, done.length + n * pixel.length) := by
  intro n
  induction n with
  | zero => intro done m _; simp [repeat_pixel]
  | succ n ih =>
    intro done m hm
    have hpix : pixel.length ≤ m := by
      have : (n + 1) * pixel.length = n * pixel.length + pixel.length := by ring
      omega
    have hrest : n * pixel.length ≤ m - pixel.length := by
      have : (n + 1) * pixel.length = n * pixel.length + pixel.length := by ring
      omega
    have hih := ih (done ++ pixel) (m - pixel.length) hrest
    simp only [List.length_append] at hih
    simp only [repeat_pixel, store_at_end done pixel m hpix]
    rw [hih]
    have e1 : m - pixel.length - n * pixel.length = m - (n + 1) * pixel.length := by
      have : (n + 1) * pixel.length = n * pixel.length + pixel.length := by ring
      omega
    have e2 : done.length + pixel.length + n * pixel.length
        = done.length + (n + 1) * pixel.length := by ring
    simp [List.replicate_succ, e1, e2]

theorem Packet.pixels_length (bytesperpixel : Nat) (p : Packet)
    (hp : p.well_formed bytesperpixel) : p.pixels.length = bytesperpixel * p.count := by
  cases p with
  | run control pixel =>
    obtain ⟨_, hlen⟩ := hp
    simp [Packet.pixels, Packet.count, hlen, Nat.mul_comm]
  | literal control pixels =>
    obtain ⟨_, hlen⟩ := hp
    simp [Packet.pixels, Packet.count, hlen]

theorem read_front (front rest : List Nat) :
    Reader.read { rest := front ++ rest, good := true } front.length
      = (front, { rest := rest, good := true }) := by
  simp [Reader.read]

theorem read_one (b : Nat) (rest : List Nat) :
    Reader.read { rest := b :: rest, good := true } 1 = ([b], { rest := rest, good := true }) := by
  simp [Reader.read]

/-- One well-formed packet, decoded at the end of what was decoded so far. -/
theorem rle_packet_well_formed (bytesperpixel : Nat) (hb : bytesperpixel ≤ 4) (p : Packet)
    (hp : p.well_formed bytesperpixel) (rest done : List Nat) (m : Nat)
    (hm : p.pixels.length ≤ m) :
    rle_packet bytesperpixel
        { fs := { rest := p.encode ++ rest, good := true },
          data := done ++ List.replicate m 0, pdata := done.length }
      = Except.ok
        { fs := { rest := rest, good := true },
          data := done ++ p.pixels ++ List.replicate (m - p.pixels.length) 0,
          pdata := done.length + p.pixels.length } := by
  cases p with
  | run control pixel =>
    obtain ⟨hc, hlen⟩ := hp
    obtain ⟨⟨hcount, hhigh⟩, _⟩ := control_bits control hc
    have hn : (control + 1) * pixel.length ≤ m := by
      simpa [Packet.pixels] using hm
    have hnot : ¬ 4 < bytesperpixel := by omega
    have hgot := read_front pixel rest
    rw [hlen] at hgot
    have hbytes : (pixel ++ List.replicate (4 - pixel.length) 0).take bytesperpixel = pixel := by
      rw [← hlen]; simp
    simp only [rle_packet, Packet.encode, List.cons_append, read_one, List.getD_cons_zero,
      hcount, hhigh, ne_eq, not_false_eq_true, if_true, hnot, if_false, hgot, hbytes,
      repeat_pixel_at_end pixel (control + 1) done m hn]
    simp [Packet.pixels]
  | literal control pixels =>
    obtain ⟨hc, hlen⟩ := hp
    obtain ⟨_, hcount, hlow⟩ := control_bits control hc
    have hn : pixels.length ≤ m := by simpa [Packet.pixels] using hm
    have hgot := read_front pixels rest
    rw [hlen] at hgot
    simp only [rle_packet, Packet.encode, List.cons_append, read_one, List.getD_cons_zero,
      hcount, hlow, ne_eq, not_true_eq_false, if_false, if_true, hgot,
      store_at_end done pixels m hn]
    simp [Packet.pixels, hlen]

/-- Once the file is used up the loop changes the buffer no more. -/
theorem rle_loop_exhausted (bytesperpixel : Nat) :
    ∀ (i : Nat) (d : Decoder), d.fs.rest = [] →
      ∃ d1, rle_loop bytesperpixel i d = Except.ok d1 ∧ d1.data = d.data := by
  intro i
  induction i with
  | zero => intro d _; exact ⟨d, rfl, rfl⟩
  | succ i ih =>
    intro d hd
    have hstep : ∃ fs1 : Reader, fs1.rest = [] ∧
        rle_packet bytesperpixel d = Except.ok { d with fs := fs1 } := by
      by_cases hg : d.fs.good = true
      · refine ⟨{ rest := [], good := false }, rfl, ?_⟩
        simp [rle_packet, Reader.read, hg, hd]
      · refine ⟨d.fs, hd, ?_⟩
        simp [rle_packet, Reader.read, hg]
    obtain ⟨fs1, hfs1, hpacket⟩ := hstep
    obtain ⟨d1, hd1, hdata⟩ := ih { d with fs := fs1 } hfs1
    exact ⟨d1, by simp only [rle_loop, hpacket, hd1], hdata⟩

/-- A stream of well-formed packets, decoded by the loop: the pixels of the
packets in order, at the end of what was decoded so far. -/
theorem rle_loop_well_formed (bytesperpixel : Nat) (hb : bytesperpixel ≤ 4) :
    ∀ (packets : List Packet) (i : Nat) (done : List Nat) (m : Nat),
      (∀ p ∈ packets, p.well_formed bytesperpixel) → packets.length ≤ i →
      (packets.flatMap Packet.pixels).length ≤ m →
      ∃ d1, rle_loop bytesperpixel i
          { fs := { rest := packets.flatMap Packet.encode, good := true },
            data := done ++ List.replicate m 0, pdata := done.length } = Except.ok d1
        ∧ d1.data = done ++ packets.flatMap Packet.pixels
            ++ List.replicate (m - (packets.flatMap Packet.pixels).length) 0 := by
  intro packets
  induction packets with
  | nil =>
    intro i done m _ _ _
    obtain ⟨d1, hd1, hdata⟩ := rle_loop_exhausted bytesperpixel i
      { fs := { rest := [], good := true }, data := done ++ List.replicate m 0,
        pdata := done.length } rfl
    exact ⟨d1, by simpa using hd1, by simpa using hdata⟩
  | cons p rest ih =>
    intro i done m hwf hi hm
    cases i with
    | zero => simp at hi
    | succ i =>
      have hp := hwf p (List.mem_cons_self p rest)
      have hm1 : p.pixels.length + (rest.flatMap Packet.pixels).length ≤ m := by
        simpa using hm
      have hstep := rle_packet_well_formed bytesperpixel hb p hp
        (rest.flatMap Packet.encode) done m (by omega)
      have hih := ih i (done ++ p.pixels) (m - p.pixels.length)
        (fun q hq => hwf q (List.mem_cons_of_mem p hq)) (by simpa using hi) (by omega)
      obtain ⟨d1, hd1, hdata⟩ := hih
      refine ⟨d1, ?_, ?_⟩
      · simp only [List.flatMap_cons, rle_loop, hstep]
        simpa using hd1
      · rw [hdata]
        have e : m - p.pixels.length - (rest.flatMap Packet.pixels).length
            = m - (p.pixels.length + (rest.flatMap Packet.pixels).length) := by omega
        rw [e]
        simp only [List.flatMap_cons, List.length_append, List.append_assoc]

theorem packets_pixels_length (bytesperpixel : Nat) (packets : List Packet)
    (hwf : ∀ p ∈ packets, p.well_formed bytesperpixel) :
    (packets.flatMap Packet.pixels).length = bytesperpixel * (packets.map Packet.count).sum := by
  induction packets with
  | nil => simp
  | cons p rest ih =>
    have hp := Packet.pixels_length bytesperpixel p (hwf p (List.mem_cons_self p rest))
    have hrest := ih (fun q hq => hwf q (List.mem_cons_of_mem p hq))
    simp only [List.flatMap_cons, List.length_append, List.map_cons, List.sum_cons, hp, hrest]
    ring

theorem packets_length_le_count (packets : List Packet) :
    packets.length ≤ (packets.map Packet.count).sum := by
  induction packets with
  | nil => simp
  | cons p rest ih =>
    have hp : 1 ≤ p.count := by cases p <;> simp [Packet.count]
    simp only [List.length_cons, List.map_cons, List.sum_cons]
    omega

/-- The run-length branch on a stream of well-formed packets that make up
the whole image: the pixels of the packets, then the unused rest of the
zero-filled buffer. -/
theorem decode_rle (h : detail.TargaHeader) (packets : List Packet) (lenght : Nat)
    (ht : h.data_type = detail.TARGA_DATA_RLE_TRUE_COLOR) (hb : h.bpp / 8 ≤ 4)
    (hwf : ∀ p ∈ packets, p.well_formed (h.bpp / 8))
    (hsum : (packets.map Packet.count).sum = h.width * h.height) :
    decode h lenght { rest := packets.flatMap Packet.encode, good := true }
        (List.replicate (h.width * h.height * (h.bpp / 8 + 1)) 0)
      = Except.ok (packets.flatMap Packet.pixels ++ List.replicate (h.width * h.height) 0) := by
  have hlen := packets_pixels_length (h.bpp / 8) packets hwf
  rw [hsum] at hlen
  have hfuel : packets.length ≤ h.width * h.height := by
    rw [← hsum]; exact packets_length_le_count packets
  have hsize : h.width * h.height * (h.bpp / 8 + 1)
      = h.bpp / 8 * (h.width * h.height) + h.width * h.height := by ring
  obtain ⟨d1, hd1, hdata⟩ := rle_loop_well_formed (h.bpp / 8) hb packets
    (h.width * h.height) [] (h.width * h.height * (h.bpp / 8 + 1)) hwf hfuel (by omega)
  simp only [List.nil_append, List.length_nil] at hd1 hdata
  have hleft : h.width * h.height * (h.bpp / 8 + 1) - (packets.flatMap Packet.pixels).length
      = h.width * h.height := by omega
  unfold decode
  rw [if_pos ht, hd1]
  simp only [hdata, hleft]

/-- The loader on an uncompressed file whose pixel data fits the buffer. -/
theorem load_targa_raw (h : detail.TargaHeader) (hv : h.valid) (body : List Nat)
    (ht : h.data_type = detail.TARGA_DATA_TRUE_COLOR
      ∨ h.data_type = detail.TARGA_DATA_BLACK_AND_WHITE)
    (hsize : h.width * h.height * (h.bpp / 8 + 1) < 2 ^ 31)
    (hfit : body.length ≤ h.width * h.height * (h.bpp / 8 + 1)) :
    load_targa { is_open := true, bytes := h.encode ++ body }
      = Loaded.returned (some
          { width := h.width, height := h.height, depth := 0, format := format_of_bpp h.bpp,
            pixels := body ++ List.replicate
              (h.width * h.height * (h.bpp / 8 + 1) - body.length) 0 }) := by
  rw [load_targa_encoded h hv body, if_neg (by omega), decode_raw h body _ ht hfit]

/-- The loader on a run-length-encoded file of well-formed packets that make
up the whole image. -/
theorem load_targa_rle (h : detail.TargaHeader) (hv : h.valid) (packets : List Packet)
    (ht : h.data_type = detail.TARGA_DATA_RLE_TRUE_COLOR) (hb : h.bpp / 8 ≤ 4)
    (hwf : ∀ p ∈ packets, p.well_formed (h.bpp / 8))
    (hsum : (packets.map Packet.count).sum = h.width * h.height)
    (hsize : h.width * h.height * (h.bpp / 8 + 1) < 2 ^ 31) :
    load_targa { is_open := true, bytes := h.encode ++ packets.flatMap Packet.encode }
      = Loaded.returned (some
          { width := h.width, height := h.height, depth := 0, format := format_of_bpp h.bpp,
            pixels := packets.flatMap Packet.pixels
              ++ List.replicate (h.width * h.height) 0 }) := by
  rw [load_targa_encoded h hv _, if_neg (by omega), decode_rle h packets _ ht hb hwf hsum]

theorem head_eq_take (bytes : List Nat) :
    (Reader.read { rest := bytes, good := true } detail.sizeof_header).1 = bytes.take 18 := by
  by_cases hlen : 18 ≤ bytes.length
  · simp [Reader.read, detail.sizeof_header, hlen]
  · simp [Reader.read, detail.sizeof_header, hlen, List.take_of_length_le (by omega : bytes.length ≤ 18)]

/-- An uncompressed or unsupported file with a whole header whose sizes stay
in `int` range and whose pixel data fits the buffer is loaded: the loader
returns an image. -/
theorem load_targa_returns (h : detail.TargaHeader) (hv : h.valid) (body : List Nat)
    (ht : h.data_type ≠ detail.TARGA_DATA_RLE_TRUE_COLOR)
    (hsize : h.width * h.height * (h.bpp / 8 + 1) < 2 ^ 31)
    (hfit : body.length ≤ h.width * h.height * (h.bpp / 8 + 1)) :
    ∃ image, load_targa { is_open := true, bytes := h.encode ++ body }
      = Loaded.returned (some image) := by
  by_cases hraw : h.data_type = detail.TARGA_DATA_TRUE_COLOR
      ∨ h.data_type = detail.TARGA_DATA_BLACK_AND_WHITE
  · exact ⟨_, load_targa_raw h hv body hraw hsize hfit⟩
  · refine ⟨{ width := h.width, height := h.height, depth := 0, format := format_of_bpp h.bpp,
              pixels := List.replicate (h.width * h.height * (h.bpp / 8 + 1)) 0 }, ?_⟩
    rw [load_targa_encoded h hv body, if_neg (by omega)]
    simp only [decode, if_neg ht, if_neg hraw]

/-! ## The claims on the Targa loader -/

/-- Counterexample to C18: the uncompressed 24-bit file of one pixel with the
bytes 1, 2, 3 is loaded as a 1 x 1 image whose pixel buffer is 1, 2, 3, 0 and
not 1, 2, 3; and for a header of 46341 x 46341 pixels of 24 bits the size
product leaves the range of `int`, so whatever pixel data follows no image
comes back. -/
theorem load_targa_pads_pixels :
    load_targa { is_open := true,
                 bytes := [0, 0, 2, 0, 0, 0, 0, 0, 0, 0, 0, 0, 1, 0, 1, 0, 24, 0] ++ [1, 2, 3] }
      = Loaded.returned (some
          { width := 1, height := 1, format := PixelFormat.bgr8, pixels := [1, 2, 3, 0] })
    ∧ [1, 2, 3, 0] ≠ [1, 2, 3]
    ∧ (∀ pixels : List Nat,
        load_targa { is_open := true,
                     bytes := [0, 0, 2, 0, 0, 0, 0, 0, 0, 0, 0, 0, 5, 181, 5, 181, 24, 0]
                       ++ pixels }
          = Loaded.undefined Undefined.signed_overflow) := by
  refine ⟨by decide, by decide, ?_⟩
  intro pixels
  have hv : (plain_header 2 46341 46341 24).valid := by
    unfold detail.TargaHeader.valid plain_header
    decide
  have henc : (plain_header 2 46341 46341 24).encode
      = [0, 0, 2, 0, 0, 0, 0, 0, 0, 0, 0, 0, 5, 181, 5, 181, 24, 0] := by decide
  have h := load_targa_encoded (plain_header 2 46341 46341 24) hv pixels
  rw [henc] at h
  rw [h]
  simp [plain_header]

/-- C18, amended: for every header of data type 2 with 24 or 32 bits per
pixel whose size product width x height x (bpp/8 + 1) stays below 2^31, and
every sequence of width x height x bpp/8 pixel bytes, `load_targa` on the
header followed by the pixel bytes returns an image of that width and height
(format `bgr8` or `bgra8`) whose pixel buffer is the original pixel bytes
followed by width x height zero bytes. -/
theorem load_targa_truecolor_roundtrip (h : detail.TargaHeader) (pixels : List Nat)
    (hv : h.valid) (ht : h.data_type = detail.TARGA_DATA_TRUE_COLOR)
    (hbpp : h.bpp = 24 ∨ h.bpp = 32)
    (hlen : pixels.length = h.width * h.height * (h.bpp / 8))
    (hsize : h.width * h.height * (h.bpp / 8 + 1) < 2 ^ 31) :
    load_targa { is_open := true, bytes := h.encode ++ pixels }
      = Loaded.returned (some
          { width := h.width, height := h.height, depth := 0,
            format := if h.bpp = 24 then PixelFormat.bgr8 else PixelFormat.bgra8,
            mipmaps := false,
            pixels := pixels ++ List.replicate (h.width * h.height) 0 }) := by
  have hfit : pixels.length ≤ h.width * h.height * (h.bpp / 8 + 1) := by
    rw [hlen, Nat.mul_add]; omega
  have hpad : h.width * h.height * (h.bpp / 8 + 1) - pixels.length = h.width * h.height := by
    rw [hlen, Nat.mul_add]; omega
  have hfmt : format_of_bpp h.bpp
      = if h.bpp = 24 then PixelFormat.bgr8 else PixelFormat.bgra8 := by
    rcases hbpp with hb | hb <;> simp [format_of_bpp, hb]
  rw [load_targa_raw h hv pixels (Or.inl ht) hsize hfit, hpad, hfmt]

/-- Witness for C18, amended: a 2 x 1 image of 24 bits per pixel. -/
theorem load_targa_truecolor_roundtrip_witness :
    load_targa { is_open := true,
                 bytes := (plain_header 2 2 1 24).encode ++ [1, 2, 3, 4, 5, 6] }
      = Loaded.returned (some
          { width := 2, height := 1, format := PixelFormat.bgr8,
            pixels := [1, 2, 3, 4, 5, 6, 0, 0] }) :=
  load_targa_truecolor_roundtrip (plain_header 2 2 1 24) [1, 2, 3, 4, 5, 6]
    (by unfold detail.TargaHeader.valid plain_header; decide) rfl (Or.inl rfl) rfl (by decide)

/-- C19: for every header with 24 or 32 bits per pixel and every stream of
well-formed packets whose pixel counts sum to width x height, `load_targa`
on the run-length-encoded file (data type 10) ends exactly as it ends on the
uncompressed file (data type 2) of the pixels the packets stand for; when the
size product stays below 2^31 both return the image whose buffer starts with
those pixels. -/
theorem load_targa_rle_agrees_with_raw (h : detail.TargaHeader) (packets : List Packet)
    (hv : h.valid) (hbpp : h.bpp = 24 ∨ h.bpp = 32)
    (hwf : ∀ p ∈ packets, p.well_formed (h.bpp / 8))
    (hsum : (packets.map Packet.count).sum = h.width * h.height) :
    load_targa { is_open := true,
                 bytes := ({ h with data_type := detail.TARGA_DATA_RLE_TRUE_COLOR }).encode
                   ++ packets.flatMap Packet.encode }
      = load_targa { is_open := true,
                     bytes := ({ h with data_type := detail.TARGA_DATA_TRUE_COLOR }).encode
                       ++ packets.flatMap Packet.pixels }
    ∧ (h.width * h.height * (h.bpp / 8 + 1) < 2 ^ 31 →
        load_targa { is_open := true,
                     bytes := ({ h with data_type := detail.TARGA_DATA_RLE_TRUE_COLOR }).encode
                       ++ packets.flatMap Packet.encode }
          = Loaded.returned (some
              { width := h.width, height := h.height, depth := 0,
                format := format_of_bpp h.bpp, mipmaps := false,
                pixels := packets.flatMap Packet.pixels
                  ++ List.replicate (h.width * h.height) 0 })) := by
  obtain ⟨h1, h2, h3, h4, h5, h6, h7, h8, h9, h10, h11, h12⟩ := hv
  have hv10 : ({ h with data_type := detail.TARGA_DATA_RLE_TRUE_COLOR }
      : detail.TargaHeader).valid :=
    ⟨h1, h2, by simp [detail.TARGA_DATA_RLE_TRUE_COLOR], h4, h5, h6, h7, h8, h9, h10, h11, h12⟩
  have hv2 : ({ h with data_type := detail.TARGA_DATA_TRUE_COLOR }
      : detail.TargaHeader).valid :=
    ⟨h1, h2, by simp [detail.TARGA_DATA_TRUE_COLOR], h4, h5, h6, h7, h8, h9, h10, h11, h12⟩
  have hb : h.bpp / 8 ≤ 4 := by rcases hbpp with hb | hb <;> omega
  have hrle : h.width * h.height * (h.bpp / 8 + 1) < 2 ^ 31 →
      load_targa { is_open := true,
                   bytes := ({ h with data_type := detail.TARGA_DATA_RLE_TRUE_COLOR }).encode
                     ++ packets.flatMap Packet.encode }
        = Loaded.returned (some
            { width := h.width, height := h.height, depth := 0,
              format := format_of_bpp h.bpp, mipmaps := false,
              pixels := packets.flatMap Packet.pixels
                ++ List.replicate (h.width * h.height) 0 }) := by
    intro hsize
    exact load_targa_rle _ hv10 packets rfl hb hwf hsum hsize
  refine ⟨?_, hrle⟩
  by_cases hsize : h.width * h.height * (h.bpp / 8 + 1) < 2 ^ 31
  · have hlen := packets_pixels_length (h.bpp / 8) packets hwf
    rw [hsum] at hlen
    have hfit : (packets.flatMap Packet.pixels).length
        ≤ h.width * h.height * (h.bpp / 8 + 1) := by
      rw [hlen, Nat.mul_add]
      have : h.bpp / 8 * (h.width * h.height) = h.width * h.height * (h.bpp / 8) := by ring
      omega
    have hpad : h.width * h.height * (h.bpp / 8 + 1) - (packets.flatMap Packet.pixels).length
        = h.width * h.height := by
      rw [hlen, Nat.mul_add]
      have : h.bpp / 8 * (h.width * h.height) = h.width * h.height * (h.bpp / 8) := by ring
      omega
    rw [hrle hsize, load_targa_raw _ hv2 _ (Or.inl rfl) hsize hfit]
    simp only [hpad]
  · rw [load_targa_encoded _ hv10, load_targa_encoded _ hv2]
    simp only [if_pos (Nat.le_of_not_lt hsize)]

/-- Witness for C19: a 3 x 1 image of 24 bits per pixel, as a run of two
pixels and one literal pixel. -/
theorem load_targa_rle_agrees_with_raw_witness :
    load_targa { is_open := true,
                 bytes := ({ plain_header 0 3 1 24 with
                             data_type := detail.TARGA_DATA_RLE_TRUE_COLOR }).encode
                   ++ [Packet.run 1 [1, 2, 3], Packet.literal 0 [4, 5, 6]].flatMap Packet.encode }
      = load_targa { is_open := true,
                     bytes := ({ plain_header 0 3 1 24 with
                                 data_type := detail.TARGA_DATA_TRUE_COLOR }).encode
                       ++ [Packet.run 1 [1, 2, 3], Packet.literal 0 [4, 5, 6]].flatMap
                           Packet.pixels } :=
  (load_targa_rle_agrees_with_raw (plain_header 0 3 1 24)
    [Packet.run 1 [1, 2, 3], Packet.literal 0 [4, 5, 6]]
    (by unfold detail.TargaHeader.valid plain_header; decide) (Or.inl rfl)
    (by
      intro p hp
      simp only [List.mem_cons, List.mem_singleton, List.not_mem_nil, or_false] at hp
      rcases hp with rfl | rfl <;> simp [Packet.well_formed, plain_header])
    (by decide)).1

/-- C20: whenever `load_targa` returns an image, the format of the image is
`r8` for 8 bits per pixel in the header, `bgr8` for 24, `bgra8` for 32 and
`unknown` for every other bit depth, and its width and height are the 16-bit
width and height of the header (the first 18 bytes of the file). -/
theorem load_targa_format_and_size (fs : ifstream) (image : Image)
    (h : load_targa fs = Loaded.returned (some image)) :
    ((read_header (fs.bytes.take 18)).bpp = 8 → image.format = PixelFormat.r8)
    ∧ ((read_header (fs.bytes.take 18)).bpp = 24 → image.format = PixelFormat.bgr8)
    ∧ ((read_header (fs.bytes.take 18)).bpp = 32 → image.format = PixelFormat.bgra8)
    ∧ ((read_header (fs.bytes.take 18)).bpp ≠ 8 → (read_header (fs.bytes.take 18)).bpp ≠ 24 →
        (read_header (fs.bytes.take 18)).bpp ≠ 32 → image.format = PixelFormat.unknown)
    ∧ image.width = (read_header (fs.bytes.take 18)).width
    ∧ image.height = (read_header (fs.bytes.take 18)).height
    ∧ image.width < 65536 ∧ image.height < 65536 := by
  unfold load_targa at h
  by_cases hopen : fs.is_open = true
  · simp only [hopen, Bool.not_true, Bool.false_eq_true, if_false, head_eq_take] at h
    split at h
    · cases h
    · split at h
      · cases h
      · split at h
        · rename_i data hdata
          simp only [Loaded.returned.injEq, Option.some.injEq] at h
          subst h
          have hw : (read_header (fs.bytes.take 18)).width < 65536 := by
            simp only [read_header, u16_at, byte_at]; omega
          have hh : (read_header (fs.bytes.take 18)).height < 65536 := by
            simp only [read_header, u16_at, byte_at]; omega
          refine ⟨?_, ?_, ?_, ?_, rfl, rfl, hw, hh⟩
          · intro hb; simp [format_of_bpp, hb]
          · intro hb; simp [format_of_bpp, hb]
          · intro hb; simp [format_of_bpp, hb]
          · intro h8 h24 h32; simp [format_of_bpp, h8, h24, h32]
        · cases h
  · simp [hopen] at h

/-- Witness for C20: a greyscale file of one 8-bit pixel. -/
theorem load_targa_format_and_size_witness :
    ({ width := 1, height := 1, format := PixelFormat.r8, pixels := [77, 0] } : Image).format
      = PixelFormat.r8 :=
  (load_targa_format_and_size
    { is_open := true, bytes := [0, 0, 3, 0, 0, 0, 0, 0, 0, 0, 0, 0, 1, 0, 1, 0, 8, 0, 77] }
    { width := 1, height := 1, format := PixelFormat.r8, pixels := [77, 0] }
    (by decide)).1 (by decide)

end extention

/-! ## Further claims on commands and on replay -/

/-- C23: a BindBuffer command whose block index is -1 dispatches as exactly
one driver call, the plain bind of its buffer handle to the target of its
buffer type (array buffer, element array buffer, uniform buffer, or none for
`Unknown`), and as no ranged bind. A command built without a block name has
block index -1, and so has one built with a block name that the pipeline's
uniform-block list does not hold. -/
theorem bind_buffer_unresolved_dispatch (arg : BindBufferCommand) (buf : CommandBuffer)
    (h : arg.block_index = -1) :
    detail.dispath_command (Command.bind_buffer arg) buf
        = [GLCall.glBindBuffer (detail.buffer_type arg.type) arg.id]
    ∧ (∀ target index buffer offset size, GLCall.glBindBufferRange target index buffer offset size
        ∉ detail.dispath_command (Command.bind_buffer arg) buf)
    ∧ detail.buffer_type BufferType.VertexArray = GL_ARRAY_BUFFER
    ∧ detail.buffer_type BufferType.VertexElements = GL_ELEMENT_ARRAY_BUFFER
    ∧ detail.buffer_type BufferType.Uniform = GL_UNIFORM_BUFFER
    ∧ detail.buffer_type BufferType.Unknown = GL_NONE
    ∧ (∀ (t : BufferType) (b : Buffer),
        BindBufferCommand.create t b = { type := t, block_index := -1, id := b.id })
    ∧ (∀ (t : BufferType) (b : Buffer) (p : ProgramPipeline) (block_name : String),
        (∀ ub ∈ p.uniform_blocks, ub.name ≠ block_name) →
        BindBufferCommand.create_named t b p block_name
          = { type := t, block_index := -1, id := b.id, offset := 0, size := b.size }) := by
  refine ⟨?_, ?_, rfl, rfl, rfl, rfl, fun _ _ => rfl, ?_⟩
  · simp [detail.dispath_command, h]
  · intro target index buffer offset size
    simp [detail.dispath_command, h]
  · intro t b p block_name habsent
    unfold BindBufferCommand.create_named
    rw [bind_buffer_resolve_absent block_name _ p.uniform_blocks habsent]

/-- Witness for C23: a vertex buffer bound without a block name. -/
theorem bind_buffer_unresolved_dispatch_witness :
    detail.dispath_command
        (Command.bind_buffer (BindBufferCommand.create BufferType.VertexArray { id := 7 })) {}
      = [GLCall.glBindBuffer
          (detail.buffer_type (BindBufferCommand.create BufferType.VertexArray { id := 7 }).type)
          (BindBufferCommand.create BufferType.VertexArray { id := 7 }).id] :=
  (bind_buffer_unresolved_dispatch
    (BindBufferCommand.create BufferType.VertexArray { id := 7 }) {} rfl).1

theorem set_uniform_resolve_first (name : String) (v : UniformValue)
    (us : List ProgramResourceInfo) (u : ProgramResourceInfo)
    (h : us.find? (fun e => decide (e.name = name)) = some u) :
    SetUniformCommand.resolve name v us
      = { pid := u.pid, location := u.location, count := to_uint32 u.num, value := v,
          _name := name } := by
  induction us with
  | nil => simp at h
  | cons e rest ih =>
    by_cases he : e.name = name
    · simp only [List.find?_cons, he, decide_True, Option.some.injEq] at h
      subst h
      simp [SetUniformCommand.resolve, he]
    · simp only [List.find?_cons, he, decide_False] at h
      simp only [SetUniformCommand.resolve, he, if_false]
      exact ih h

theorem to_uint32_of_nonneg (i : Int) (h0 : 0 ≤ i) (h1 : i < 2 ^ 32) :
    ((to_uint32 i : Nat) : Int) = i := by
  unfold to_uint32
  rw [Int.emod_eq_of_lt h0 h1, Int.toNat_of_nonneg h0]

/-- C24: when `u` is the first entry of the pipeline's uniform list with the
given name, the SetUniform command built for the name takes pid, location
and array count (stored as a `uint32_t`) from `u` and holds the value and the
name it was given; entries after `u` play no part, so any pipeline with the
same first entry of that name yields the same command. The command record
holds values only, none of them a reference to the pipeline. -/
theorem set_uniform_first_match (p : ProgramPipeline) (name : String) (v : UniformValue)
    (u : ProgramResourceInfo)
    (hfirst : p.uniforms.find? (fun e => decide (e.name = name)) = some u) :
    SetUniformCommand.create p name v
        = { pid := u.pid, location := u.location, count := to_uint32 u.num, value := v,
            _name := name }
    ∧ (0 ≤ u.num → u.num < 2 ^ 32 →
        (((SetUniformCommand.create p name v).count : Nat) : Int) = u.num)
    ∧ (∀ front back : List ProgramResourceInfo, (∀ e ∈ front, e.name ≠ name) →
        u.name = name →
        SetUniformCommand.create { p with uniforms := front ++ u :: back } name v
          = SetUniformCommand.create p name v)
    ∧ (∀ q : ProgramPipeline,
        q.uniforms.find? (fun e => decide (e.name = name)) = some u →
        SetUniformCommand.create q name v = SetUniformCommand.create p name v) := by
  have hp := set_uniform_resolve_first name v p.uniforms u hfirst
  refine ⟨hp, ?_, ?_, ?_⟩
  · intro h0 h1
    unfold SetUniformCommand.create
    rw [hp]
    exact to_uint32_of_nonneg u.num h0 h1
  · intro front back hfront hu
    have hfind : (front ++ u :: back).find? (fun e => decide (e.name = name)) = some u := by
      induction front with
      | nil => simp [hu]
      | cons e rest ih =>
        have he : e.name ≠ name := hfront e (List.mem_cons_self e rest)
        simp only [List.cons_append, List.find?_cons, he, decide_False]
        exact ih (fun w hw => hfront w (List.mem_cons_of_mem e hw))
    unfold SetUniformCommand.create
    rw [hp]
    exact set_uniform_resolve_first name v _ u hfind
  · intro q hq
    unfold SetUniformCommand.create
    rw [hp]
    exact set_uniform_resolve_first name v q.uniforms u hq

/-- Witness for C24: `mvp` is declared by two shader stages; the command
takes the first declaration. -/
theorem set_uniform_first_match_witness :
    SetUniformCommand.create
        { id := 1, uniforms := [{ name := "color", pid := 2, location := 0, num := 1 },
                                { name := "mvp", pid := 2, location := 1, num := 1 },
                                { name := "mvp", pid := 3, location := 4, num := 2 }] }
        "mvp" (UniformValue.float f1)
      = { pid := 2, location := 1, count := to_uint32 1, value := UniformValue.float f1,
          _name := "mvp" } :=
  (set_uniform_first_match
    { id := 1, uniforms := [{ name := "color", pid := 2, location := 0, num := 1 },
                            { name := "mvp", pid := 2, location := 1, num := 1 },
                            { name := "mvp", pid := 3, location := 4, num := 2 }] }
    "mvp" (UniformValue.float f1) { name := "mvp", pid := 2, location := 1, num := 1 }
    (by decide)).1

/-- C29: the operator `<<` with a `draw_geometry` shortcut built from a
geometry `g` and an instance count `n` appends exactly two commands at the
end of the list, the bind of the vertex array `g.vao` and then the draw of
`g.num_elements` elements of format `g.format`, mode triangles, base element
0, `n` instances; the commands already there, the flag and the pipeline
states stay as they are. Without an instance count the shortcut has 1. -/
theorem push_draw_geometry_appends (cb : CommandBuffer) (g : Geometry) (n : Nat) :
    (cb.push_draw_geometry (DrawGeometryCommand.create g n)).commands
        = cb.commands ++
          [Command.bind_vao { id := g.vao },
           Command.draw_elements
             { format := g.format, mode := GL_TRIANGLES, base_element := 0,
               num_elements := g.num_elements, num_instances := n }]
    ∧ (cb.push_draw_geometry (DrawGeometryCommand.create g n)).commands.length
        = cb.commands.length + 2
    ∧ (cb.push_draw_geometry (DrawGeometryCommand.create g n)).commands.take cb.commands.length
        = cb.commands
    ∧ (cb.push_draw_geometry (DrawGeometryCommand.create g n)).presentation_clear
        = cb.presentation_clear
    ∧ (cb.push_draw_geometry (DrawGeometryCommand.create g n)).color_blend = cb.color_blend
    ∧ (cb.push_draw_geometry (DrawGeometryCommand.create g n)).rasterizer = cb.rasterizer
    ∧ (cb.push_draw_geometry (DrawGeometryCommand.create g n)).depth_stencil = cb.depth_stencil
    ∧ DrawGeometryCommand.create_default g = DrawGeometryCommand.create g 1 := by
  have hcmd : (cb.push_draw_geometry (DrawGeometryCommand.create g n)).commands
      = cb.commands ++
        [Command.bind_vao { id := g.vao },
         Command.draw_elements
           { format := g.format, mode := GL_TRIANGLES, base_element := 0,
             num_elements := g.num_elements, num_instances := n }] := by
    simp [CommandBuffer.push_draw_geometry, CommandBuffer.push, DrawGeometryCommand.create]
  refine ⟨hcmd, ?_, ?_, rfl, rfl, rfl, rfl, rfl⟩
  · rw [hcmd]; simp
  · rw [hcmd]; simp

/-- The driver trace of `present` is the string of the brackets of the
commands it replays. -/
theorem present_trace_flatten (heap : Heap) (queue : CommandQueues) :
    (present heap queue).trace
      = ((visited heap queue).flatMap (fun q => q.commands.map (bracket q))).flatten := by
  unfold Presented.trace
  rw [present_calls_visited]
  induction visited heap queue with
  | nil => rfl
  | cons q rest ih =>
    simp only [List.flatMap_cons, List.flatMap_append, List.flatten_append, ih,
      run_present_commands]
    congr 1

/-- After a non-empty string of brackets the enable flags and the depth mask
are at their defaults. -/
theorem flags_after_bracket_list (s : PipelineConfig) (bs : List (List GLCall))
    (hb : ∀ b ∈ bs, ∃ q c, b = bracket q c) (hne : bs ≠ []) :
    (s.run bs.flatten).flags = (false, false, false, true) := by
  rcases List.eq_nil_or_concat bs with hnil | ⟨front, b, hcat⟩
  · exact absurd hnil hne
  · rw [List.concat_eq_append] at hcat
    obtain ⟨q, c, hqc⟩ := hb b (by rw [hcat]; simp)
    have hrun : s.run bs.flatten = (s.run front.flatten).run (bracket q c) := by
      rw [hcat, List.flatten_concat, hqc]
      simp [PipelineConfig.run, List.foldl_append]
    rw [hrun, flags_after_bracket]

theorem brackets_are_brackets (qs : List CommandBuffer) :
    ∀ b ∈ qs.flatMap (fun q => q.commands.map (bracket q)), ∃ q c, b = bracket q c := by
  intro b hb
  obtain ⟨q, _, hq⟩ := List.mem_flatMap.mp hb
  obtain ⟨c, _, hc⟩ := List.mem_map.mp hq
  exact ⟨q, c, hc.symm⟩

/-- C25: whenever `present` has dispatched at least one command, the enable
flags of the driver are at their defaults when it returns, blending off,
face culling off, depth test off, depth writes on, whatever the driver state
was before and whatever the pipeline states of the buffers are; and the
same holds after each single command, that is after every non-empty initial
run of the per-command brackets that make up the trace. -/
theorem present_leaves_default_flags (s : PipelineConfig) (heap : Heap) (queue : CommandQueues)
    (h : dispatched (present heap queue).calls ≠ []) :
    (s.run (present heap queue).trace).flags = (false, false, false, true)
    ∧ (present heap queue).trace
        = ((visited heap queue).flatMap (fun q => q.commands.map (bracket q))).flatten
    ∧ (∀ n, 0 < n →
        n ≤ ((visited heap queue).flatMap (fun q => q.commands.map (bracket q))).length →
        (s.run (((visited heap queue).flatMap
          (fun q => q.commands.map (bracket q))).take n).flatten).flags
          = (false, false, false, true)) := by
  have hne : (visited heap queue).flatMap (fun q => q.commands.map (bracket q)) ≠ [] := by
    intro hnil
    apply h
    rw [present_calls_visited, dispatched_flatMap]
    rw [List.flatMap_eq_nil_iff] at hnil ⊢
    intro q hq
    have hq0 := hnil q hq
    simp only [List.map_eq_nil_iff] at hq0
    simp [dispatched_present_commands, hq0]
  refine ⟨?_, present_trace_flatten heap queue, ?_⟩
  · rw [present_trace_flatten]
    exact flags_after_bracket_list s _ (brackets_are_brackets _) hne
  · intro n hn hle
    apply flags_after_bracket_list
    · intro b hb
      exact brackets_are_brackets _ b (List.mem_of_mem_take hb)
    · intro hnil
      rcases List.take_eq_nil_iff.mp hnil with h0 | h0
      · omega
      · exact hne h0

/-- Witness for C25: one buffer with depth test and blending on, holding
one command, replayed from the state of a fresh context. -/
theorem present_leaves_default_flags_witness :
    (PipelineConfig.initial.run (present (fun _ =>
        { color_blend := { enable := true }, depth_stencil := { depth_test := true },
          commands := [Command.bind_pipeline { id := 1 }] }) [0]).trace).flags
      = (false, false, false, true) :=
  (present_leaves_default_flags PipelineConfig.initial (fun _ =>
      { color_blend := { enable := true }, depth_stencil := { depth_test := true },
        commands := [Command.bind_pipeline { id := 1 }] }) [0] (by decide)).1

/-- Counterexample to C28: for 8 bits per pixel `load_targa` reports the
format `r8`, which the pixel-format table does not map: the triple stays at
the zeros it is given, and `create_texture` of the loaded greyscale image
requests its storage with internal format 0. -/
theorem loaded_r8_is_not_mapped :
    extention.format_of_bpp 8 = PixelFormat.r8
    ∧ detail.get_texture_format_from_pixelformat (extention.format_of_bpp 8) 0 0 0 = (0, 0, 0)
    ∧ extention.load_targa
        { is_open := true, bytes := [0, 0, 3, 0, 0, 0, 0, 0, 0, 0, 0, 0, 1, 0, 1, 0, 8, 0, 77] }
      = extention.Loaded.returned (some
          { width := 1, height := 1, format := PixelFormat.r8, pixels := [77, 0] })
    ∧ create_texture 9 { width := 1, height := 1, format := PixelFormat.r8, pixels := [77, 0] }
      = ([GLObjectCall.glCreateTextures GL_TEXTURE_2D 1 [9],
          GLObjectCall.glTextureParameteri 9 GL_TEXTURE_BASE_LEVEL 0,
          GLObjectCall.glTextureParameteri 9 GL_TEXTURE_MAX_LEVEL 4,
          GLObjectCall.glTextureParameteri 9 GL_TEXTURE_MAG_FILTER GL_LINEAR,
          GLObjectCall.glTextureParameteri 9 GL_TEXTURE_MIN_FILTER GL_LINEAR_MIPMAP_LINEAR,
          GLObjectCall.glTextureStorage2D 9 4 0 1 1,
          GLObjectCall.glTextureSubImage2D 9 0 0 0 1 1 0 0 [77, 0],
          GLObjectCall.glGenerateTextureMipmap 9],
         { id := 9, target := GL_TEXTURE_2D, width := 1, height := 1 }) := by
  decide

/-- C28, amended: for 24 and 32 bits per pixel the format `load_targa`
reports (`bgr8`, `bgra8`) is one the pixel-format table maps, to a triple
with no zero in it, and `create_texture` requests the storage of such an
image with that internal format; for 8 bits per pixel the reported format
`r8` is not in the table and the outputs stay as they were passed. -/
theorem loaded_formats_in_table (bpp : Nat) (internalformat : Int) (format type : Nat) :
    (bpp = 24 →
        detail.get_texture_format_from_pixelformat (extention.format_of_bpp bpp)
            internalformat format type
          = ((GL_RGB8 : Int), GL_BGR, GL_UNSIGNED_BYTE))
    ∧ (bpp = 32 →
        detail.get_texture_format_from_pixelformat (extention.format_of_bpp bpp)
            internalformat format type
          = ((GL_RGBA8 : Int), GL_BGRA, GL_UNSIGNED_BYTE))
    ∧ (GL_RGB8 ≠ 0 ∧ GL_RGBA8 ≠ 0 ∧ GL_BGR ≠ 0 ∧ GL_BGRA ≠ 0 ∧ GL_UNSIGNED_BYTE ≠ 0)
    ∧ (bpp = 24 ∨ bpp = 32 → ∀ (id : Nat) (info : CreateTextureInfo),
        info.format = extention.format_of_bpp bpp →
        GLObjectCall.glTextureStorage2D id (to_int32 info.levels)
            (if bpp = 24 then GL_RGB8 else GL_RGBA8) (to_int32 info.width) (to_int32 info.height)
          ∈ (create_texture id info).1)
    ∧ (bpp = 8 →
        detail.get_texture_format_from_pixelformat (extention.format_of_bpp bpp)
            internalformat format type
          = (internalformat, format, type)) := by
  refine ⟨?_, ?_, by decide, ?_, ?_⟩
  · intro hb; subst hb; rfl
  · intro hb; subst hb; rfl
  · intro hb id info hfmt
    have h1 : to_uint32 (GL_RGB8 : Int) = GL_RGB8 := by decide
    have h2 : to_uint32 (GL_RGBA8 : Int) = GL_RGBA8 := by decide
    rcases hb with hb | hb <;> subst hb
    · have hf : info.format = PixelFormat.bgr8 := hfmt
      simp [create_texture, hf, detail.get_texture_format_from_pixelformat, h1]
    · have hf : info.format = PixelFormat.bgra8 := hfmt
      simp [create_texture, hf, detail.get_texture_format_from_pixelformat, h2]
  · intro hb; subst hb; rfl

/-- Witness for C28, amended: 24 bits per pixel. -/
theorem loaded_formats_in_table_witness :
    detail.get_texture_format_from_pixelformat (extention.format_of_bpp 24) 0 0 0
      = ((GL_RGB8 : Int), GL_BGR, GL_UNSIGNED_BYTE) :=
  (loaded_formats_in_table 24 0 0 0).1 rfl

/-! ## Further lemmas and claims on the Targa loader -/

namespace extention

/-- The loader on an open stream, step by step: the header test, the size
test, the filling of the buffer. -/
theorem load_targa_open (fs : ifstream) (hopen : fs.is_open = true) :
    load_targa fs
      = if fs.bytes.length < 17 then Loaded.undefined Undefined.indeterminate_header
        else if 2 ^ 31 ≤ buffer_size (header_of fs) then
          Loaded.undefined Undefined.signed_overflow
        else
          match decode (header_of fs) fs.bytes.length
              (Reader.read { rest := fs.bytes, good := true } detail.sizeof_header).2
              (List.replicate (buffer_size (header_of fs)) 0) with
          | Except.ok data =>
            Loaded.returned (some
              { width := (header_of fs).width, height := (header_of fs).height, depth := 0,
                format := format_of_bpp (header_of fs).bpp, pixels := data })
          | Except.error e => Loaded.undefined e := by
  have hlen : ((fs.bytes.take 18).length < 17) ↔ fs.bytes.length < 17 := by
    rw [List.length_take]; omega
  unfold load_targa
  simp only [hopen, Bool.not_true, Bool.false_eq_true, if_false, head_eq_take, hlen, header_of,
    buffer_size]

theorem store_length (data src : List Nat) (pdata : Nat) (out : List Nat)
    (h : store data pdata src = Except.ok out) : out.length = data.length := by
  unfold store at h
  split at h
  · cases h; rfl
  · split at h
    · rename_i hfit
      cases h
      simp only [List.length_append, List.length_take, List.length_drop]
      omega
    · cases h

theorem repeat_pixel_length (pixel : List Nat) :
    ∀ (n : Nat) (data : List Nat) (pdata : Nat) (out : List Nat × Nat),
      repeat_pixel pixel n data pdata = Except.ok out → out.1.length = data.length := by
  intro n
  induction n with
  | zero => intro data pdata out h; simp only [repeat_pixel] at h; cases h; rfl
  | succ n ih =>
    intro data pdata out h
    simp only [repeat_pixel] at h
    split at h
    · rename_i data1 hstore
      rw [ih data1 _ out h, store_length data pixel pdata data1 hstore]
    · cases h

theorem rle_packet_length (bytesperpixel : Nat) (d d1 : Decoder)
    (h : rle_packet bytesperpixel d = Except.ok d1) : d1.data.length = d.data.length := by
  unfold rle_packet at h
  simp only at h
  split at h
  · split at h
    · split at h
      · cases h
      · split at h
        · rename_i w hw
          cases h
          exact repeat_pixel_length _ _ _ _ w hw
        · cases h
    · split at h
      · rename_i data1 hstore
        cases h
        exact store_length _ _ _ data1 hstore
      · cases h
  · cases h; rfl

theorem rle_loop_length (bytesperpixel : Nat) :
    ∀ (i : Nat) (d d1 : Decoder),
      rle_loop bytesperpixel i d = Except.ok d1 → d1.data.length = d.data.length := by
  intro i
  induction i with
  | zero => intro d d1 h; simp only [rle_loop] at h; cases h; rfl
  | succ i ih =>
    intro d d1 h
    simp only [rle_loop] at h
    split at h
    · rename_i d2 hd2
      rw [ih d2 d1 h, rle_packet_length bytesperpixel d d2 hd2]
    · cases h

theorem decode_length (h : detail.TargaHeader) (lenght : Nat) (fs : Reader)
    (data out : List Nat) (hd : decode h lenght fs data = Except.ok out) :
    out.length = data.length := by
  unfold decode at hd
  split at hd
  · split at hd
    · rename_i d hloop
      cases hd
      exact rle_loop_length _ _ _ d hloop
    · cases hd
  · split at hd
    · exact store_length _ _ _ out hd
    · cases hd; rfl

theorem decode_unsupported (h : detail.TargaHeader) (lenght : Nat) (fs : Reader)
    (data : List Nat)
    (h10 : h.data_type ≠ detail.TARGA_DATA_RLE_TRUE_COLOR)
    (h2 : h.data_type ≠ detail.TARGA_DATA_TRUE_COLOR)
    (h3 : h.data_type ≠ detail.TARGA_DATA_BLACK_AND_WHITE) :
    decode h lenght fs data = Except.ok data := by
  simp [decode, h10, h2, h3]

/-- C21: for an open stream whose header carries a data type other than 2,
3 and 10, the filling step leaves the buffer as it is, whatever the stream
holds, so no pixel data is read; whenever `load_targa` returns an image its
pixel buffer is all zero; and it does return that image when the file has
the 17 bytes of the header members in use and the size product stays below
2^31, whatever bytes follow the header. -/
theorem load_targa_unsupported_type (fs : ifstream) (hopen : fs.is_open = true)
    (h10 : (header_of fs).data_type ≠ detail.TARGA_DATA_RLE_TRUE_COLOR)
    (h2 : (header_of fs).data_type ≠ detail.TARGA_DATA_TRUE_COLOR)
    (h3 : (header_of fs).data_type ≠ detail.TARGA_DATA_BLACK_AND_WHITE) :
    (∀ (lenght : Nat) (r : Reader) (data : List Nat),
        decode (header_of fs) lenght r data = Except.ok data)
    ∧ (∀ image, load_targa fs = Loaded.returned (some image) →
        image.pixels = List.replicate (buffer_size (header_of fs)) 0)
    ∧ (17 ≤ fs.bytes.length → buffer_size (header_of fs) < 2 ^ 31 →
        load_targa fs = Loaded.returned (some
          { width := (header_of fs).width, height := (header_of fs).height, depth := 0,
            format := format_of_bpp (header_of fs).bpp,
            pixels := List.replicate (buffer_size (header_of fs)) 0 })) := by
  have hdec := fun lenght r data => decode_unsupported (header_of fs) lenght r data h10 h2 h3
  have hload := load_targa_open fs hopen
  simp only [hdec] at hload
  refine ⟨hdec, ?_, ?_⟩
  · intro image himg
    rw [hload] at himg
    split at himg
    · cases himg
    · split at himg
      · cases himg
      · simp only [Loaded.returned.injEq, Option.some.injEq] at himg
        rw [← himg]
  · intro hlen hsize
    rw [hload, if_neg (by omega), if_neg (by omega)]

/-- Witness for C21: a colour-mapped file (data type 1) of 2 x 1 pixels of 8
bits, followed by two bytes. -/
theorem load_targa_unsupported_type_witness :
    load_targa
        { is_open := true,
          bytes := [0, 1, 1, 0, 0, 0, 0, 0, 0, 0, 0, 0, 2, 0, 1, 0, 8, 0, 200, 201] }
      = Loaded.returned (some
          { width := 2, height := 1, format := PixelFormat.r8, pixels := [0, 0, 0, 0] }) :=
  (load_targa_unsupported_type
    { is_open := true,
      bytes := [0, 1, 1, 0, 0, 0, 0, 0, 0, 0, 0, 0, 2, 0, 1, 0, 8, 0, 200, 201] }
    rfl (by decide) (by decide) (by decide)).2.2 (by decide) (by decide)

/-- C26, the code at the failing input: a run-length-encoded file of 1 x 1
pixels of 24 bits, whose buffer has 4 bytes, with the one packet 0x81 1 2 3,
a run of two pixels. The second copy of the pixel is written at offset 3 and
does not fit: the decoder writes past the end of the buffer. With 3 x 1
pixels and a run of four the decoder stays in the 12-byte buffer but writes
four pixels where the image has three. -/
theorem load_targa_rle_overruns :
    rle_packet 3
        { fs := { rest := [0x81, 1, 2, 3], good := true }, data := [0, 0, 0, 0], pdata := 0 }
      = Except.error Undefined.out_of_bounds
    ∧ store [1, 2, 3, 0] 3 [1, 2, 3] = Except.error Undefined.out_of_bounds
    ∧ load_targa
        { is_open := true,
          bytes := [0, 0, 10, 0, 0, 0, 0, 0, 0, 0, 0, 0, 1, 0, 1, 0, 24, 0] ++ [0x81, 1, 2, 3] }
      = Loaded.undefined Undefined.out_of_bounds
    ∧ load_targa
        { is_open := true,
          bytes := [0, 0, 10, 0, 0, 0, 0, 0, 0, 0, 0, 0, 3, 0, 1, 0, 24, 0] ++ [0x83, 1, 2, 3] }
      = Loaded.returned (some
          { width := 3, height := 1, format := PixelFormat.bgr8,
            pixels := [1, 2, 3, 1, 2, 3, 1, 2, 3, 1, 2, 3] }) :=
  ⟨rfl, rfl, by decide, by decide⟩

/-- Counterexample to C27: three open streams for which no image comes
back. A file of three bytes leaves the header members indeterminate; a
header of 65535 x 65535 pixels of 8 bits takes the size product out of the
range of `int`; an uncompressed file of 1 x 1 pixels of 24 bits followed by
five bytes is read past the end of its 4-byte buffer. -/
theorem load_targa_open_without_image :
    load_targa { is_open := true, bytes := [0, 0, 2] }
      = Loaded.undefined Undefined.indeterminate_header
    ∧ load_targa
        { is_open := true,
          bytes := [0, 0, 3, 0, 0, 0, 0, 0, 0, 0, 0, 0, 255, 255, 255, 255, 8, 0] }
      = Loaded.undefined Undefined.signed_overflow
    ∧ load_targa
        { is_open := true,
          bytes := [0, 0, 2, 0, 0, 0, 0, 0, 0, 0, 0, 0, 1, 0, 1, 0, 24, 0] ++ [1, 2, 3, 4, 5] }
      = Loaded.undefined Undefined.out_of_bounds := by
  decide

/-- C27, amended: `load_targa` returns no image exactly when the stream is
not open. Whenever it returns an image the stream is open and the pixel
buffer has exactly width x height x (bpp/8 + 1) bytes, for the width, height
and bpp of the header. For an open stream it does return an image when the
file has the 17 bytes of the header members in use, the size product stays
below 2^31, the data type is not 10, and, for the data types 2 and 3, no
more bytes follow the header than the buffer holds; unsupported data types,
unknown bit depths and missing pixel data are among these. -/
theorem load_targa_image_iff_open (fs : ifstream) :
    (load_targa fs = Loaded.returned none ↔ fs.is_open = false)
    ∧ (∀ image, load_targa fs = Loaded.returned (some image) →
        fs.is_open = true ∧ image.pixels.length = buffer_size (header_of fs))
    ∧ (fs.is_open = true → 17 ≤ fs.bytes.length → buffer_size (header_of fs) < 2 ^ 31 →
        (header_of fs).data_type ≠ detail.TARGA_DATA_RLE_TRUE_COLOR →
        ((header_of fs).data_type = detail.TARGA_DATA_TRUE_COLOR
          ∨ (header_of fs).data_type = detail.TARGA_DATA_BLACK_AND_WHITE →
          fs.bytes.length - 18 ≤ buffer_size (header_of fs)) →
        ∃ image, load_targa fs = Loaded.returned (some image)) := by
  have hclosed : fs.is_open = false → load_targa fs = Loaded.returned none := by
    intro hc
    simp [load_targa, hc]
  have hsome : ∀ image, load_targa fs = Loaded.returned (some image) →
      fs.is_open = true ∧ image.pixels.length = buffer_size (header_of fs) := by
    intro image himg
    by_cases hopen : fs.is_open = true
    · refine ⟨hopen, ?_⟩
      rw [load_targa_open fs hopen] at himg
      split at himg
      · cases himg
      · split at himg
        · cases himg
        · split at himg
          · rename_i data hdata
            simp only [Loaded.returned.injEq, Option.some.injEq] at himg
            rw [← himg]
            simpa using decode_length _ _ _ _ data hdata
          · cases himg
    · have hc : fs.is_open = false := by simpa using hopen
      rw [hclosed hc] at himg
      cases himg
  refine ⟨⟨?_, hclosed⟩, hsome, ?_⟩
  · intro hnone
    by_cases hopen : fs.is_open = true
    · rw [load_targa_open fs hopen] at hnone
      split at hnone
      · cases hnone
      · split at hnone
        · cases hnone
        · split at hnone <;> cases hnone
    · simpa using hopen
  · intro hopen hlen hsize h10 hfit
    rw [load_targa_open fs hopen, if_neg (by omega), if_neg (by omega)]
    by_cases hraw : (header_of fs).data_type = detail.TARGA_DATA_TRUE_COLOR
        ∨ (header_of fs).data_type = detail.TARGA_DATA_BLACK_AND_WHITE
    · have hgot : ((Reader.read { rest := fs.bytes, good := true } detail.sizeof_header).2.read
          (fs.bytes.length - detail.sizeof_header)).1.length
          ≤ buffer_size (header_of fs) := by
        have hb := hfit hraw
        by_cases h18 : 18 ≤ fs.bytes.length
        · simp [Reader.read, detail.sizeof_header, h18]
          omega
        · simp [Reader.read, detail.sizeof_header, h18]
      have hstore : ∃ out, store (List.replicate (buffer_size (header_of fs)) 0) 0
          ((Reader.read { rest := fs.bytes, good := true } detail.sizeof_header).2.read
            (fs.bytes.length - detail.sizeof_header)).1 = Except.ok out := by
        unfold store
        split
        · exact ⟨_, rfl⟩
        · rw [if_pos (by simpa using hgot)]
          exact ⟨_, rfl⟩
      obtain ⟨out, hout⟩ := hstore
      simp only [decode, if_neg h10, if_pos hraw, hout]
      exact ⟨_, rfl⟩
    · have h2 : (header_of fs).data_type ≠ detail.TARGA_DATA_TRUE_COLOR :=
        fun h => hraw (Or.inl h)
      have h3 : (header_of fs).data_type ≠ detail.TARGA_DATA_BLACK_AND_WHITE :=
        fun h => hraw (Or.inr h)
      rw [decode_unsupported _ _ _ _ h10 h2 h3]
      exact ⟨_, rfl⟩

/-- Witness for C27, amended: a 2 x 1 truecolor file of 24 bits whose pixel
data is missing. -/
theorem load_targa_image_iff_open_witness :
    ∃ image, load_targa
        { is_open := true, bytes := [0, 0, 2, 0, 0, 0, 0, 0, 0, 0, 0, 0, 2, 0, 1, 0, 24, 0] }
      = Loaded.returned (some image) :=
  (load_targa_image_iff_open
    { is_open := true, bytes := [0, 0, 2, 0, 0, 0, 0, 0, 0, 0, 0, 0, 2, 0, 1, 0, 24, 0] }).2.2
    rfl (by decide) (by decide) (by decide) (by decide)

end extention

end graphics

/-! ## The claims on the frame loop -/

namespace application

namespace utility

namespace Mainloop

theorem clamp_bounds (v lo hi : Int) (h : lo ≤ hi) :
    lo ≤ clamp v lo hi ∧ clamp v lo hi ≤ hi
      ∧ (lo ≤ v → v ≤ hi → clamp v lo hi = v)
      ∧ (v < lo → clamp v lo hi = lo) ∧ (hi < v → clamp v lo hi = hi) := by
  unfold clamp
  refine ⟨?_, ?_, ?_, ?_, ?_⟩
  · split
    · exact le_refl lo
    · split <;> omega
  · split
    · exact h
    · split <;> omega
  · intro h1 h2
    rw [if_neg (by omega), if_neg (by omega)]
  · intro h1
    rw [if_pos h1]
  · intro h1
    rw [if_neg (by omega), if_pos h1]

theorem int64_of_range (v : Int) (h1 : INT64_MIN ≤ v) (h2 : v ≤ INT64_MAX) :
    int64 v = some v := by
  unfold int64
  rw [if_pos ⟨h1, h2⟩]

theorem int64_overflow (v : Int) (h : v < INT64_MIN ∨ INT64_MAX < v) : int64 v = none := by
  unfold int64
  rw [if_neg]
  omega

/-- The conversion of the timestep is exact from -9223372036854 ms to
9223372036854 ms. -/
theorem nanoseconds_of_range (milliseconds : Int) (h1 : -9223372036854 ≤ milliseconds)
    (h2 : milliseconds ≤ 9223372036854) :
    nanoseconds milliseconds = some (milliseconds * 1000000) := by
  unfold nanoseconds
  exact int64_of_range _ (by simp only [INT64_MIN]; omega) (by simp only [INT64_MAX]; omega)

/-- The conversion of the timestep overflows outside that range. -/
theorem nanoseconds_overflow (milliseconds : Int)
    (h : milliseconds < -9223372036854 ∨ 9223372036854 < milliseconds) :
    nanoseconds milliseconds = none := by
  unfold nanoseconds
  apply int64_overflow
  simp only [INT64_MIN, INT64_MAX]
  omega

theorem step_loop_conversion_overflows (timestep : Int) (hc : nanoseconds timestep = none)
    (fuel : Nat) (s : State) :
    step_loop timestep fuel s = Outcome.undefined Undefined.signed_overflow := by
  cases fuel <;> simp only [step_loop, hc]

/-- With a positive timestep the step loop ends after as many passes as the
timestep fits into the accumulator, and leaves the remainder. -/
theorem step_loop_exits (timestep t : Int) (hc : nanoseconds timestep = some t) (ht : 0 < t) :
    ∀ (k fuel : Nat) (s : State) (r : Int), 0 ≤ r → r < t →
      s.accumulator = k * t + r → s.accumulator ≤ INT64_MAX → k ≤ fuel →
      ∃ timesteps, step_loop timestep fuel s
        = Outcome.ended { accumulator := r, timesteps := timesteps,
                          calls := s.calls ++ List.replicate k Callback.on_step } := by
  intro k
  induction k with
  | zero =>
    intro fuel s r _ hr hacc _ _
    have hlt : ¬ s.accumulator ≥ t := by
      simp only [Nat.cast_zero, zero_mul, zero_add] at hacc
      omega
    have hs : s = { accumulator := r, timesteps := s.timesteps,
                    calls := s.calls ++ List.replicate 0 Callback.on_step } := by
      cases s
      simp only [Nat.cast_zero, zero_mul, zero_add] at hacc
      simp [hacc]
    refine ⟨s.timesteps, ?_⟩
    cases fuel <;> simp only [step_loop, hc, hlt, if_false] <;> exact congrArg Outcome.ended hs
  | succ k ih =>
    intro fuel s r h0 hr hacc hmax hfuel
    have hk : (0 : Int) ≤ (k : Int) * t := Int.mul_nonneg (Int.ofNat_nonneg k) (le_of_lt ht)
    have hsucc : ((k + 1 : Nat) : Int) * t = (k : Int) * t + t := by
      push_cast; ring
    have hge : s.accumulator ≥ t := by omega
    cases fuel with
    | zero => omega
    | succ fuel =>
      have hacc1 : s.accumulator - t = (k : Int) * t + r := by omega
      have hsub : int64 (s.accumulator - t) = some (s.accumulator - t) :=
        int64_of_range _ (by simp only [INT64_MIN]; omega) (by omega)
      obtain ⟨timesteps, hloop⟩ := ih fuel
        { accumulator := s.accumulator - t,
          timesteps := (s.timesteps + 1) % 2 ^ 64,
          calls := s.calls ++ [Callback.on_step] } r h0 hr hacc1
        (by simp only; omega) (by omega)
      refine ⟨timesteps, ?_⟩
      simp only [step_loop, hc, hge, if_true, hsub, hloop]
      simp [List.replicate_succ]

/-- With a timestep that is not positive no pass leaves the step loop. -/
theorem step_loop_never_ends (timestep t : Int) (hc : nanoseconds timestep = some t)
    (ht : t ≤ 0) :
    ∀ (fuel : Nat) (s : State), 0 ≤ s.accumulator →
      step_loop timestep fuel s = Outcome.running
        ∨ step_loop timestep fuel s = Outcome.undefined Undefined.signed_overflow := by
  intro fuel
  induction fuel with
  | zero =>
    intro s hs
    have hge : s.accumulator ≥ t := by omega
    simp only [step_loop, hc, hge, if_true, true_or]
  | succ fuel ih =>
    intro s hs
    have hge : s.accumulator ≥ t := by omega
    simp only [step_loop, hc, hge, if_true]
    cases hsub : int64 (s.accumulator - t) with
    | none => simp only [or_true]
    | some a =>
      have ha : a = s.accumulator - t := by
        unfold int64 at hsub
        split at hsub
        · exact (Option.some.inj hsub).symm
        · exact absurd hsub (by simp)
      exact ih _ (by simp only; omega)

/-- With the timestep zero the step loop is still running after any number of
passes. -/
theorem step_loop_runs_on (fuel : Nat) :
    ∀ (s : State), 0 ≤ s.accumulator → s.accumulator ≤ INT64_MAX →
      step_loop 0 fuel s = Outcome.running := by
  have hc : nanoseconds 0 = some 0 := by decide
  induction fuel with
  | zero =>
    intro s hs _
    have hge : s.accumulator ≥ 0 := hs
    simp only [step_loop, hc, hge, if_true]
  | succ fuel ih =>
    intro s hs hmax
    have hge : s.accumulator ≥ 0 := hs
    have hsub : int64 (s.accumulator - 0) = some s.accumulator := by
      rw [sub_zero]
      exact int64_of_range _ (by simp only [INT64_MIN]; omega) hmax
    simp only [step_loop, hc, hge, if_true, hsub]
    exact ih _ hs hmax

/-- With a negative timestep the accumulator grows with every pass and
leaves the 64-bit range after finitely many of them. -/
theorem step_loop_overflows (timestep t : Int) (hc : nanoseconds timestep = some t)
    (ht : t < 0) :
    ∀ (n : Nat) (s : State), 0 ≤ s.accumulator → INT64_MAX - s.accumulator ≤ n →
      ∃ fuel, step_loop timestep fuel s = Outcome.undefined Undefined.signed_overflow := by
  intro n
  induction n with
  | zero =>
    intro s hs hn
    have hge : s.accumulator ≥ t := by omega
    have hsub : int64 (s.accumulator - t) = none :=
      int64_overflow _ (Or.inr (by simp only [Nat.cast_zero] at hn; omega))
    exact ⟨1, by simp only [step_loop, hc, hge, if_true, hsub]⟩
  | succ n ih =>
    intro s hs hn
    have hge : s.accumulator ≥ t := by omega
    by_cases hover : INT64_MAX < s.accumulator - t
    · have hsub : int64 (s.accumulator - t) = none := int64_overflow _ (Or.inr hover)
      exact ⟨1, by simp only [step_loop, hc, hge, if_true, hsub]⟩
    · have hsub : int64 (s.accumulator - t) = some (s.accumulator - t) :=
        int64_of_range _ (by simp only [INT64_MIN]; omega) (by omega)
      obtain ⟨fuel, hloop⟩ := ih
        { accumulator := s.accumulator - t,
          timesteps := (s.timesteps + 1) % 2 ^ 64,
          calls := s.calls ++ [Callback.on_step] }
        (by simp only; omega) (by simp only; push_cast at hn; omega)
      exact ⟨fuel + 1, by simp only [step_loop, hc, hge, if_true, hsub, hloop]⟩

/-- The iteration, with the clamp limit of 300 ms converted. -/
theorem frame_unfold (timestep : Int) (fuel : Nat) (frame_time : Int) (s : State) :
    frame timestep fuel frame_time s
      = match int64 (s.accumulator + clamp frame_time 0 300000000) with
        | none => Outcome.undefined Undefined.signed_overflow
        | some accumulator =>
          match step_loop timestep fuel { s with accumulator := accumulator } with
          | Outcome.ended s1 =>
            Outcome.ended { s1 with calls := s1.calls ++ [Callback.on_frame] }
          | Outcome.running => Outcome.running
          | Outcome.undefined u => Outcome.undefined u := by
  have hc : nanoseconds 300 = some 300000000 := by decide
  simp only [frame, hc]

theorem int64_some (v a : Int) (h : int64 v = some a) :
    a = v ∧ INT64_MIN ≤ v ∧ v ≤ INT64_MAX := by
  unfold int64 at h
  split at h
  · rename_i hr
    exact ⟨(Option.some.inj h).symm, hr.1, hr.2⟩
  · exact absurd h (by simp)

/-- One iteration with a positive timestep whose conversion to nanoseconds
is representable, from an accumulator that stays representable, given fuel
for its steps. -/
theorem frame_exits (timestep frame_time : Int) (s : State) (fuel : Nat) (ht : 0 < timestep)
    (hmax : timestep ≤ 9223372036854) (h0 : 0 ≤ s.accumulator)
    (hsum : s.accumulator + clamp frame_time 0 300000000 ≤ INT64_MAX)
    (hfuel : ((s.accumulator + clamp frame_time 0 300000000)
      / (timestep * 1000000)).toNat ≤ fuel) :
    ∃ timesteps, frame timestep fuel frame_time s
      = Outcome.ended
          { accumulator := (s.accumulator + clamp frame_time 0 300000000)
              % (timestep * 1000000),
            timesteps := timesteps,
            calls := s.calls ++ List.replicate
              ((s.accumulator + clamp frame_time 0 300000000)
                / (timestep * 1000000)).toNat Callback.on_step ++ [Callback.on_frame] } := by
  have hT : 0 < timestep * 1000000 := by omega
  have hc := (clamp_bounds frame_time 0 300000000 (by decide)).1
  have hpos : 0 ≤ s.accumulator + clamp frame_time 0 300000000 := by omega
  have hq : 0 ≤ (s.accumulator + clamp frame_time 0 300000000) / (timestep * 1000000) :=
    Int.ediv_nonneg hpos (le_of_lt hT)
  have hsplit : s.accumulator + clamp frame_time 0 300000000
      = (((s.accumulator + clamp frame_time 0 300000000)
          / (timestep * 1000000)).toNat : Int) * (timestep * 1000000)
        + (s.accumulator + clamp frame_time 0 300000000) % (timestep * 1000000) := by
    rw [Int.toNat_of_nonneg hq, mul_comm]
    exact (Int.ediv_add_emod _ _).symm
  have hadd : int64 (s.accumulator + clamp frame_time 0 300000000)
      = some (s.accumulator + clamp frame_time 0 300000000) :=
    int64_of_range _ (by simp only [INT64_MIN]; omega) hsum
  obtain ⟨timesteps, hloop⟩ := step_loop_exits timestep (timestep * 1000000)
    (nanoseconds_of_range timestep (by omega) hmax) hT _ fuel
    { s with accumulator := s.accumulator + clamp frame_time 0 300000000 } _
    (Int.emod_nonneg _ (ne_of_gt hT)) (Int.emod_lt_of_pos _ hT) hsplit hsum hfuel
  exact ⟨timesteps, by simp only [frame_unfold, hadd, hloop]⟩

/-- An iteration with a timestep that is not positive, or one whose
conversion to nanoseconds overflows, never gets to the end of its step
loop. -/
theorem frame_never_ends (timestep frame_time : Int) (s : State) (fuel : Nat)
    (ht : timestep ≤ 0 ∨ 9223372036854 < timestep) (h0 : 0 ≤ s.accumulator) :
    frame timestep fuel frame_time s = Outcome.running
      ∨ frame timestep fuel frame_time s = Outcome.undefined Undefined.signed_overflow := by
  have hc := (clamp_bounds frame_time 0 300000000 (by decide)).1
  cases hadd : int64 (s.accumulator + clamp frame_time 0 300000000) with
  | none => exact Or.inr (by simp only [frame_unfold, hadd])
  | some a =>
    obtain ⟨ha, _, _⟩ := int64_some _ _ hadd
    by_cases hr : timestep < -9223372036854 ∨ 9223372036854 < timestep
    · exact Or.inr (by
        simp only [frame_unfold, hadd,
          step_loop_conversion_overflows timestep (nanoseconds_overflow timestep hr)])
    · have hconv := nanoseconds_of_range timestep (by omega) (by omega)
      rcases step_loop_never_ends timestep (timestep * 1000000) hconv (by omega) fuel
        { s with accumulator := a } (by simp only; omega) with h | h
      · exact Or.inl (by simp only [frame_unfold, hadd, h])
      · exact Or.inr (by simp only [frame_unfold, hadd, h])

/-- An iteration with a negative timestep runs into signed overflow after
finitely many passes of its step loop. -/
theorem frame_overflows (timestep frame_time : Int) (s : State) (ht : timestep < 0)
    (h0 : 0 ≤ s.accumulator) :
    ∃ fuel, frame timestep fuel frame_time s = Outcome.undefined Undefined.signed_overflow := by
  have hc := (clamp_bounds frame_time 0 300000000 (by decide)).1
  cases hadd : int64 (s.accumulator + clamp frame_time 0 300000000) with
  | none => exact ⟨0, by simp only [frame_unfold, hadd]⟩
  | some a =>
    obtain ⟨ha, _, hhi⟩ := int64_some _ _ hadd
    by_cases hr : timestep < -9223372036854
    · exact ⟨0, by
        simp only [frame_unfold, hadd,
          step_loop_conversion_overflows timestep (nanoseconds_overflow timestep (Or.inl hr))]⟩
    · have hconv := nanoseconds_of_range timestep (by omega) (by omega)
      obtain ⟨fuel, hloop⟩ := step_loop_overflows timestep (timestep * 1000000) hconv (by omega)
        (INT64_MAX - a).toNat { s with accumulator := a } (by simp only; omega)
        (by simp only; rw [Int.toNat_of_nonneg (by omega)])
      exact ⟨fuel, by simp only [frame_unfold, hadd, hloop]⟩

/-- An iteration whose timestep has no representable count of nanoseconds
runs into signed overflow at the first test of its step loop. -/
theorem frame_conversion_overflows (timestep frame_time : Int) (s : State) (fuel : Nat)
    (hr : nanoseconds timestep = none) :
    frame timestep fuel frame_time s = Outcome.undefined Undefined.signed_overflow := by
  have hconv := step_loop_conversion_overflows timestep hr fuel
  rw [frame_unfold]
  cases int64 (s.accumulator + clamp frame_time 0 300000000) with
  | none => rfl
  | some a => simp only [hconv]

/-- An iteration whose accumulator leaves the 64-bit range on taking the
clamped frame time runs into signed overflow there. -/
theorem frame_accumulator_overflows (timestep frame_time : Int) (s : State) (fuel : Nat)
    (hadd : int64 (s.accumulator + clamp frame_time 0 300000000) = none) :
    frame timestep fuel frame_time s = Outcome.undefined Undefined.signed_overflow := by
  simp only [frame_unfold, hadd]

/-- An accumulator below a timestep of at most 9223372036554 ms stays
representable when it takes the clamped frame time. -/
theorem accumulator_stays_in_range (timestep frame_time accumulator : Int)
    (hmax : timestep ≤ 9223372036554) (h1 : accumulator < timestep * 1000000) :
    accumulator + clamp frame_time 0 300000000 ≤ INT64_MAX := by
  have hc := (clamp_bounds frame_time 0 300000000 (by decide)).2.1
  simp only [INT64_MAX]
  omega

/-- Counterexample to C22: a timestep of 9223372036855 ms is positive and
the empty accumulator lies below it, so that the iteration should run no
step and call `on_frame` once. The conversion of this timestep to
nanoseconds in the loop condition overflows the 64-bit representation: the
iteration runs into undefined behaviour, with however many passes allowed,
and does not end as described. With the timestep of 9223372036854 ms, which
does convert, an accumulator of 1 ns below it and a frame of 300 ms, the
accumulator overflows on taking the frame time. -/
theorem frame_undefined_for_large_timestep :
    (0 : Int) < 9223372036855
    ∧ (0 : Int) ≤ ({ accumulator := 0, timesteps := 0, calls := [] } : State).accumulator
    ∧ ({ accumulator := 0, timesteps := 0, calls := [] } : State).accumulator
        < 9223372036855 * 1000000
    ∧ (({ accumulator := 0, timesteps := 0, calls := [] } : State).accumulator
        + clamp 0 0 300000000) / (9223372036855 * 1000000) = 0
    ∧ INT64_MAX < 9223372036855 * 1000000
    ∧ nanoseconds 9223372036855 = none
    ∧ (∀ fuel, frame 9223372036855 fuel 0 { accumulator := 0, timesteps := 0, calls := [] }
        = Outcome.undefined Undefined.signed_overflow)
    ∧ nanoseconds 9223372036854 = some 9223372036854000000
    ∧ (9223372036853999999 : Int) < 9223372036854000000
    ∧ (∀ fuel, frame 9223372036854 fuel 300000000
          { accumulator := 9223372036853999999, timesteps := 0, calls := [] }
        = Outcome.undefined Undefined.signed_overflow) :=
  ⟨by decide, by decide, by decide, by decide, by decide, by decide,
   fun fuel => frame_conversion_overflows _ _ _ fuel (by decide),
   by decide, by decide,
   fun fuel => frame_accumulator_overflows _ _ _ fuel (by decide)⟩

/-- C22, amended: one iteration of `Mainloop::run` with a timestep T from
1 ms to 9223372036854 ms, the greatest whose count of nanoseconds is
representable, from an accumulator a that is not negative, in particular
one with 0 ≤ a < T, given fuel for its steps. The measured frame time
enters clamped to [0, 300 ms]; with c the clamped time and a + c
representable, the iteration calls `on_step` exactly floor((a + c) / T)
times and then `on_frame` once, and the accumulator it leaves is
(a + c) mod T: it lies in [0, T) and, with T times the number of steps, adds
up to a + c. -/
theorem frame_steps_then_presents (timestep frame_time : Int) (s : State) (fuel : Nat)
    (ht : 0 < timestep) (hmax : timestep ≤ 9223372036854) (h0 : 0 ≤ s.accumulator)
    (hsum : s.accumulator + clamp frame_time 0 300000000 ≤ INT64_MAX)
    (hfuel : ((s.accumulator + clamp frame_time 0 300000000)
      / (timestep * 1000000)).toNat ≤ fuel) :
    (0 ≤ clamp frame_time 0 300000000
      ∧ clamp frame_time 0 300000000 ≤ 300000000
      ∧ (0 ≤ frame_time → frame_time ≤ 300000000 →
          clamp frame_time 0 300000000 = frame_time)
      ∧ (frame_time < 0 → clamp frame_time 0 300000000 = 0)
      ∧ (300000000 < frame_time → clamp frame_time 0 300000000 = 300000000))
    ∧ nanoseconds timestep = some (timestep * 1000000)
    ∧ (∃ s1, frame timestep fuel frame_time s = Outcome.ended s1
        ∧ s1.calls = s.calls ++ List.replicate
            ((s.accumulator + clamp frame_time 0 300000000)
              / (timestep * 1000000)).toNat Callback.on_step ++ [Callback.on_frame]
        ∧ s1.accumulator
            = (s.accumulator + clamp frame_time 0 300000000) % (timestep * 1000000)
        ∧ 0 ≤ s1.accumulator ∧ s1.accumulator < timestep * 1000000
        ∧ s1.accumulator
            + (((s.accumulator + clamp frame_time 0 300000000)
                / (timestep * 1000000)).toNat : Int) * (timestep * 1000000)
            = s.accumulator + clamp frame_time 0 300000000) := by
  have hT : 0 < timestep * 1000000 := by omega
  have hcl := clamp_bounds frame_time 0 300000000 (by decide)
  have hpos : 0 ≤ s.accumulator + clamp frame_time 0 300000000 := by omega
  have hq : 0 ≤ (s.accumulator + clamp frame_time 0 300000000) / (timestep * 1000000) :=
    Int.ediv_nonneg hpos (le_of_lt hT)
  obtain ⟨timesteps, hframe⟩ := frame_exits timestep frame_time s fuel ht hmax h0 hsum hfuel
  refine ⟨hcl, nanoseconds_of_range timestep (by omega) hmax, _, hframe, rfl, rfl,
    Int.emod_nonneg _ (ne_of_gt hT), Int.emod_lt_of_pos _ hT, ?_⟩
  simp only
  rw [Int.toNat_of_nonneg hq]
  exact Int.emod_add_ediv' _ _

/-- Witness for C22: timestep 16 ms, 5 ms in the accumulator, a frame of
40 ms: two steps, then the frame, and 13 ms left. -/
theorem frame_steps_then_presents_witness :
    frame 16 2 40000000 { accumulator := 5000000, timesteps := 0, calls := [] }
        = Outcome.ended
            { accumulator := 13000000, timesteps := 2,
              calls := [Callback.on_step, Callback.on_step, Callback.on_frame] }
    ∧ ∃ s1, frame 16 2 40000000 { accumulator := 5000000, timesteps := 0, calls := [] }
        = Outcome.ended s1
      ∧ s1.calls
        = ({ accumulator := 5000000, timesteps := 0, calls := [] } : State).calls
          ++ List.replicate
            ((({ accumulator := 5000000, timesteps := 0, calls := [] } : State).accumulator
              + clamp 40000000 0 300000000) / (16 * 1000000)).toNat Callback.on_step
          ++ [Callback.on_frame] :=
  ⟨by decide,
   let ⟨s1, h1, h2, _⟩ := (frame_steps_then_presents 16 40000000
     { accumulator := 5000000, timesteps := 0, calls := [] } 2
     (by decide) (by decide) (by decide) (by decide) (by decide)).2.2
   ⟨s1, h1, h2⟩⟩

/-- Counterexample to C30: with the positive timestep of 9223372036855 ms
the step loop does not end: the conversion of the timestep to nanoseconds
in the loop condition overflows the 64-bit representation, with however
many passes allowed. With the negative timestep of -9223372036854 ms the
loop does not run on for ever either: the second subtraction takes the
accumulator out of the 64-bit range. -/
theorem step_loop_undefined_for_large_timestep :
    (0 : Int) < 9223372036855
    ∧ ({ accumulator := 0, timesteps := 0, calls := [] } : State).accumulator
        < 9223372036855 * 1000000
    ∧ (∀ fuel, step_loop 9223372036855 fuel { accumulator := 0, timesteps := 0, calls := [] }
        = Outcome.undefined Undefined.signed_overflow)
    ∧ frame 9223372036855 19 0 { accumulator := 0, timesteps := 0, calls := [] }
        = Outcome.undefined Undefined.signed_overflow
    ∧ nanoseconds (-9223372036854) = some (-9223372036854000000)
    ∧ step_loop (-9223372036854) 1 { accumulator := 0, timesteps := 0, calls := [] }
        = Outcome.running
    ∧ step_loop (-9223372036854) 2 { accumulator := 0, timesteps := 0, calls := [] }
        = Outcome.undefined Undefined.signed_overflow :=
  ⟨by decide, by decide,
   fun fuel => step_loop_conversion_overflows _ (by decide) fuel _,
   by decide, by decide, by decide, by decide⟩

/-- C30, amended: from an accumulator that is not negative, as it is from
the start of the run on, an iteration gets through its step loop exactly
when the timestep T is positive, at most 9223372036854 ms, so that its
count of nanoseconds is representable, and the accumulator stays
representable on taking the clamped frame time, as it does from below a T
of at most 9223372036554 ms. For such a T and an accumulator below T the
number of steps of the iteration is at most floor((T - 1 ns + 300 ms) / T),
which is 19 for the timestep of 16 ms. For T = 0 the loop is still running
after any number of passes. For T < 0 no pass leaves the loop, and after
finitely many passes the accumulator overflows. For a T beyond
9223372036854 ms either way the conversion of T overflows at once. -/
theorem step_loop_ends_iff_positive_in_range (timestep frame_time : Int) (s : State)
    (h0 : 0 ≤ s.accumulator) :
    ((∃ fuel s1, frame timestep fuel frame_time s = Outcome.ended s1)
      ↔ (0 < timestep ∧ timestep ≤ 9223372036854
          ∧ s.accumulator + clamp frame_time 0 300000000 ≤ INT64_MAX))
    ∧ (timestep ≤ 9223372036554 → s.accumulator < timestep * 1000000 →
        s.accumulator + clamp frame_time 0 300000000 ≤ INT64_MAX)
    ∧ (0 < timestep → timestep ≤ 9223372036854 → s.accumulator < timestep * 1000000 →
        s.accumulator + clamp frame_time 0 300000000 ≤ INT64_MAX →
        ∃ steps : Nat,
          (steps : Int) ≤ (timestep * 1000000 - 1 + 300000000) / (timestep * 1000000)
          ∧ ∀ fuel, steps ≤ fuel → ∃ s1, frame timestep fuel frame_time s = Outcome.ended s1
            ∧ s1.calls = s.calls ++ List.replicate steps Callback.on_step
                ++ [Callback.on_frame])
    ∧ (timestep = 0 → s.accumulator + clamp frame_time 0 300000000 ≤ INT64_MAX →
        ∀ fuel, frame timestep fuel frame_time s = Outcome.running)
    ∧ (timestep < 0 →
        (∀ fuel, frame timestep fuel frame_time s = Outcome.running
          ∨ frame timestep fuel frame_time s = Outcome.undefined Undefined.signed_overflow)
        ∧ ∃ fuel, frame timestep fuel frame_time s
            = Outcome.undefined Undefined.signed_overflow)
    ∧ (timestep < -9223372036854 ∨ 9223372036854 < timestep →
        ∀ fuel, frame timestep fuel frame_time s
          = Outcome.undefined Undefined.signed_overflow)
    ∧ ((16 : Int) * 1000000 - 1 + 300000000) / (16 * 1000000) = 19 := by
  have hcl := clamp_bounds frame_time 0 300000000 (by decide)
  have hpos : 0 ≤ s.accumulator + clamp frame_time 0 300000000 := by omega
  refine ⟨⟨?_, ?_⟩, accumulator_stays_in_range timestep frame_time s.accumulator,
    ?_, ?_, ?_, ?_, by decide⟩
  · rintro ⟨fuel, s1, hended⟩
    have hsum : s.accumulator + clamp frame_time 0 300000000 ≤ INT64_MAX := by
      by_contra hover
      rw [frame_accumulator_overflows timestep frame_time s fuel
        (int64_overflow _ (Or.inr (by omega)))] at hended
      exact Outcome.noConfusion hended
    by_cases hr : timestep ≤ 0 ∨ 9223372036854 < timestep
    · rcases frame_never_ends timestep frame_time s fuel hr h0 with h | h
      · rw [h] at hended
        exact Outcome.noConfusion hended
      · rw [h] at hended
        exact Outcome.noConfusion hended
    · exact ⟨by omega, by omega, hsum⟩
  · rintro ⟨ht, hmax, hsum⟩
    obtain ⟨timesteps, hframe⟩ :=
      frame_exits timestep frame_time s _ ht hmax h0 hsum (le_refl _)
    exact ⟨_, _, hframe⟩
  · intro ht hmax h1 hsum
    have hT : 0 < timestep * 1000000 := by omega
    have hq : 0 ≤ (s.accumulator + clamp frame_time 0 300000000)
        / (timestep * 1000000) := Int.ediv_nonneg hpos (le_of_lt hT)
    refine ⟨((s.accumulator + clamp frame_time 0 300000000)
      / (timestep * 1000000)).toNat, ?_, ?_⟩
    · rw [Int.toNat_of_nonneg hq]
      exact Int.ediv_le_ediv hT (by omega)
    · intro fuel hfuel
      obtain ⟨timesteps, hframe⟩ :=
        frame_exits timestep frame_time s fuel ht hmax h0 hsum hfuel
      exact ⟨_, hframe, rfl⟩
  · intro ht hsum fuel
    subst ht
    have hadd : int64 (s.accumulator + clamp frame_time 0 300000000)
        = some (s.accumulator + clamp frame_time 0 300000000) :=
      int64_of_range _ (by simp only [INT64_MIN]; omega) hsum
    have hrun := step_loop_runs_on fuel
      { s with accumulator := s.accumulator + clamp frame_time 0 300000000 } hpos hsum
    simp only [frame_unfold, hadd, hrun]
  · intro ht
    exact ⟨fun fuel => frame_never_ends timestep frame_time s fuel (Or.inl (by omega)) h0,
      frame_overflows timestep frame_time s ht h0⟩
  · intro hr fuel
    exact frame_conversion_overflows timestep frame_time s fuel (nanoseconds_overflow timestep hr)

/-- Witness for C30: timestep 16 ms, 5 ms in the accumulator, a frame of
40 ms: the iteration gets through its step loop. -/
theorem step_loop_ends_iff_positive_in_range_witness :
    (0 : Int) ≤ ({ accumulator := 5000000, timesteps := 0, calls := [] } : State).accumulator
    ∧ ∃ fuel s1, frame 16 fuel 40000000 { accumulator := 5000000, timesteps := 0, calls := [] }
        = Outcome.ended s1 :=
  ⟨by decide,
   (step_loop_ends_iff_positive_in_range 16 40000000
     { accumulator := 5000000, timesteps := 0, calls := [] } (by decide)).1.2
     ⟨by decide, by decide, by decide⟩⟩

end Mainloop

end utility

end application
